import Mathlib

/-!
# Walking-teleoperation: tactile pipeline and gaze retargeting

Shallow embedding of

* `modules/HapticGlove_module/src/RobotSkin.cpp` and `include/RobotSkin.hpp`
  (configuration, tactile calibration, sample collection, contact detection,
  contact strength, vibrotactile feedback);
* `modules/SRanipal_module/src/GazeRetargeting.cpp`
  (soft velocity saturation, deadzone filter, quantization, ray/plane
  intersection, eye velocities, activation, the update loop, homing).

`double` values are modelled in two ways.

* By an arbitrary linearly ordered field `α` (exact arithmetic: no rounding, no
  NaN, no infinities), for the properties that do not depend on rounding or on
  NaN.  The definitions are computable and can be run at `α := ℚ`; the theorems
  that need the real hyperbolic tangent are stated at `α := ℝ`.
* By the type `Cxx.Double`: NaN, the two infinities, and the finite values, with
  every arithmetic result rounded to a significand of 53 bits (nearest, ties
  to even).  The exponent range is unbounded and the zero is unsigned, so
  overflow, subnormal values and the sign of zero are not modelled.  This
  model is used where NaN or rounding decides the property: the saturation
  and the blend of `computeVibrotactileFeedback`, and the mean and standard
  deviation of `computeCalibrationParamters`.

The definitions of `computeVibrotactileFeedback` and of
`computeCalibrationParamters`, and `std::max` and `std::min`, are written once,
over any type `β` with the operations they use, and are read at a field or at
`Cxx.Double`.  Library functions of `<cmath>` (`std::log`, `std::pow`,
`std::sqrt`, `std::tanh`, `std::abs`) are parameters of the definitions that
call them; over `Cxx.Double`, `std::sqrt` is correctly rounded and `std::log`
and `std::pow` take the special values of the C standard, their finite values
being left arbitrary.  A `std::vector<double>` is a `List α`; reading index
`i` is `getD i 0` and writing index `i` is `List.set`, so the theorems carry
the size hypotheses under which the C++ accesses are in bounds.
-/

namespace Cxx

variable {α : Type} [LinearOrderedField α]

/-- The function `std::max(a, b)` of `<algorithm>`: `(a < b) ? b : a`, for any type
with a comparison `<`. -/
def stdMax {β : Type} [LT β] [DecidableRel (fun a b : β => a < b)] (a b : β) : β :=
  if a < b then b else a

/-- The function `std::min(a, b)` of `<algorithm>`: `(b < a) ? b : a`, for any type
with a comparison `<`. -/
def stdMin {β : Type} [LT β] [DecidableRel (fun a b : β => a < b)] (a b : β) : β :=
  if b < a then b else a

/-- The function `std::round` of `<cmath>`: the nearest integer, halfway cases away
from zero. -/
def stdRound [FloorRing α] (x : α) : ℤ := if 0 ≤ x then ⌊x + 1 / 2⌋ else ⌈x - 1 / 2⌉

/-- The number of binary digits of `n`, computed with `fuel` halvings at most. -/
def bitLengthAux : ℕ → ℕ → ℕ
  | 0, _ => 0
  | fuel + 1, n => if n = 0 then 0 else bitLengthAux fuel (n / 2) + 1

/-- The number of binary digits of `n` (0 for `n = 0`). -/
def bitLength (n : ℕ) : ℕ := bitLengthAux n n

/-- The exponent of a positive rational: the integer `e` with `2^e ≤ x < 2^(e+1)`. -/
def floorLog2 (x : ℚ) : ℤ :=
  if (2 : ℚ) ^ ((bitLength x.num.natAbs : ℤ) - (bitLength x.den : ℤ)) ≤ x then
    (bitLength x.num.natAbs : ℤ) - (bitLength x.den : ℤ)
  else (bitLength x.num.natAbs : ℤ) - (bitLength x.den : ℤ) - 1

/-- Rounding to the nearest integer, ties to the even one. -/
def roundHalfEven (n : ℚ) : ℤ :=
  if n - ⌊n⌋ < 1 / 2 then ⌊n⌋
  else if 1 / 2 < n - ⌊n⌋ then ⌊n⌋ + 1
  else if ⌊n⌋ % 2 = 0 then ⌊n⌋ else ⌊n⌋ + 1

/-- Rounding of a rational to the nearest value with a significand of 53 bits, ties
to even: the rounding of binary64 arithmetic, with an unbounded exponent range. -/
def round53 (x : ℚ) : ℚ :=
  if x = 0 then 0
  else (roundHalfEven (x / 2 ^ (floorLog2 |x| - 52)) : ℚ) * 2 ^ (floorLog2 |x| - 52)

/-- A `double`: not-a-number, the two infinities, or a finite value. -/
inductive Double where
  | nan : Double
  | ninf : Double
  | fin (x : ℚ) : Double
  | pinf : Double
  deriving DecidableEq

namespace Double

/-- Negation. -/
def neg : Double → Double
  | nan => nan
  | ninf => pinf
  | fin x => fin (-x)
  | pinf => ninf

/-- Addition: the exact sum rounded; `∞ + (-∞)` is NaN. -/
def add : Double → Double → Double
  | nan, _ => nan
  | ninf, nan => nan
  | ninf, ninf => ninf
  | ninf, fin _ => ninf
  | ninf, pinf => nan
  | fin _, nan => nan
  | fin _, ninf => ninf
  | fin x, fin y => fin (round53 (x + y))
  | fin _, pinf => pinf
  | pinf, nan => nan
  | pinf, ninf => nan
  | pinf, fin _ => pinf
  | pinf, pinf => pinf

/-- The infinity with the sign of `x`, NaN for `x = 0`: the product `x * ∞`. -/
def signedInf (x : ℚ) : Double := if x = 0 then nan else if 0 < x then pinf else ninf

/-- Multiplication: the exact product rounded; `0 * ±∞` is NaN. -/
def mul : Double → Double → Double
  | nan, _ => nan
  | ninf, nan => nan
  | ninf, ninf => pinf
  | ninf, fin y => signedInf (-y)
  | ninf, pinf => ninf
  | fin _, nan => nan
  | fin x, ninf => signedInf (-x)
  | fin x, fin y => fin (round53 (x * y))
  | fin x, pinf => signedInf x
  | pinf, nan => nan
  | pinf, ninf => ninf
  | pinf, fin y => signedInf y
  | pinf, pinf => pinf

/-- Division: the exact quotient rounded; `0 / 0` and `∞ / ∞` are NaN, a non-zero
value over zero is an infinity (the zero is taken positive). -/
def div : Double → Double → Double
  | nan, _ => nan
  | ninf, nan => nan
  | ninf, ninf => nan
  | ninf, fin y => if 0 ≤ y then ninf else pinf
  | ninf, pinf => nan
  | fin _, nan => nan
  | fin _, ninf => fin 0
  | fin x, fin y => if y = 0 then signedInf x else fin (round53 (x / y))
  | fin _, pinf => fin 0
  | pinf, nan => nan
  | pinf, ninf => nan
  | pinf, fin y => if 0 ≤ y then pinf else ninf
  | pinf, pinf => nan

/-- The comparison `a < b`: false as soon as one operand is NaN. -/
def blt : Double → Double → Bool
  | ninf, fin _ => true
  | ninf, pinf => true
  | fin x, fin y => decide (x < y)
  | fin _, pinf => true
  | _, _ => false

/-- The function `std::abs`. -/
def abs : Double → Double
  | nan => nan
  | ninf => pinf
  | fin x => fin |x|
  | pinf => pinf

instance : Zero Double := ⟨fin 0⟩

instance : One Double := ⟨fin 1⟩

instance : OfNat Double 100 := ⟨fin 100⟩

instance : NatCast Double := ⟨fun n => fin (round53 n)⟩

instance : Neg Double := ⟨neg⟩

instance : Add Double := ⟨add⟩

instance : Sub Double := ⟨fun a b => add a (neg b)⟩

instance : Mul Double := ⟨mul⟩

instance : Div Double := ⟨div⟩

instance : LT Double := ⟨fun a b => blt a b = true⟩

instance : DecidableRel (fun a b : Double => a < b) :=
  fun a b => inferInstanceAs (Decidable (blt a b = true))

end Double

/-- One step of the digit-by-digit integer square root: bit `i` and below. -/
def sqrtBits (n : ℕ) : ℕ → ℕ → ℕ
  | 0, r => if (r + 1) * (r + 1) ≤ n then r + 1 else r
  | i + 1, r =>
    if (r + 2 ^ (i + 1)) * (r + 2 ^ (i + 1)) ≤ n then sqrtBits n i (r + 2 ^ (i + 1))
    else sqrtBits n i r

/-- The integer square root `⌊√n⌋`. -/
def natSqrt (n : ℕ) : ℕ := sqrtBits n (bitLength n / 2 + 1) 0

/-- The function `std::sqrt` on a positive rational, correctly rounded: the integer
square root of `x * 4^k` has more than 53 bits, and half a unit is added when
it is not exact so that the rounding sees on which side of it the root is. -/
def sqrt53 (x : ℚ) : ℚ :=
  round53
    (((natSqrt ⌊x * 4 ^ (60 - floorLog2 x / 2)⌋.toNat : ℚ)
      + (if (natSqrt ⌊x * 4 ^ (60 - floorLog2 x / 2)⌋.toNat : ℚ)
            * natSqrt ⌊x * 4 ^ (60 - floorLog2 x / 2)⌋.toNat = x * 4 ^ (60 - floorLog2 x / 2)
          then 0 else 1 / 2))
      / 2 ^ (60 - floorLog2 x / 2))

/-- The function `std::sqrt`. -/
def Double.sqrt : Double → Double
  | .nan => .nan
  | .ninf => .nan
  | .fin x => if x < 0 then .nan else if x = 0 then .fin 0 else .fin (sqrt53 x)
  | .pinf => .pinf

/-- The function `std::log`: NaN for a negative argument, `-∞` at zero, and
`logFin x`, the rounded natural logarithm, for a finite `x > 0`. -/
def Double.log (logFin : ℚ → ℚ) : Double → Double
  | .nan => .nan
  | .ninf => .nan
  | .fin x => if x < 0 then .nan else if x = 0 then .ninf else .fin (logFin x)
  | .pinf => .pinf

/-- The function `std::pow`, with the special values of the C standard (the zero is
taken positive): `pow(x, 0) = 1` and `pow(1, y) = 1` even for a NaN operand,
`pow(0, y)` is 0 for `y > 0` and `+∞` for `y < 0`, a negative base with a
non-integer exponent gives NaN, and `powFin x y` is the rounded power for the
other finite operands. -/
def Double.pow (powFin : ℚ → ℚ → ℚ) : Double → Double → Double
  | .nan, .nan => .nan
  | .nan, .ninf => .nan
  | .nan, .fin y => if y = 0 then .fin 1 else .nan
  | .nan, .pinf => .nan
  | .ninf, .nan => .nan
  | .ninf, .ninf => .fin 0
  | .ninf, .fin y =>
    if y = 0 then .fin 1 else if y < 0 then .fin 0
    else if y.den = 1 ∧ y.num % 2 = 1 then .ninf else .pinf
  | .ninf, .pinf => .pinf
  | .fin x, .nan => if x = 1 then .fin 1 else .nan
  | .fin x, .ninf => if |x| < 1 then .pinf else if |x| = 1 then .fin 1 else .fin 0
  | .fin x, .fin y =>
    if y = 0 then .fin 1
    else if x = 0 then (if y < 0 then .pinf else .fin 0)
    else if x < 0 ∧ y.den ≠ 1 then .nan
    else .fin (powFin x y)
  | .fin x, .pinf => if |x| < 1 then .fin 0 else if |x| = 1 then .fin 1 else .pinf
  | .pinf, .nan => .nan
  | .pinf, .ninf => .fin 0
  | .pinf, .fin y => if y = 0 then .fin 1 else if y < 0 then .fin 0 else .pinf
  | .pinf, .pinf => .pinf

end Cxx

namespace HapticGlove

variable {α : Type} [LinearOrderedField α]

open Cxx

/-- The loop of `std::max_element` after its first element: `i` is the index
of the element under the cursor, `li` and `lv` the index and value of the
largest element so far; the cursor replaces it only when `lv < x`. -/
def maxElementLoop : List α → Nat → Nat → α → Nat
  | [], _, li, _ => li
  | x :: xs, i, li, lv =>
    if lv < x then maxElementLoop xs (i + 1) i x else maxElementLoop xs (i + 1) li lv

/-- The call `std::distance(v.begin(), std::max_element(v.begin(), v.end()))`:
the index of the first greatest element (`v.size()`, that is `end`, when `v`
is empty). -/
def maxElementIndex : List α → Nat
  | [] => 0
  | x :: xs => maxElementLoop xs 1 0 x

/-- The member `maxTactileValue = 255.0` of `FingertipTactileData`. -/
def maxTactileValue : α := 255

/-- The member `minTactileValue = 0.0` of `FingertipTactileData`. -/
def minTactileValue : α := 0

/-- The struct `FingertipTactileData`, with the members that `RobotSkin.cpp`
reads and writes.  The flag `firstTime` and the derivative members are used by
`RobotSkin.cpp` but declared in a revision of the header that is not part of
the sources; they are taken from their uses in `RobotSkin.cpp`. -/
structure FingertipTactileData (α : Type) where
  indexStart : Nat
  indexEnd : Nat
  noTactileSensors : Nat
  rawTactileData : List α
  tactileData : List α
  calibratedTactileData : List α
  previousCalibratedTactileData : List α
  tactileDataDerivative : List α
  contactThresholdValue : α
  vibrotactileGain : α
  vibrotactileDerivativeGain : α
  contactDerivativeThresholdValue : α
  biasTactileSensor : List α
  stdTactileSensor : List α
  biasTactileSensorDerivative : List α
  stdTactileSensorDerivative : List α
  collectedTactileData : List (List α)
  collectedTactileDataDerivative : List (List α)
  firstTime : Bool

/-- The method `FingertipTactileData::maxTactileFeedbackValue` of
`RobotSkin.hpp`: `*std::max_element(calibratedTactileData)`. -/
def FingertipTactileData.maxTactileFeedbackValue (f : FingertipTactileData α) : α :=
  f.calibratedTactileData.getD (maxElementIndex f.calibratedTactileData) 0

/-- Modelled from the spec: `maxTactileFeedbackAbsoluteValue`, called by
`RobotSkin.cpp` and absent from the header in the sources, is the
"maxCalibratedValue" of the spec, the greatest calibrated value of the finger
(the body of `maxTactileFeedbackValue` of the header). -/
def FingertipTactileData.maxTactileFeedbackAbsoluteValue (f : FingertipTactileData α) : α :=
  f.maxTactileFeedbackValue

/-- The method `FingertipTactileData::contactThreshold` of `RobotSkin.hpp`:
`contactThresholdValue * stdTactileSensor[index of the max calibrated value]`. -/
def FingertipTactileData.contactThreshold (f : FingertipTactileData α) : α :=
  f.contactThresholdValue * f.stdTactileSensor.getD (maxElementIndex f.calibratedTactileData) 0

/-- Modelled from the spec: `maxTactileFeedbackDerivativeValue`, called by
`RobotSkin.cpp` and absent from the header in the sources, is the
"maxDerivativeValue" of the spec, the greatest stored derivative of the
finger. -/
def FingertipTactileData.maxTactileFeedbackDerivativeValue (f : FingertipTactileData α) : α :=
  f.tactileDataDerivative.getD (maxElementIndex f.tactileDataDerivative) 0

/-- Modelled from the spec: `contactDerivativeThreshold`, called by
`RobotSkin.cpp` and absent from the header in the sources, is
"derivativeThresholdMultiplier × derivativeStd", the derivative std taken at
the sensor of the greatest derivative ("derivative contact threshold
similarly"). -/
def FingertipTactileData.contactDerivativeThreshold (f : FingertipTactileData α) : α :=
  f.contactDerivativeThresholdValue
    * f.stdTactileSensorDerivative.getD (maxElementIndex f.tactileDataDerivative) 0

/-- The vectors of a finger all have `noTactileSensors` entries, as
`RobotSkin::configure` sizes them (`resize(fingerdata.noTactileSensors)`). -/
structure FingertipTactileData.Sized (f : FingertipTactileData α) : Prop where
  raw : f.rawTactileData.length = f.noTactileSensors
  tactile : f.tactileData.length = f.noTactileSensors
  calibrated : f.calibratedTactileData.length = f.noTactileSensors
  previous : f.previousCalibratedTactileData.length = f.noTactileSensors
  derivative : f.tactileDataDerivative.length = f.noTactileSensors
  bias : f.biasTactileSensor.length = f.noTactileSensors
  std : f.stdTactileSensor.length = f.noTactileSensors
  biasDerivative : f.biasTactileSensorDerivative.length = f.noTactileSensors
  stdDerivative : f.stdTactileSensorDerivative.length = f.noTactileSensors

/-- The class `RobotSkin`: the members used by the tactile pipeline. -/
structure RobotSkin (α : Type) where
  m_noFingers : Nat
  m_totalNoTactile : Nat
  m_samplingTime : α
  m_tactileWorkingThreshold : α
  m_tactileUpdateThreshold : α
  m_fingersTactileData : List (FingertipTactileData α)
  m_areTactileSensorsWorking : List Bool
  m_areFingersInContact : List Bool
  m_areFingersContactChanges : List Bool
  m_fingertipRawTactileFeedbacksStdVector : List α
  m_fbParams : List α
  m_absoluteSkinValuePercentage : α
  m_smoothingGainDerivative : α
  m_fingersContactStrength : List α
  m_fingersContactStrengthDerivate : List α
  m_fingersContactStrengthDerivateSmoothed : List α
  m_fingersVibrotactileAbsoluteFeedback : List α
  m_fingersVibrotactileDerivativeFeedback : List α
  m_fingersVibrotactileTotalFeedback : List α

/-- One iteration (`i`) of the sensor loop of
`RobotSkin::updateCalibratedTactileData`, statement by statement.  The local
`checkUpdated` of the function is computed and never read, so it is left out. -/
def updateSensor (raw : List α) (m_samplingTime m_tactileUpdateThreshold : α)
    (finger : FingertipTactileData α) (i : Nat) : FingertipTactileData α :=
  let f1 := { finger with
    rawTactileData := finger.rawTactileData.set i (raw.getD (i + finger.indexStart) 0) }
  let f2 := { f1 with
    tactileData := f1.tactileData.set i
      (stdMax (stdMin (f1.rawTactileData.getD i 0) maxTactileValue) minTactileValue) }
  let f3 := { f2 with
    tactileData := f2.tactileData.set i (1 - f2.tactileData.getD i 0 / maxTactileValue) }
  let f4 := { f3 with
    calibratedTactileData := f3.calibratedTactileData.set i
      (f3.tactileData.getD i 0 - f3.biasTactileSensor.getD i 0) }
  let f5 :=
    if !f4.firstTime then
      let tactileDerivative :=
        (f4.calibratedTactileData.getD i 0 - f4.previousCalibratedTactileData.getD i 0)
          / m_samplingTime
      if tactileDerivative > m_tactileUpdateThreshold then
        { f4 with
          tactileDataDerivative := f4.tactileDataDerivative.set i
            (tactileDerivative - f4.biasTactileSensorDerivative.getD i 0) }
      else f4
    else f4
  let f6 := { f5 with firstTime := false }
  { f6 with
    previousCalibratedTactileData := f6.previousCalibratedTactileData.set i
      (f6.calibratedTactileData.getD i 0) }

/-- The sensor loop `for (size_t i = 0; i < finger.noTactileSensors; i++)` of
`RobotSkin::updateCalibratedTactileData` on one finger. -/
def updateFinger (raw : List α) (m_samplingTime m_tactileUpdateThreshold : α)
    (finger : FingertipTactileData α) : FingertipTactileData α :=
  (List.range finger.noTactileSensors).foldl
    (updateSensor raw m_samplingTime m_tactileUpdateThreshold) finger

/-- The method `RobotSkin::updateCalibratedTactileData`: the sensor loop on every
finger of `m_fingersTactileData`, reading `m_fingertipRawTactileFeedbacksStdVector`. -/
def updateCalibratedTactileData (s : RobotSkin α) : RobotSkin α :=
  { s with
    m_fingersTactileData := s.m_fingersTactileData.map
      (updateFinger s.m_fingertipRawTactileFeedbacksStdVector s.m_samplingTime
        s.m_tactileUpdateThreshold) }

/-- The per-finger part of `RobotSkin::configure` (the body of the loop over
`robotFingerNameList`) on the vector `<finger>_tactile_info` read from the
configuration: `none` is `return false`, `some fingerdata` is the element pushed
on `m_fingersTactileData`.  Modelled from the spec: the initial value `true` of
`firstTime`, whose declaration is in a header revision absent from the sources
("on the first ever sample ... the first-sample flag is cleared"). -/
def configureFinger [FloorRing α] (tactileInfo : List α) : Option (FingertipTactileData α) :=
  if tactileInfo.length ≠ 6 then none
  else
    let check := decide (stdRound (tactileInfo.getD 0 0) ≥ 0)
      && decide (stdRound (tactileInfo.getD 1 0) > 0)
      && decide (stdRound (tactileInfo.getD 0 0) ≤ stdRound (tactileInfo.getD 1 0))
    if !check then none
    else if ¬ (tactileInfo.getD 2 0 ≥ 0) then none
    else
      let indexStart := (stdRound (tactileInfo.getD 0 0)).toNat
      let indexEnd := (stdRound (tactileInfo.getD 1 0)).toNat
      let noTactileSensors := indexEnd - indexStart + 1
      some
        { indexStart := indexStart
          indexEnd := indexEnd
          noTactileSensors := noTactileSensors
          contactThresholdValue := tactileInfo.getD 2 0
          vibrotactileGain := tactileInfo.getD 3 0
          vibrotactileDerivativeGain := tactileInfo.getD 4 0
          contactDerivativeThresholdValue := tactileInfo.getD 5 0
          rawTactileData := List.replicate noTactileSensors 0
          tactileData := List.replicate noTactileSensors 0
          biasTactileSensor := List.replicate noTactileSensors 0
          stdTactileSensor := List.replicate noTactileSensors 0
          calibratedTactileData := List.replicate noTactileSensors 0
          previousCalibratedTactileData := List.replicate noTactileSensors 0
          tactileDataDerivative := List.replicate noTactileSensors 0
          biasTactileSensorDerivative := List.replicate noTactileSensors 0
          stdTactileSensorDerivative := List.replicate noTactileSensors 0
          collectedTactileData := []
          collectedTactileDataDerivative := []
          firstTime := true }

/-- One iteration (`i`) of the loop of `RobotSkin::computeAreFingersInContact`. -/
def computeAreFingersInContactStep (s : RobotSkin α) (i : Nat) : RobotSkin α :=
  match s.m_fingersTactileData[i]? with
  | none => s
  | some finger =>
    let s1 := { s with
      m_areFingersInContact := s.m_areFingersInContact.set i
        (decide (finger.maxTactileFeedbackAbsoluteValue > finger.contactThreshold)) }
    { s1 with
      m_areFingersContactChanges := s1.m_areFingersContactChanges.set i
        (decide (finger.maxTactileFeedbackDerivativeValue > finger.contactDerivativeThreshold)) }

/-- The method `RobotSkin::computeAreFingersInContact`:
`for (size_t i = 0; i < m_noFingers; i++)`. -/
def computeAreFingersInContact (s : RobotSkin α) : RobotSkin α :=
  (List.range s.m_noFingers).foldl computeAreFingersInContactStep s

/-- One iteration (`i`) of the loop of `RobotSkin::computeVibrotactileFeedback`,
statement by statement, in any arithmetic `β`; `log`, `pow` and `abs` are
`std::log`, `std::pow` and `std::abs`. -/
def computeVibrotactileFeedbackStep {β : Type} [Zero β] [One β] [OfNat β 100] [Add β] [Sub β]
    [Mul β] [LT β] [DecidableRel (fun a b : β => a < b)] (log : β → β) (pow : β → β → β)
    (abs : β → β) (s : RobotSkin β) (i : Nat) : RobotSkin β :=
  match s.m_fingersTactileData[i]? with
  | none => s
  | some finger =>
    let x := finger.vibrotactileGain * s.m_fingersContactStrength.getD i 0
    let s1 := { s with
      m_fingersVibrotactileAbsoluteFeedback := s.m_fingersVibrotactileAbsoluteFeedback.set i
        (s.m_fbParams.getD 0 0
            * log (s.m_fbParams.getD 1 0 * pow x (s.m_fbParams.getD 2 0) + s.m_fbParams.getD 3 0)
          + s.m_fbParams.getD 4 0 * pow x (s.m_fbParams.getD 5 0)) }
    let s2 := { s1 with
      m_fingersVibrotactileDerivativeFeedback := s1.m_fingersVibrotactileDerivativeFeedback.set i
        (finger.vibrotactileDerivativeGain
          * abs (s1.m_fingersContactStrengthDerivateSmoothed.getD i 0)) }
    let s3 := { s2 with
      m_fingersVibrotactileAbsoluteFeedback := s2.m_fingersVibrotactileAbsoluteFeedback.set i
        (stdMax (stdMin (s2.m_fingersVibrotactileAbsoluteFeedback.getD i 0) 100) 0) }
    let s4 := { s3 with
      m_fingersVibrotactileDerivativeFeedback := s3.m_fingersVibrotactileDerivativeFeedback.set i
        (stdMax (stdMin (s3.m_fingersVibrotactileDerivativeFeedback.getD i 0) 100) 0) }
    { s4 with
      m_fingersVibrotactileTotalFeedback := s4.m_fingersVibrotactileTotalFeedback.set i
        (s4.m_absoluteSkinValuePercentage * s4.m_fingersVibrotactileAbsoluteFeedback.getD i 0
          + (1 - s4.m_absoluteSkinValuePercentage)
            * s4.m_fingersVibrotactileDerivativeFeedback.getD i 0) }

/-- The method `RobotSkin::computeVibrotactileFeedback`:
`for (size_t i = 0; i < m_noFingers; i++)`. -/
def computeVibrotactileFeedback {β : Type} [Zero β] [One β] [OfNat β 100] [Add β] [Sub β]
    [Mul β] [LT β] [DecidableRel (fun a b : β => a < b)] (log : β → β) (pow : β → β → β)
    (abs : β → β) (s : RobotSkin β) : RobotSkin β :=
  (List.range s.m_noFingers).foldl (computeVibrotactileFeedbackStep log pow abs) s

/-- Column `i` of an Eigen matrix held as the list of its rows (`M.col(i)`). -/
def eigenCol {β : Type} [Zero β] (M : List (List β)) (i : Nat) : List β :=
  M.map (fun row => row.getD i 0)

/-- The reduction `vec.mean()` of Eigen: `vec.sum() / vec.size()`, in any
arithmetic `β`.  The sum is taken in the order of `List.sum`; in rounded
arithmetic the order in which Eigen adds the entries may change the sum of a
vector of three entries or more. -/
def eigenMean {β : Type} [Zero β] [Add β] [Div β] [NatCast β] (vec : List β) : β :=
  vec.sum / (vec.length : β)

/-- The expression
`std::sqrt(((vec.array() - vec.mean()).square().sum()) / vec.size())`. -/
def eigenStd {β : Type} [Zero β] [Add β] [Sub β] [Mul β] [Div β] [NatCast β] (sqrt : β → β)
    (vec : List β) : β :=
  sqrt ((vec.map (fun v => (v - eigenMean vec) * (v - eigenMean vec))).sum / (vec.length : β))

/-- One iteration (`i`) of the sensor loop of `RobotSkin::computeCalibrationParamters`;
the second component is the local `tactileSenorsWork`. -/
def calibrateSensor {β : Type} [Zero β] [Add β] [Sub β] [Mul β] [Div β] [NatCast β] [LT β]
    [DecidableRel (fun a b : β => a < b)] (sqrt : β → β)
    (m_tactileWorkingThreshold : β) (st : FingertipTactileData β × Bool) (i : Nat) :
    FingertipTactileData β × Bool :=
  let data := st.1
  let vec := eigenCol data.collectedTactileData i
  let d1 := { data with biasTactileSensor := data.biasTactileSensor.set i (eigenMean vec) }
  let d2 := { d1 with stdTactileSensor := d1.stdTactileSensor.set i (eigenStd sqrt vec) }
  let vecDerivative := eigenCol d2.collectedTactileDataDerivative i
  let d3 := { d2 with
    biasTactileSensorDerivative := d2.biasTactileSensorDerivative.set i
      (eigenMean vecDerivative) }
  let d4 := { d3 with
    stdTactileSensorDerivative := d3.stdTactileSensorDerivative.set i
      (eigenStd sqrt vecDerivative) }
  (d4, st.2 || decide (d4.stdTactileSensor.getD i 0 > m_tactileWorkingThreshold))

/-- The sensor loop of `RobotSkin::computeCalibrationParamters` on one finger,
started with `tactileSenorsWork = false`. -/
def calibrateFinger {β : Type} [Zero β] [Add β] [Sub β] [Mul β] [Div β] [NatCast β] [LT β]
    [DecidableRel (fun a b : β => a < b)] (sqrt : β → β)
    (m_tactileWorkingThreshold : β) (data : FingertipTactileData β) :
    FingertipTactileData β × Bool :=
  (List.range data.noTactileSensors).foldl
    (calibrateSensor sqrt m_tactileWorkingThreshold) (data, false)

/-- The loop of `RobotSkin::computeCalibrationParamters` over the fingers still to
visit, with the local `counter` and the vector `m_areTactileSensorsWorking`.  The
result is the returned flag, the fingers and the vector; the `return false` of
the `counter > m_noFingers` test leaves the later fingers untouched. -/
def calibrationLoop {β : Type} [Zero β] [Add β] [Sub β] [Mul β] [Div β] [NatCast β] [LT β]
    [DecidableRel (fun a b : β => a < b)] (sqrt : β → β)
    (m_tactileWorkingThreshold : β) (m_noFingers : Nat) :
    List (FingertipTactileData β) → Nat → List Bool →
      Bool × List (FingertipTactileData β) × List Bool
  | [], _, working => (true, [], working)
  | data :: rest, counter, working =>
    let r := calibrateFinger sqrt m_tactileWorkingThreshold data
    if counter > m_noFingers then (false, r.1 :: rest, working)
    else
      let t := calibrationLoop sqrt m_tactileWorkingThreshold m_noFingers rest (counter + 1)
        (working.set counter r.2)
      (t.1, r.1 :: t.2.1, t.2.2)

/-- The method `RobotSkin::computeCalibrationParamters`: the returned flag and the
skin after the call; `sqrt` is `std::sqrt`. -/
def computeCalibrationParamters {β : Type} [Zero β] [Add β] [Sub β] [Mul β] [Div β] [NatCast β] [LT β]
    [DecidableRel (fun a b : β => a < b)] (sqrt : β → β)
    (s : RobotSkin β) : Bool × RobotSkin β :=
  let t := calibrationLoop sqrt s.m_tactileWorkingThreshold s.m_noFingers
    s.m_fingersTactileData 0 s.m_areTactileSensorsWorking
  (t.1, { s with m_fingersTactileData := t.2.1, m_areTactileSensorsWorking := t.2.2 })

end HapticGlove

namespace GazeRetargeting

variable {α : Type} [LinearOrderedField α]

open Cxx

/-- The method `GazeRetargeting::saturateRobotEyeVelocity`; `tanh` is `std::tanh`
and `m_tanhGain` the member read by the method. -/
def saturateRobotEyeVelocity (tanh : α → α) (m_tanhGain : α)
    (inputVelocity inputPosition maxVelocity jointLowerBound jointUpperBound : α) : α :=
  let velocityLowerLimit := tanh (m_tanhGain * (inputPosition - jointLowerBound)) * (-maxVelocity)
  let velocityUpperLimit := tanh (m_tanhGain * (jointUpperBound - inputPosition)) * maxVelocity
  stdMax velocityLowerLimit (stdMin inputVelocity velocityUpperLimit)

/-- The members of `GazeRetargeting::VRInterface` that `applyDeadzone` reads and
writes. -/
structure DeadzoneState (α : Type) where
  m_errorDeadzone : α
  m_errorDeadzoneActivation : α
  m_deadzoneMinActivationTimeInS : α
  m_deadzoneActive : Bool
  m_deadzoneActivationTime : α

/-- The method `GazeRetargeting::VRInterface::applyDeadzone`: the returned vector and
the members after the call.  `sqrt` is the square root of Eigen's `norm()`; `now` is
the value of `yarp::os::Time::now()` (the two calls in the source are on exclusive
paths: the first needs `timeCheckPerformedOnce`, the second its negation). -/
def applyDeadzone (sqrt : α → α) (now : α) (vr : DeadzoneState α) (input : α × α) :
    (α × α) × DeadzoneState α :=
  let output : α × α := (0, 0)
  let inputNorm := sqrt (input.1 * input.1 + input.2 * input.2)
  let deadzoneNotActiveAndErrorStillHigh :=
    !vr.m_deadzoneActive && decide (inputNorm > vr.m_errorDeadzone)
  let deadzoneActiveButErrorVeryHigh :=
    vr.m_deadzoneActive && decide (inputNorm > vr.m_errorDeadzoneActivation)
  let timeCheckNotActive := decide (vr.m_deadzoneMinActivationTimeInS ≤ 0)
  let timeCheckPerformedOnce := decide (vr.m_deadzoneActivationTime ≥ 0)
  let enoughTimePassed := timeCheckNotActive
    || (timeCheckPerformedOnce
        && decide (now - vr.m_deadzoneActivationTime ≥ vr.m_deadzoneMinActivationTimeInS))
  if (deadzoneActiveButErrorVeryHigh && enoughTimePassed) || deadzoneNotActiveAndErrorStillHigh
  then
    let vr1 := { vr with m_deadzoneActive := false }
    let vr2 := { vr1 with m_deadzoneActivationTime := -1 }
    (((1 - vr2.m_errorDeadzone / inputNorm) * input.1,
      (1 - vr2.m_errorDeadzone / inputNorm) * input.2), vr2)
  else
    let vr1 := { vr with m_deadzoneActive := true }
    let vr2 :=
      if deadzoneActiveButErrorVeryHigh && !timeCheckPerformedOnce then
        { vr1 with m_deadzoneActivationTime := now }
      else vr1
    let vr3 :=
      if !deadzoneActiveButErrorVeryHigh then { vr2 with m_deadzoneActivationTime := -1 }
      else vr2
    (output, vr3)

end GazeRetargeting

/-! ## Source embedding, continued: configuration, contact strength, sample
collection, quantization, gaze velocities, activation, update loop, homing -/

namespace HapticGlove

variable {α : Type} [LinearOrderedField α]

open Cxx

/-- The values that `RobotSkin::configure` reads from its `Searchable`: a scalar
field is the value of `config.check(key, default)`, an optional field is the
result of `getVectorFromSearchable` / `getStringFromSearchable` (`none` when the
helper returns false), the two flags say whether the analog sensor device opens
and whether its `IAnalogSensor` interface is obtained, and `tactile_info` maps a
finger name to the vector `<finger>_tactile_info`. -/
structure SkinConfig (α : Type) where
  samplingTime : α
  robot_finger_list : Option (List String)
  tactileWorkingThreshold : α
  tactileUpdateThreshold : α
  noTactileSensors : Nat
  remote_sensor_boards : Option String
  tactileDeviceOpens : Bool
  tactileInterfaceViewed : Bool
  absoluteVibrotactileFeedbackNonlinearFunctionParameters : Option (List α)
  absoluteSkinValuePercentage : α
  skinDerivativeSmoothingGain : α
  tactile_info : String → Option (List α)

/-- The loop `for (const auto& finger : robotFingerNameList)` of
`RobotSkin::configure`: `none` as soon as one finger makes it `return false`,
otherwise the fingers pushed on `m_fingersTactileData`, in order. -/
def configureFingers [FloorRing α] (tactile_info : String → Option (List α)) :
    List String → Option (List (FingertipTactileData α))
  | [] => some []
  | finger :: rest =>
    match tactile_info finger with
    | none => none
    | some tactileInfo =>
      match configureFinger tactileInfo with
      | none => none
      | some fingerdata =>
        match configureFingers tactile_info rest with
        | none => none
        | some others => some (fingerdata :: others)

/-- The method `RobotSkin::configure` on a freshly constructed `RobotSkin`: `none`
is `return false`, `some s` is the object after `return true`. -/
def configure [FloorRing α] (config : SkinConfig α) : Option (RobotSkin α) :=
  match config.robot_finger_list with
  | none => none
  | some robotFingerNameList =>
    let m_noFingers := robotFingerNameList.length
    match config.remote_sensor_boards with
    | none => none
    | some _ =>
      if !config.tactileDeviceOpens then none
      else if !config.tactileInterfaceViewed then none
      else
        match config.absoluteVibrotactileFeedbackNonlinearFunctionParameters with
        | none => none
        | some m_fbParams =>
          if m_fbParams.length ≠ 6 then none
          else if config.absoluteSkinValuePercentage < 0
              ∨ config.absoluteSkinValuePercentage > 1 then none
          else
            match configureFingers config.tactile_info robotFingerNameList with
            | none => none
            | some fingers =>
              some
                { m_noFingers := m_noFingers
                  m_totalNoTactile := (fingers.map (fun f => f.noTactileSensors)).sum
                  m_samplingTime := config.samplingTime
                  m_tactileWorkingThreshold := config.tactileWorkingThreshold
                  m_tactileUpdateThreshold := config.tactileUpdateThreshold
                  m_fingersTactileData := fingers
                  m_areTactileSensorsWorking := List.replicate m_noFingers false
                  m_areFingersInContact := List.replicate m_noFingers false
                  m_areFingersContactChanges := List.replicate m_noFingers false
                  m_fingertipRawTactileFeedbacksStdVector :=
                    List.replicate config.noTactileSensors 0
                  m_fbParams := m_fbParams
                  m_absoluteSkinValuePercentage := config.absoluteSkinValuePercentage
                  m_smoothingGainDerivative := config.skinDerivativeSmoothingGain
                  m_fingersContactStrength := List.replicate m_noFingers 0
                  m_fingersContactStrengthDerivate := List.replicate m_noFingers 0
                  m_fingersContactStrengthDerivateSmoothed := List.replicate m_noFingers 0
                  m_fingersVibrotactileAbsoluteFeedback := List.replicate m_noFingers 0
                  m_fingersVibrotactileDerivativeFeedback := List.replicate m_noFingers 0
                  m_fingersVibrotactileTotalFeedback := List.replicate m_noFingers 0 }

/-- One iteration (`i`) of the loop of `RobotSkin::computeMaxContactStrength`,
statement by statement. -/
def computeMaxContactStrengthStep (s : RobotSkin α) (i : Nat) : RobotSkin α :=
  match s.m_fingersTactileData[i]? with
  | none => s
  | some finger =>
    let s1 := { s with
      m_fingersContactStrength := s.m_fingersContactStrength.set i
        (if s.m_areFingersInContact.getD i false then finger.maxTactileFeedbackAbsoluteValue
          else 0) }
    let s2 := { s1 with
      m_fingersContactStrengthDerivate := s1.m_fingersContactStrengthDerivate.set i
        (if s1.m_areFingersInContact.getD i false then
            finger.maxTactileFeedbackDerivativeValue
          else 0) }
    let s3 := { s2 with
      m_fingersContactStrengthDerivate := s2.m_fingersContactStrengthDerivate.set i
        (if s2.m_areFingersContactChanges.getD i false then
            s2.m_fingersContactStrengthDerivate.getD i 0
          else 0) }
    { s3 with
      m_fingersContactStrengthDerivateSmoothed :=
        s3.m_fingersContactStrengthDerivateSmoothed.set i
          (s3.m_smoothingGainDerivative * s3.m_fingersContactStrengthDerivate.getD i 0
            + (1 - s3.m_smoothingGainDerivative)
              * s3.m_fingersContactStrengthDerivateSmoothed.getD i 0) }

/-- The method `RobotSkin::computeMaxContactStrength`:
`for (size_t i = 0; i < m_noFingers; i++)`. -/
def computeMaxContactStrength (s : RobotSkin α) : RobotSkin α :=
  (List.range s.m_noFingers).foldl computeMaxContactStrengthStep s

/-- Modelled from the spec: `CtrlHelper::push_back_row`, defined outside the
sources, adds `values` as a new last row of the matrix of collected samples
("a matrix of N previously collected raw-normalized samples per channel"); its
failure is not modelled. -/
def push_back_row (m : List (List α)) (values : List α) : List (List α) := m ++ [values]

/-- The body of the loop of `RobotSkin::collectSkinDataForCalibration` on one
finger: `tactileData` and `tactileDataDerivative` are added as new rows of the
two matrices of collected samples. -/
def collectFinger (data : FingertipTactileData α) : FingertipTactileData α :=
  let d1 := { data with
    collectedTactileData := push_back_row data.collectedTactileData data.tactileData }
  { d1 with
    collectedTactileDataDerivative :=
      push_back_row d1.collectedTactileDataDerivative d1.tactileDataDerivative }

/-- The method `RobotSkin::collectSkinDataForCalibration`:
`for (auto& data : m_fingersTactileData)`; the skin after `return true`. -/
def collectSkinDataForCalibration (s : RobotSkin α) : RobotSkin α :=
  { s with m_fingersTactileData := s.m_fingersTactileData.map collectFinger }

end HapticGlove

namespace GazeRetargeting

variable {α : Type} [LinearOrderedField α]

open Cxx

/-- The conversion `static_cast<int>` of an integral value to a 32-bit `int`, as
two's-complement wrap-around; it is the identity on `[-2^31, 2^31)`.  (For a
`double` outside this range the C++ conversion is undefined; the model takes
the wrap-around.) -/
def intCast32 (z : ℤ) : ℤ := (z + 2 ^ 31) % 2 ^ 32 - 2 ^ 31

/-- The method `GazeRetargeting::VRInterface::applyQuantization`:
`int level = static_cast<int>(std::round(input / quantization));
return level * quantization;`. -/
def applyQuantization [FloorRing α] (input quantization : α) : α :=
  let level := intCast32 (stdRound (input / quantization))
  (level : α) * quantization

/-- An `iDynTree::Axis`: the origin and the direction of a ray, each given by its
three coordinates. -/
structure Axis (α : Type) where
  origin : α × α × α
  direction : α × α × α

/-- The members of `GazeRetargeting::VRInterface::EyeControl` that the velocity
computation reads. -/
structure EyeControl (α : Type) where
  azimuth : α
  elevation : α
  imageRelativePosition : α × α × α
  eyePosition : α × α × α

/-- The method `EyeControl::intersectionInImage`: the returned flag and the output
vector.  `imageFrame` stands for the iDynTree computation
`currentImageTransform().inverse() * (headsetToSranipalTransform * gaze)`, which
expresses the gaze ray in the frame of the image of this eye. -/
def intersectionInImage (imageFrame : EyeControl α → Axis α → Axis α) (eye : EyeControl α)
    (operatorGazeInSRanipalFrame : Axis α) : Bool × (α × α) :=
  let output : α × α := (0, 0)
  let gazeInImage := imageFrame eye operatorGazeInSRanipalFrame
  let origin := gazeInImage.origin
  let direction := gazeInImage.direction
  if |direction.2.2| < 1 / 10 ^ 15 then (false, output)
  else
    let alpha := -origin.2.2 / direction.2.2
    (true, (origin.1 + alpha * direction.1, origin.2.1 + alpha * direction.2.1))

/-- The members of `GazeRetargeting::VRInterface` used by the gaze loop; `deadzone`
groups the five members read and written by `applyDeadzone`. -/
structure VRInterface (α : Type) where
  m_velocityGain : α
  m_eyeMovementAccuracyInRad : α
  deadzone : DeadzoneState α
  m_leftEye : EyeControl α
  m_rightEye : EyeControl α
  m_isActive : Bool
  m_lastActiveCheck : α

/-- The Euclidean norm of a 3-vector (`iDynTree::toEigen(v).norm()`). -/
def norm3 (sqrt : α → α) (v : α × α × α) : α :=
  sqrt (v.1 * v.1 + v.2.1 * v.2.1 + v.2.2 * v.2.2)

/-- The method `VRInterface::computeDesiredRobotEyeVelocities`: the first component
is `none` on `return false` (the three output references are then not written)
and `some (vergenceSpeedInRadS, versionSpeedInRadS, tiltSpeedInRadS)` on
`return true`; the second is the object after the call.  `nowL` and `nowR` are
the clock readings of the two `applyDeadzone` calls. -/
def computeDesiredRobotEyeVelocities (imageFrame : EyeControl α → Axis α → Axis α)
    (sqrt : α → α) (nowL nowR : α) (vr : VRInterface α)
    (operatorLeftEyeGaze operatorRightEyeGaze : Axis α) :
    Option (α × α × α) × VRInterface α :=
  let l := intersectionInImage imageFrame vr.m_leftEye operatorLeftEyeGaze
  let r := intersectionInImage imageFrame vr.m_rightEye operatorRightEyeGaze
  let okL := l.1
  let okR := r.1
  if !okL || !okR then (none, vr)
  else
    let dl := applyDeadzone sqrt nowL vr.deadzone l.2
    let leftImageIntersection := dl.1
    let vr1 := { vr with deadzone := dl.2 }
    let dr := applyDeadzone sqrt nowR vr1.deadzone r.2
    let rightImageIntersection := dr.1
    let vr2 := { vr1 with deadzone := dr.2 }
    let leftEyeDistance := norm3 sqrt vr2.m_leftEye.imageRelativePosition
    let rightEyeDistance := norm3 sqrt vr2.m_rightEye.imageRelativePosition
    let leftElevationVelocity := vr2.m_velocityGain * leftImageIntersection.2 / leftEyeDistance
    let rightElevationVelocity :=
      vr2.m_velocityGain * rightImageIntersection.2 / rightEyeDistance
    let leftAzimuthVelocity := -vr2.m_velocityGain * leftImageIntersection.1 / leftEyeDistance
    let rightAzimuthVelocity :=
      -vr2.m_velocityGain * rightImageIntersection.1 / rightEyeDistance
    let tiltSpeedInRadS := (1 / 2) * (leftElevationVelocity + rightElevationVelocity)
    let leftVersVelocity := -leftAzimuthVelocity
    let rightVersVelocity := -rightAzimuthVelocity
    let versionSpeedInRadS := (1 / 2) * (leftVersVelocity + rightVersVelocity)
    let vergenceSpeedInRadS := leftVersVelocity - rightVersVelocity
    (some (vergenceSpeedInRadS, versionSpeedInRadS, tiltSpeedInRadS), vr2)

/-- What the VR device and the network answer during one call of
`VRInterface::isActive`: the clock, the number of connections of the RPC port,
the replies of `getValueFromRPC` (`none` when it returns false), and the
outcomes of opening and connecting the two image control ports. -/
structure VRDevice (α : Type) where
  now : α
  outputCount : Nat
  isLeftEyeActive : Option Bool
  isRightEyeActive : Option Bool
  interCameraDistance : Option α
  eyesZPosition : Option α
  leftImageControlPortName : Option String
  leftPortOpens : Bool
  leftPortConnects : Bool
  rightImageControlPortName : Option String
  rightPortOpens : Bool
  rightPortConnects : Bool

/-- The method `VRInterface::setVRImagesPose` on the members (the angles are also
sent on the image control ports, which are outside the model). -/
def setVRImagesPose [FloorRing α] (vr : VRInterface α) (vergenceInRad versionInRad tiltInRad : α) :
    VRInterface α :=
  let vr1 := { vr with m_leftEye := { vr.m_leftEye with elevation := tiltInRad } }
  let vr2 := { vr1 with m_rightEye := { vr1.m_rightEye with elevation := tiltInRad } }
  let vr3 := { vr2 with
    m_leftEye := { vr2.m_leftEye with azimuth := -(versionInRad + vergenceInRad / 2) } }
  let vr4 := { vr3 with
    m_rightEye := { vr3.m_rightEye with azimuth := -(versionInRad - vergenceInRad / 2) } }
  let vr5 := { vr4 with
    m_leftEye := { vr4.m_leftEye with
      elevation := applyQuantization vr4.m_leftEye.elevation vr4.m_eyeMovementAccuracyInRad } }
  let vr6 := { vr5 with
    m_leftEye := { vr5.m_leftEye with
      azimuth := applyQuantization vr5.m_leftEye.azimuth vr5.m_eyeMovementAccuracyInRad } }
  let vr7 := { vr6 with
    m_rightEye := { vr6.m_rightEye with
      elevation := applyQuantization vr6.m_rightEye.elevation vr6.m_eyeMovementAccuracyInRad } }
  { vr7 with
    m_rightEye := { vr7.m_rightEye with
      azimuth := applyQuantization vr7.m_rightEye.azimuth vr7.m_eyeMovementAccuracyInRad } }

/-- The method `VRInterface::isActive`: the returned flag and the members after the
call.  The two readings of the clock in the method are taken equal. -/
def isActive [FloorRing α] (dev : VRDevice α) (vr : VRInterface α) : Bool × VRInterface α :=
  if vr.m_isActive then (true, vr)
  else if dev.now - vr.m_lastActiveCheck < 1 then (false, vr)
  else
    let vr1 := { vr with m_lastActiveCheck := dev.now }
    if dev.outputCount = 0 then (false, vr1)
    else
      match dev.isLeftEyeActive with
      | none => (false, vr1)
      | some leftEyeActive =>
        if !leftEyeActive then (false, vr1)
        else
          match dev.isRightEyeActive with
          | none => (false, vr1)
          | some rightEyeActive =>
            if !rightEyeActive then (false, vr1)
            else
              match dev.interCameraDistance with
              | none => (false, vr1)
              | some interCameraDistance =>
                let vr2 := { vr1 with
                  m_leftEye := { vr1.m_leftEye with
                    eyePosition := (-interCameraDistance / 2, 0, 0) } }
                let vr3 := { vr2 with
                  m_rightEye := { vr2.m_rightEye with
                    eyePosition := (interCameraDistance / 2, 0, 0) } }
                match dev.eyesZPosition with
                | none => (false, vr3)
                | some eyesZPosition =>
                  let vr4 := { vr3 with
                    m_leftEye := { vr3.m_leftEye with
                      imageRelativePosition := (0, 0, eyesZPosition) } }
                  let vr5 := { vr4 with
                    m_rightEye := { vr4.m_rightEye with
                      imageRelativePosition := (0, 0, eyesZPosition) } }
                  match dev.leftImageControlPortName with
                  | none => (false, vr5)
                  | some _ =>
                    if !dev.leftPortOpens then (false, vr5)
                    else if !dev.leftPortConnects then (false, vr5)
                    else
                      match dev.rightImageControlPortName with
                      | none => (false, vr5)
                      | some _ =>
                        if !dev.rightPortOpens then (false, vr5)
                        else if !dev.rightPortConnects then (false, vr5)
                        else
                          let vr6 := setVRImagesPose vr5 0 0 0
                          (true, { vr6 with m_isActive := true })

/-- The function `iDynTree::deg2rad`: `valueInDeg / 180 * pi`. -/
def deg2rad (pi valueInDeg : α) : α := valueInDeg / 180 * pi

/-- The function `iDynTree::rad2deg`: `valueInRad / pi * 180`. -/
def rad2deg (pi valueInRad : α) : α := valueInRad / pi * 180

/-- A command issued to the eye joints of the robot, in the order
(tilt, version, vergence) of the axis array `eyeAxis`; `delay` is the call
`yarp::os::Time::delay`. -/
inductive EyeCommand (α : Type) where
  | setRefSpeeds (tilt version vergence : α)
  | positionMove (tilt version vergence : α)
  | velocityMove (tilt version vergence : α)
  | delay (seconds : α)

/-- The members of the class `GazeRetargeting` used by `update` and
`homeRobotEyes`; `hasEyesPos`, `hasEyesVel` and `hasEyesEnc` say that the
interface pointers `m_eyesPos`, `m_eyesVel` and `m_eyesEnc` are not null. -/
structure GazeRetargetingData (α : Type) where
  m_configured : Bool
  m_gazeSet : Bool
  m_VRInterface : VRInterface α
  m_leftGazeOperator : Axis α
  m_rightGazeOperator : Axis α
  m_encodersInDeg : List α
  m_eyeTiltIndex : Nat
  m_eyeVersIndex : Nat
  m_eyeVergIndex : Nat
  m_eyeVersInRad : α
  m_eyeVergInRad : α
  m_eyeTiltInRad : α
  m_maxEyeSpeedInDegS : α
  m_maxVergInDeg : α
  m_maxVersInDeg : α
  m_maxTiltInDeg : α
  m_tanhGain : α
  hasEyesPos : Bool
  hasEyesVel : Bool
  hasEyesEnc : Bool

/-- The method `GazeRetargeting::updateRobotEyeEncoders`: `encoders` is the result of
`getEncoders` (`none` when it fails, otherwise the content of
`m_encodersInDeg`); `none` is `return false`. -/
def updateRobotEyeEncoders (pi : α) (encoders : Option (List α)) (g : GazeRetargetingData α) :
    Option (GazeRetargetingData α) :=
  if !g.hasEyesEnc then none
  else
    match encoders with
    | none => none
    | some enc =>
      let g1 := { g with m_encodersInDeg := enc }
      let g2 := { g1 with
        m_eyeVersInRad := deg2rad pi (g1.m_encodersInDeg.getD g1.m_eyeVersIndex 0) }
      let g3 := { g2 with
        m_eyeVergInRad := deg2rad pi (g2.m_encodersInDeg.getD g2.m_eyeVergIndex 0) }
      some { g3 with
        m_eyeTiltInRad := deg2rad pi (g3.m_encodersInDeg.getD g3.m_eyeTiltIndex 0) }

/-- The method `GazeRetargeting::homeRobotEyes`: the returned flag, the members
after the call and the commands issued, in order.  `std::max` of the
initializer list is the value at `std::max_element`. -/
def homeRobotEyes (pi : α) (encoders : Option (List α)) (positionMoveOk : Bool)
    (g : GazeRetargetingData α) : Bool × GazeRetargetingData α × List (EyeCommand α) :=
  if !g.hasEyesPos then (false, g, [])
  else
    match updateRobotEyeEncoders pi encoders g with
    | none => (false, g, [])
    | some g1 =>
      let speeds := EyeCommand.setRefSpeeds g1.m_maxEyeSpeedInDegS g1.m_maxEyeSpeedInDegS
        g1.m_maxEyeSpeedInDegS
      let references : EyeCommand α := EyeCommand.positionMove 0 0 0
      let errors := [g1.m_eyeTiltInRad, g1.m_eyeVersInRad, g1.m_eyeVergInRad]
      let maxError := errors.getD (HapticGlove.maxElementIndex errors) 0
      let expectedTime := maxError / deg2rad pi g1.m_maxEyeSpeedInDegS
      if !positionMoveOk then (false, g1, [speeds, references])
      else (true, g1, [speeds, references, EyeCommand.delay (3 * expectedTime)])

/-- What the outside answers during one call of `GazeRetargeting::update`: the VR
device, the result of `getEncoders`, the outcome of `velocityMove`, and the
clock readings of the two `applyDeadzone` calls. -/
structure TickEnv (α : Type) where
  device : VRDevice α
  encoders : Option (List α)
  velocityMoveOk : Bool
  nowL : α
  nowR : α

/-- The method `GazeRetargeting::update`: the returned flag, the members after the
call and the commands issued to the eye joints.  `tanh`, `sqrt` and `pi` are
`std::tanh`, the square root of the Eigen norms and `M_PI`; `imageFrame` is the
iDynTree frame change of `intersectionInImage`. -/
def update [FloorRing α] (tanh : α → α) (imageFrame : EyeControl α → Axis α → Axis α)
    (sqrt : α → α) (pi : α) (env : TickEnv α) (g : GazeRetargetingData α) :
    Bool × GazeRetargetingData α × List (EyeCommand α) :=
  if !g.m_configured then (false, g, [])
  else
    let a := isActive env.device g.m_VRInterface
    let g1 := { g with m_VRInterface := a.2 }
    if !a.1 then (true, g1, [])
    else
      match updateRobotEyeEncoders pi env.encoders g1 with
      | none => (false, g1, [])
      | some g2 =>
        let c :=
          if g2.m_gazeSet then
            computeDesiredRobotEyeVelocities imageFrame sqrt env.nowL env.nowR g2.m_VRInterface
              g2.m_leftGazeOperator g2.m_rightGazeOperator
          else (some (0, 0, 0), g2.m_VRInterface)
        let g3 := { g2 with m_VRInterface := c.2 }
        match c.1 with
        | none => (false, g3, [])
        | some speeds =>
          let vergenceSpeedInDegS := rad2deg pi speeds.1
          let versionSpeedInDegS := rad2deg pi speeds.2.1
          let tiltSpeedInDegS := rad2deg pi speeds.2.2
          let vergenceSaturated := saturateRobotEyeVelocity tanh g3.m_tanhGain
            vergenceSpeedInDegS (g3.m_encodersInDeg.getD g3.m_eyeVergIndex 0)
            g3.m_maxEyeSpeedInDegS 0 g3.m_maxVergInDeg
          let versionSaturated := saturateRobotEyeVelocity tanh g3.m_tanhGain
            versionSpeedInDegS (g3.m_encodersInDeg.getD g3.m_eyeVersIndex 0)
            g3.m_maxEyeSpeedInDegS (-g3.m_maxVersInDeg) g3.m_maxVersInDeg
          let tiltSaturated := saturateRobotEyeVelocity tanh g3.m_tanhGain
            tiltSpeedInDegS (g3.m_encodersInDeg.getD g3.m_eyeTiltIndex 0)
            g3.m_maxEyeSpeedInDegS (-g3.m_maxTiltInDeg) g3.m_maxTiltInDeg
          let command := EyeCommand.velocityMove tiltSaturated versionSaturated vergenceSaturated
          if !g3.hasEyesVel then (false, g3, [])
          else if !env.velocityMoveOk then (false, g3, [command])
          else
            (true,
              { g3 with
                m_VRInterface := setVRImagesPose g3.m_VRInterface g3.m_eyeVergInRad
                  g3.m_eyeVersInRad g3.m_eyeTiltInRad },
              [command])

end GazeRetargeting

/-! ## Specification-side definitions and loop invariants -/

namespace HapticGlove

variable {α : Type} [LinearOrderedField α]

open Cxx

/-- The normalised reading `1 - clamp(raw[i + indexStart]) / 255` of sensor `i`, with
the clamp written as in the source. -/
def normalizedReading (raw : List α) (f : FingertipTactileData α) (i : Nat) : α :=
  1 - stdMax (stdMin (raw.getD (i + f.indexStart) 0) maxTactileValue) minTactileValue
        / maxTactileValue

/-- The derivative `(calibrated - previousCalibrated) / samplingTime` of sensor `i`. -/
def rawDerivative (raw : List α) (dt : α) (f : FingertipTactileData α) (i : Nat) : α :=
  (normalizedReading raw f i - f.biasTactileSensor.getD i 0
    - f.previousCalibratedTactileData.getD i 0) / dt

/-- The value of `tactileDataDerivative[i]` after one call: sensor `i` is treated as a
first sample only when `firstTime` is set at entry and `i = 0`; otherwise the
derivative is stored when it exceeds the threshold `thr`. -/
def storedDerivative (raw : List α) (dt thr : α) (f : FingertipTactileData α) (i : Nat) : α :=
  if (f.firstTime && decide (i = 0)) = false ∧ thr < rawDerivative raw dt f i then
    rawDerivative raw dt f i - f.biasTactileSensorDerivative.getD i 0
  else f.tactileDataDerivative.getD i 0

/-- The members that one call never writes are the same in `f` and `g`. -/
structure SameStatic (f g : FingertipTactileData α) : Prop where
  indexStart : g.indexStart = f.indexStart
  indexEnd : g.indexEnd = f.indexEnd
  noTactileSensors : g.noTactileSensors = f.noTactileSensors
  contactThresholdValue : g.contactThresholdValue = f.contactThresholdValue
  vibrotactileGain : g.vibrotactileGain = f.vibrotactileGain
  vibrotactileDerivativeGain : g.vibrotactileDerivativeGain = f.vibrotactileDerivativeGain
  contactDerivativeThresholdValue :
    g.contactDerivativeThresholdValue = f.contactDerivativeThresholdValue
  biasTactileSensor : g.biasTactileSensor = f.biasTactileSensor
  stdTactileSensor : g.stdTactileSensor = f.stdTactileSensor
  biasTactileSensorDerivative : g.biasTactileSensorDerivative = f.biasTactileSensorDerivative
  stdTactileSensorDerivative : g.stdTactileSensorDerivative = f.stdTactileSensorDerivative
  collectedTactileData : g.collectedTactileData = f.collectedTactileData
  collectedTactileDataDerivative :
    g.collectedTactileDataDerivative = f.collectedTactileDataDerivative

/-- Invariant of the sensor loop of `updateCalibratedTactileData` after `k`
iterations, `f0` being the finger at loop entry and `g` the current one. -/
structure UpdateInv (raw : List α) (dt thr : α) (f0 g : FingertipTactileData α) (k : Nat) :
    Prop where
  sized : g.Sized
  static : SameStatic f0 g
  first_eq : g.firstTime = (f0.firstTime && decide (k = 0))
  tactile_lt : ∀ i, i < k → g.tactileData.getD i 0 = normalizedReading raw f0 i
  cal_lt : ∀ i, i < k → g.calibratedTactileData.getD i 0
    = normalizedReading raw f0 i - f0.biasTactileSensor.getD i 0
  prev_lt : ∀ i, i < k → g.previousCalibratedTactileData.getD i 0
    = normalizedReading raw f0 i - f0.biasTactileSensor.getD i 0
  prev_ge : ∀ i, k ≤ i → g.previousCalibratedTactileData.getD i 0
    = f0.previousCalibratedTactileData.getD i 0
  der_lt : ∀ i, i < k → g.tactileDataDerivative.getD i 0 = storedDerivative raw dt thr f0 i
  der_ge : ∀ i, k ≤ i → g.tactileDataDerivative.getD i 0 = f0.tactileDataDerivative.getD i 0

/-- Index `j` holds the first greatest element of `l`. -/
def IsFirstMax (l : List α) (j : Nat) : Prop :=
  j < l.length ∧ (∀ m, m < l.length → l.getD m 0 ≤ l.getD j 0)
    ∧ (∀ m, m < j → l.getD m 0 < l.getD j 0)

/-- Invariant of the loop of `computeAreFingersInContact` after `k` iterations, `s`
being the skin at loop entry and `t` the current one. -/
structure ContactInv (s t : RobotSkin α) (k : Nat) : Prop where
  fingers : t.m_fingersTactileData = s.m_fingersTactileData
  lenContact : t.m_areFingersInContact.length = s.m_areFingersInContact.length
  lenChanges : t.m_areFingersContactChanges.length = s.m_areFingersContactChanges.length
  contact : ∀ i f, i < k → s.m_fingersTactileData[i]? = some f →
    t.m_areFingersInContact.getD i false
      = decide (f.maxTactileFeedbackAbsoluteValue > f.contactThreshold)
  changes : ∀ i f, i < k → s.m_fingersTactileData[i]? = some f →
    t.m_areFingersContactChanges.getD i false
      = decide (f.maxTactileFeedbackDerivativeValue > f.contactDerivativeThreshold)

/-- Entry `(r, i)` of the matrix of collected samples: sample `r` of sensor `i`. -/
def sampleEntry (M : List (List α)) (r i : Nat) : α := (M.getD r []).getD i 0

/-- The arithmetic mean of column `i` of the `N` collected samples. -/
def columnMean (M : List (List α)) (i : Nat) : α :=
  (∑ r in Finset.range M.length, sampleEntry M r i) / (M.length : α)

/-- The population standard deviation `sqrt(sum((v - mean)^2) / N)` of column `i`
(divisor `N`). -/
def columnPopulationStd (sqrt : α → α) (M : List (List α)) (i : Nat) : α :=
  sqrt ((∑ r in Finset.range M.length, (sampleEntry M r i - columnMean M i) ^ 2)
    / (M.length : α))

/-- Invariant of the sensor loop of `computeCalibrationParamters` after `k`
iterations, `f0` being the finger at loop entry and `st` the current finger and
`tactileSenorsWork` flag. -/
structure CalibrationInv {β : Type} [Zero β] [Add β] [Sub β] [Mul β] [Div β] [NatCast β] [LT β]
    (sqrt : β → β) (thr : β) (f0 : FingertipTactileData β)
    (st : FingertipTactileData β × Bool) (k : Nat) : Prop where
  noTactileSensors : st.1.noTactileSensors = f0.noTactileSensors
  collected : st.1.collectedTactileData = f0.collectedTactileData
  collectedDerivative :
    st.1.collectedTactileDataDerivative = f0.collectedTactileDataDerivative
  lenBias : st.1.biasTactileSensor.length = f0.biasTactileSensor.length
  lenStd : st.1.stdTactileSensor.length = f0.stdTactileSensor.length
  lenBiasD : st.1.biasTactileSensorDerivative.length = f0.biasTactileSensorDerivative.length
  lenStdD : st.1.stdTactileSensorDerivative.length = f0.stdTactileSensorDerivative.length
  bias : ∀ i, i < k →
    st.1.biasTactileSensor.getD i 0 = eigenMean (eigenCol f0.collectedTactileData i)
  std : ∀ i, i < k →
    st.1.stdTactileSensor.getD i 0 = eigenStd sqrt (eigenCol f0.collectedTactileData i)
  biasD : ∀ i, i < k → st.1.biasTactileSensorDerivative.getD i 0
    = eigenMean (eigenCol f0.collectedTactileDataDerivative i)
  stdD : ∀ i, i < k → st.1.stdTactileSensorDerivative.getD i 0
    = eigenStd sqrt (eigenCol f0.collectedTactileDataDerivative i)
  work : st.2 = true ↔
    ∃ i, i < k ∧ eigenStd sqrt (eigenCol f0.collectedTactileData i) > thr

/-- Invariant of the loop of `computeMaxContactStrength` after `k` iterations, `s`
being the skin at loop entry and `t` the current one. -/
structure StrengthInv (s t : RobotSkin α) (k : Nat) : Prop where
  fingers : t.m_fingersTactileData = s.m_fingersTactileData
  contact : t.m_areFingersInContact = s.m_areFingersInContact
  changes : t.m_areFingersContactChanges = s.m_areFingersContactChanges
  gain : t.m_smoothingGainDerivative = s.m_smoothingGainDerivative
  noFingers : t.m_noFingers = s.m_noFingers
  lenStrength : t.m_fingersContactStrength.length = s.m_fingersContactStrength.length
  lenDerivate : t.m_fingersContactStrengthDerivate.length
    = s.m_fingersContactStrengthDerivate.length
  lenSmoothed : t.m_fingersContactStrengthDerivateSmoothed.length
    = s.m_fingersContactStrengthDerivateSmoothed.length
  strength : ∀ i f, i < k → s.m_fingersTactileData[i]? = some f →
    t.m_fingersContactStrength.getD i 0
      = if s.m_areFingersInContact.getD i false then f.maxTactileFeedbackAbsoluteValue else 0
  derivate : ∀ i f, i < k → s.m_fingersTactileData[i]? = some f →
    t.m_fingersContactStrengthDerivate.getD i 0
      = if s.m_areFingersContactChanges.getD i false then
          (if s.m_areFingersInContact.getD i false then f.maxTactileFeedbackDerivativeValue
            else 0)
        else 0
  smoothed : ∀ i f, i < k → s.m_fingersTactileData[i]? = some f →
    t.m_fingersContactStrengthDerivateSmoothed.getD i 0
      = s.m_smoothingGainDerivative * t.m_fingersContactStrengthDerivate.getD i 0
        + (1 - s.m_smoothingGainDerivative)
          * s.m_fingersContactStrengthDerivateSmoothed.getD i 0
  smoothedLater : ∀ i, k ≤ i →
    t.m_fingersContactStrengthDerivateSmoothed.getD i 0
      = s.m_fingersContactStrengthDerivateSmoothed.getD i 0

/-- The per-finger vectors read and written by `computeMaxContactStrength` have
`m_noFingers` entries, as `RobotSkin::configure` sizes them. -/
structure RobotSkin.StrengthSized (s : RobotSkin α) : Prop where
  fingers : s.m_fingersTactileData.length = s.m_noFingers
  strength : s.m_fingersContactStrength.length = s.m_noFingers
  derivate : s.m_fingersContactStrengthDerivate.length = s.m_noFingers
  smoothed : s.m_fingersContactStrengthDerivateSmoothed.length = s.m_noFingers

/-- Every collected sample of the first `n` sensors lies in `[0, 1]`. -/
def SamplesInUnitRange (M : List (List α)) (n : Nat) : Prop :=
  ∀ row, row ∈ M → ∀ i, i < n → 0 ≤ row.getD i 0 ∧ row.getD i 0 ≤ 1

/-- One tick of the calibration phase: the raw vector `raw` is read,
`updateCalibratedTactileData` runs, and `collectSkinDataForCalibration` stores
the sample. -/
def calibrationTick (s : RobotSkin α) (raw : List α) : RobotSkin α :=
  collectSkinDataForCalibration
    (updateCalibratedTactileData { s with m_fingertipRawTactileFeedbacksStdVector := raw })

/-- A calibration pass: one `calibrationTick` per raw vector of `raws`, then
`computeCalibrationParamters`. -/
def calibrationPass (sqrt : α → α) (s : RobotSkin α) (raws : List (List α)) : RobotSkin α :=
  (computeCalibrationParamters sqrt (raws.foldl calibrationTick s)).2

/-- One `calibrationTick` seen from one finger. -/
def calibrationTickFinger (dt thr : α) (f : FingertipTactileData α) (raw : List α) :
    FingertipTactileData α :=
  collectFinger (updateFinger raw dt thr f)

/-- The finger that `configureFinger` builds from the tactile info
`(0 1 5 1 1 5)`: sensors 0 and 1, every vector zero, `firstTime` set. -/
def twoSensorFinger : FingertipTactileData ℚ :=
  { indexStart := 0
    indexEnd := 1
    noTactileSensors := 2
    contactThresholdValue := 5
    vibrotactileGain := 1
    vibrotactileDerivativeGain := 1
    contactDerivativeThresholdValue := 5
    rawTactileData := [0, 0]
    tactileData := [0, 0]
    biasTactileSensor := [0, 0]
    stdTactileSensor := [0, 0]
    calibratedTactileData := [0, 0]
    previousCalibratedTactileData := [0, 0]
    tactileDataDerivative := [0, 0]
    biasTactileSensorDerivative := [0, 0]
    stdTactileSensorDerivative := [0, 0]
    collectedTactileData := []
    collectedTactileDataDerivative := []
    firstTime := true }

/-- A skin over the given fingers and raw-sensor vector, with the default values
of `RobotSkin::configure` (`samplingTime` 0.01, both thresholds 0.0001,
`absoluteSkinValuePercentage` 1.0, `skinDerivativeSmoothingGain` 0.9) and every
per-finger output vector at its initial value. -/
def skinOf (fingers : List (FingertipTactileData ℚ)) (raw : List ℚ) : RobotSkin ℚ :=
  { m_noFingers := fingers.length
    m_totalNoTactile := (fingers.map (fun f => f.noTactileSensors)).sum
    m_samplingTime := 1 / 100
    m_tactileWorkingThreshold := 1 / 10000
    m_tactileUpdateThreshold := 1 / 10000
    m_fingersTactileData := fingers
    m_areTactileSensorsWorking := List.replicate fingers.length false
    m_areFingersInContact := List.replicate fingers.length false
    m_areFingersContactChanges := List.replicate fingers.length false
    m_fingertipRawTactileFeedbacksStdVector := raw
    m_fbParams := [0, 1, 1, 1, 100, 1]
    m_absoluteSkinValuePercentage := 1
    m_smoothingGainDerivative := 9 / 10
    m_fingersContactStrength := List.replicate fingers.length 0
    m_fingersContactStrengthDerivate := List.replicate fingers.length 0
    m_fingersContactStrengthDerivateSmoothed := List.replicate fingers.length 0
    m_fingersVibrotactileAbsoluteFeedback := List.replicate fingers.length 0
    m_fingersVibrotactileDerivativeFeedback := List.replicate fingers.length 0
    m_fingersVibrotactileTotalFeedback := List.replicate fingers.length 0 }

/-- The first tick after `configure`: both sensors of `twoSensorFinger` read the
raw value 0 (maximum load). -/
def firstTickSkin : RobotSkin ℚ := skinOf [twoSensorFinger] [0, 0]

/-- The second tick: the state left by the first call, with the raw vector now at
255 on both sensors (the load is released, the signal falls from 1 to 0). -/
def secondTickSkin : RobotSkin ℚ :=
  { updateCalibratedTactileData firstTickSkin with
    m_fingertipRawTactileFeedbacksStdVector := [255, 255] }

/-- The finger of `firstTickSkin` after the first call of
`updateCalibratedTactileData`: both sensors calibrated to 1, the flag cleared,
and the derivative of sensor 1 already stored. -/
def fingerAfterFirstTick : FingertipTactileData ℚ :=
  { twoSensorFinger with
    tactileData := [1, 1]
    calibratedTactileData := [1, 1]
    previousCalibratedTactileData := [1, 1]
    tactileDataDerivative := [0, 100]
    firstTime := false }

/-- A tick after the first one on which the raw vector has not changed (still 0
on both sensors). -/
def steadyTickSkin : RobotSkin ℚ := updateCalibratedTactileData firstTickSkin

/-- The finger of the contact scenario of the spec: one sensor (index 1 of the raw
vector), bias 0, std 0.1, threshold multiplier 5. -/
def scenarioFinger : FingertipTactileData ℚ :=
  { indexStart := 1
    indexEnd := 1
    noTactileSensors := 1
    contactThresholdValue := 5
    vibrotactileGain := 1
    vibrotactileDerivativeGain := 1
    contactDerivativeThresholdValue := 5
    rawTactileData := [0]
    tactileData := [0]
    biasTactileSensor := [0]
    stdTactileSensor := [1 / 10]
    calibratedTactileData := [0]
    previousCalibratedTactileData := [0]
    tactileDataDerivative := [0]
    biasTactileSensorDerivative := [0]
    stdTactileSensorDerivative := [0]
    collectedTactileData := []
    collectedTactileDataDerivative := []
    firstTime := true }

/-- The contact scenario of the spec: the sensor of `scenarioFinger` reads the raw
value 0 (maximum load). -/
def contactScenarioSkin : RobotSkin ℚ := skinOf [scenarioFinger] [240, 0]

/-- The finger of `contactScenarioSkin` after `updateCalibratedTactileData`. -/
def scenarioFingerLoaded : FingertipTactileData ℚ :=
  { scenarioFinger with
    tactileData := [1]
    calibratedTactileData := [1]
    previousCalibratedTactileData := [1]
    firstTime := false }

/-- A finger with two sensors and two collected samples per sensor: column 0 is
constant (`1/17`, the no-load reading 240), column 1 takes the values 0 and 1;
the derivative samples of sensor 1 are 0 and 100. -/
def calibrationFinger (α : Type) [LinearOrderedField α] : FingertipTactileData α :=
  { indexStart := 0
    indexEnd := 1
    noTactileSensors := 2
    contactThresholdValue := 5
    vibrotactileGain := 1
    vibrotactileDerivativeGain := 1
    contactDerivativeThresholdValue := 5
    rawTactileData := [0, 0]
    tactileData := [0, 0]
    biasTactileSensor := [0, 0]
    stdTactileSensor := [0, 0]
    calibratedTactileData := [0, 0]
    previousCalibratedTactileData := [0, 0]
    tactileDataDerivative := [0, 0]
    biasTactileSensorDerivative := [0, 0]
    stdTactileSensorDerivative := [0, 0]
    collectedTactileData := [[1 / 17, 0], [1 / 17, 1]]
    collectedTactileDataDerivative := [[0, 0], [0, 100]]
    firstTime := false }

/-- A skin with the single finger `calibrationFinger`, in contact with strength
`1e6`, smoothed strength derivative `-3`, coefficients `(1 1 1 1 100 1)` and
blend weight `1/2`. -/
def strongContactSkin (α : Type) [LinearOrderedField α] : RobotSkin α :=
  { m_noFingers := 1
    m_totalNoTactile := 2
    m_samplingTime := 1 / 100
    m_tactileWorkingThreshold := 1 / 10000
    m_tactileUpdateThreshold := 1 / 10000
    m_fingersTactileData := [calibrationFinger α]
    m_areTactileSensorsWorking := [false]
    m_areFingersInContact := [true]
    m_areFingersContactChanges := [true]
    m_fingertipRawTactileFeedbacksStdVector := [0, 0]
    m_fbParams := [1, 1, 1, 1, 100, 1]
    m_absoluteSkinValuePercentage := 1 / 2
    m_smoothingGainDerivative := 9 / 10
    m_fingersContactStrength := [1000000]
    m_fingersContactStrengthDerivate := [-3]
    m_fingersContactStrengthDerivateSmoothed := [-3]
    m_fingersVibrotactileAbsoluteFeedback := [0]
    m_fingersVibrotactileDerivativeFeedback := [0]
    m_fingersVibrotactileTotalFeedback := [0] }

/-- A configuration with one finger, whose descriptor is given; every other step of
`configure` succeeds (defaults of the source, six coefficients). -/
def configOf (tactileInfo : List ℚ) : SkinConfig ℚ :=
  { samplingTime := 1 / 100
    robot_finger_list := some ["thumb"]
    tactileWorkingThreshold := 1 / 10000
    tactileUpdateThreshold := 1 / 10000
    noTactileSensors := 192
    remote_sensor_boards := some "right_hand"
    tactileDeviceOpens := true
    tactileInterfaceViewed := true
    absoluteVibrotactileFeedbackNonlinearFunctionParameters := some [1, 1, 1, 1, 100, 1]
    absoluteSkinValuePercentage := 1
    skinDerivativeSmoothingGain := 9 / 10
    tactile_info := fun _ => some tactileInfo }

/-- A finger in contact whose calibrated values are `1/4` and `3/4`. -/
def pressedFinger : FingertipTactileData ℚ :=
  { calibrationFinger ℚ with calibratedTactileData := [1 / 4, 3 / 4] }

/-- The skin `strongContactSkin` with the single finger `pressedFinger`. -/
def pressedSkin : RobotSkin ℚ :=
  { strongContactSkin ℚ with m_fingersTactileData := [pressedFinger] }

/-- A finger whose calibrated values `[0, 1/4]` stay below the contact threshold
`5 * 0.1` while its stored derivatives `[0, 100]` exceed the derivative
threshold `5 * 1`. -/
def risingFinger : FingertipTactileData ℚ :=
  { calibrationFinger ℚ with
    calibratedTactileData := [0, 1 / 4]
    stdTactileSensor := [1 / 10, 1 / 10]
    tactileDataDerivative := [0, 100]
    stdTactileSensorDerivative := [1, 1] }

/-- A skin with the single finger `risingFinger`, before
`computeAreFingersInContact`. -/
def risingSkin : RobotSkin ℚ := skinOf [risingFinger] [0, 0]

/-- The configuration `configOf (0 1 5 1 1 5)` with `skinDerivativeSmoothingGain`
set to 2. -/
def overGainConfig : SkinConfig ℚ :=
  { configOf [0, 1, 5, 1, 1, 5] with skinDerivativeSmoothingGain := 2 }

/-- The first tick after `configure` with the no-load reading 240 on both sensors
of the freshly configured `twoSensorFinger`. -/
def noLoadSkin : RobotSkin ℚ := skinOf [twoSensorFinger] [240, 240]

/-- The finger that `configureFinger` builds from the tactile info
`(190 200 5 1 1 5)`: sensors 190 to 200 of the raw vector. -/
def overrunFinger : FingertipTactileData ℚ :=
  { indexStart := 190
    indexEnd := 200
    noTactileSensors := 11
    contactThresholdValue := 5
    vibrotactileGain := 1
    vibrotactileDerivativeGain := 1
    contactDerivativeThresholdValue := 5
    rawTactileData := List.replicate 11 0
    tactileData := List.replicate 11 0
    biasTactileSensor := List.replicate 11 0
    stdTactileSensor := List.replicate 11 0
    calibratedTactileData := List.replicate 11 0
    previousCalibratedTactileData := List.replicate 11 0
    tactileDataDerivative := List.replicate 11 0
    biasTactileSensorDerivative := List.replicate 11 0
    stdTactileSensorDerivative := List.replicate 11 0
    collectedTactileData := []
    collectedTactileDataDerivative := []
    firstTime := true }

/-- The no-load reading 240 on the sensor of `scenarioFinger` (bias 0, std 0.1,
threshold multiplier 5). -/
def noLoadScenarioSkin : RobotSkin ℚ := skinOf [scenarioFinger] [240, 240]

/-- The finger `calibrationFinger` before any sample is collected. -/
def uncalibratedFinger (α : Type) [LinearOrderedField α] : FingertipTactileData α :=
  { calibrationFinger α with
    collectedTactileData := []
    collectedTactileDataDerivative := []
    firstTime := true }

/-- The skin `strongContactSkin` with the single finger `uncalibratedFinger`. -/
def uncalibratedSkin (α : Type) [LinearOrderedField α] : RobotSkin α :=
  { strongContactSkin α with m_fingersTactileData := [uncalibratedFinger α] }

/-- The two raw vectors of a calibration pass: the no-load reading 240 on both
sensors, then the values 0 and 255. -/
def calibrationRaws (α : Type) [LinearOrderedField α] : List (List α) :=
  [[240, 240], [0, 255]]

/-- A finger over `Double` with one sensor, gains 1 and the given matrix of
collected samples; every vector is zero. -/
def doubleFinger (collected : List (List Double)) : FingertipTactileData Double :=
  { indexStart := 0
    indexEnd := 0
    noTactileSensors := 1
    contactThresholdValue := Double.fin 5
    vibrotactileGain := Double.fin 1
    vibrotactileDerivativeGain := Double.fin 1
    contactDerivativeThresholdValue := Double.fin 5
    rawTactileData := [Double.fin 0]
    tactileData := [Double.fin 0]
    biasTactileSensor := [Double.fin 0]
    stdTactileSensor := [Double.fin 0]
    calibratedTactileData := [Double.fin 0]
    previousCalibratedTactileData := [Double.fin 0]
    tactileDataDerivative := [Double.fin 0]
    biasTactileSensorDerivative := [Double.fin 0]
    stdTactileSensorDerivative := [Double.fin 0]
    collectedTactileData := collected
    collectedTactileDataDerivative := collected.map (fun _ => [Double.fin 0])
    firstTime := true }

/-- A skin over `Double` with the single finger `finger`, not in contact (contact
strength 0), with the response coefficients `(0 1 1 0 100 1)`, the blend weight
`blend`, the smoothed strength derivative `smoothed` and the working threshold
0. -/
def doubleSkin (finger : FingertipTactileData Double) (blend smoothed : Double) :
    RobotSkin Double :=
  { m_noFingers := 1
    m_totalNoTactile := 1
    m_samplingTime := Double.fin (1 / 100)
    m_tactileWorkingThreshold := Double.fin 0
    m_tactileUpdateThreshold := Double.fin (1 / 10000)
    m_fingersTactileData := [finger]
    m_areTactileSensorsWorking := [false]
    m_areFingersInContact := [false]
    m_areFingersContactChanges := [false]
    m_fingertipRawTactileFeedbacksStdVector := [Double.fin 240]
    m_fbParams := [Double.fin 0, Double.fin 1, Double.fin 1, Double.fin 0, Double.fin 100,
      Double.fin 1]
    m_absoluteSkinValuePercentage := blend
    m_smoothingGainDerivative := Double.fin (9 / 10)
    m_fingersContactStrength := [Double.fin 0]
    m_fingersContactStrengthDerivate := [Double.fin 0]
    m_fingersContactStrengthDerivateSmoothed := [smoothed]
    m_fingersVibrotactileAbsoluteFeedback := [Double.fin 0]
    m_fingersVibrotactileDerivativeFeedback := [Double.fin 0]
    m_fingersVibrotactileTotalFeedback := [Double.fin 0] }

/-- The `double` nearest to `0.1`. -/
def oneTenth : Double := Double.fin (3602879701896397 / 36028797018963968)

/-- The matrix of `n` collected samples of one sensor, all equal to `oneTenth`. -/
def constantSamples (n : Nat) : List (List Double) := List.replicate n [oneTenth]

/-- The configuration `configOf (0 1 5 1 1 5)` with the response coefficients
`(0 1 1 0 100 1)`. -/
def zeroLogConfig : SkinConfig ℚ :=
  { configOf [0, 1, 5, 1, 1, 5] with
    absoluteVibrotactileFeedbackNonlinearFunctionParameters := some [0, 1, 1, 0, 100, 1] }

end HapticGlove

namespace GazeRetargeting

variable {α : Type} [LinearOrderedField α]

open Cxx

/-- The deadzone step as the spec words it: with `n` the Euclidean norm of the
input and "enough time passed" meaning no minimum dwell configured (`≤ 0`), or a
latch time exists and the elapsed time is at least the minimum dwell.  If
(active and `n > outerRadius` and enough time passed) or (not active and
`n > innerRadius`), the output is `(1 - innerRadius / n) · input`, with `active`
cleared and the activation time reset to `-1`.  Otherwise the output is zero and
`active` is set; the activation time is latched to `now` when the state was
active with `n > outerRadius` and no time was latched, kept when one was
latched, and reset to `-1` when it is not the case that the state was active
with `n > outerRadius`. -/
def deadzoneStep (sqrt : α → α) (now : α) (st : DeadzoneState α) (input : α × α) :
    (α × α) × DeadzoneState α :=
  let n := sqrt (input.1 ^ 2 + input.2 ^ 2)
  if (st.m_deadzoneActive = true ∧ n > st.m_errorDeadzoneActivation
        ∧ (st.m_deadzoneMinActivationTimeInS ≤ 0
          ∨ (st.m_deadzoneActivationTime ≥ 0
            ∧ now - st.m_deadzoneActivationTime ≥ st.m_deadzoneMinActivationTimeInS)))
      ∨ (st.m_deadzoneActive = false ∧ n > st.m_errorDeadzone) then
    (((1 - st.m_errorDeadzone / n) * input.1, (1 - st.m_errorDeadzone / n) * input.2),
      { st with m_deadzoneActive := false, m_deadzoneActivationTime := -1 })
  else
    ((0, 0),
      { st with
        m_deadzoneActive := true
        m_deadzoneActivationTime :=
          if st.m_deadzoneActive = true ∧ n > st.m_errorDeadzoneActivation then
            if st.m_deadzoneActivationTime ≥ 0 then st.m_deadzoneActivationTime else now
          else -1 })

/-- The Euclidean norm of a 2-vector, as `applyDeadzone` computes `inputNorm`. -/
def norm2 (sqrt : α → α) (v : α × α) : α := sqrt (v.1 * v.1 + v.2 * v.2)

/-- The state `st` with the deadzone active and the activation time latched at `t0`. -/
def latchedAt (st : DeadzoneState α) (t0 : α) : DeadzoneState α :=
  { st with m_deadzoneActive := true, m_deadzoneActivationTime := t0 }

/-- Successive calls of `applyDeadzone`, each with its clock reading and its input:
the list of returned vectors and the state after the last call. -/
def applyDeadzoneCalls (sqrt : α → α) :
    DeadzoneState α → List (α × (α × α)) → List (α × α) × DeadzoneState α
  | st, [] => ([], st)
  | st, call :: rest =>
    let r := applyDeadzone sqrt call.1 st call.2
    let t := applyDeadzoneCalls sqrt r.2 rest
    (r.1 :: t.1, t.2)

/-- The left image intersection after the deadzone, in
`computeDesiredRobotEyeVelocities`. -/
def filteredLeft (imageFrame : EyeControl α → Axis α → Axis α) (sqrt : α → α) (nowL : α)
    (vr : VRInterface α) (leftGaze : Axis α) : α × α :=
  (applyDeadzone sqrt nowL vr.deadzone (intersectionInImage imageFrame vr.m_leftEye leftGaze).2).1

/-- The right image intersection after the deadzone, in
`computeDesiredRobotEyeVelocities`: the deadzone is applied to it in the state
left by the call on the left intersection. -/
def filteredRight (imageFrame : EyeControl α → Axis α → Axis α) (sqrt : α → α) (nowL nowR : α)
    (vr : VRInterface α) (leftGaze rightGaze : Axis α) : α × α :=
  (applyDeadzone sqrt nowR
    (applyDeadzone sqrt nowL vr.deadzone
      (intersectionInImage imageFrame vr.m_leftEye leftGaze).2).2
    (intersectionInImage imageFrame vr.m_rightEye rightGaze).2).1

/-- A deadzone state with the defaults of `VRInterface::configure` (inner radius
0.02, outer radius 0.12, minimum dwell 0.5 s), not active, no time latched. -/
def restingDeadzone (α : Type) [LinearOrderedField α] : DeadzoneState α :=
  { m_errorDeadzone := 2 / 100
    m_errorDeadzoneActivation := 12 / 100
    m_deadzoneMinActivationTimeInS := 1 / 2
    m_deadzoneActive := false
    m_deadzoneActivationTime := -1 }

/-- The state `restingDeadzone` with the deadzone active (no time latched). -/
def engagedDeadzone (α : Type) [LinearOrderedField α] : DeadzoneState α :=
  { restingDeadzone α with m_deadzoneActive := true }

/-- An eye whose image is one unit in front of it. -/
def unitEye (α : Type) [LinearOrderedField α] : EyeControl α :=
  { azimuth := 0
    elevation := 0
    imageRelativePosition := (0, 0, -1)
    eyePosition := (0, 0, 0) }

/-- A gaze ray that, in the image frame, starts at `(1, 2, 3)` and points along
`(0, 0, -1)`. -/
def straightGaze (α : Type) [LinearOrderedField α] : Axis α :=
  { origin := (1, 2, 3), direction := (0, 0, -1) }

/-- A `VRInterface` with velocity gain 2, the eyes `unitEye` and the deadzone
`restingDeadzone`, not yet active. -/
def unitInterface (α : Type) [LinearOrderedField α] : VRInterface α :=
  { m_velocityGain := 2
    m_eyeMovementAccuracyInRad := 1 / 1000
    deadzone := restingDeadzone α
    m_leftEye := unitEye α
    m_rightEye := unitEye α
    m_isActive := false
    m_lastActiveCheck := 0 }

/-- A gaze ray that, in the image frame, starts at `(1, 0, 3)` and points along
`(0, 0, -1)`: it meets the image plane at `(1, 0)`, to the right of its centre. -/
def sideGaze (α : Type) [LinearOrderedField α] : Axis α :=
  { origin := (1, 0, 3), direction := (0, 0, -1) }

/-- The condition of the first `return` of `applyDeadzone` (the input is passed,
scaled): the deadzone was active, the norm exceeds the outer radius and enough
time has passed, or the deadzone was not active and the norm exceeds the inner
radius.  The call returns through the suppressing branch when it fails. -/
def passesInput (sqrt : α → α) (now : α) (st : DeadzoneState α) (input : α × α) : Prop :=
  (st.m_deadzoneActive = true ∧ norm2 sqrt input > st.m_errorDeadzoneActivation
      ∧ (st.m_deadzoneMinActivationTimeInS ≤ 0
        ∨ (st.m_deadzoneActivationTime ≥ 0
          ∧ now - st.m_deadzoneActivationTime ≥ st.m_deadzoneMinActivationTimeInS)))
    ∨ (st.m_deadzoneActive = false ∧ norm2 sqrt input > st.m_errorDeadzone)

/-- A gaze ray that, in the image frame, starts at `(0, 0, 3)` and points along
`(0, 0, -1)`: it meets the image plane at its centre `(0, 0)`. -/
def centreGaze (α : Type) [LinearOrderedField α] : Axis α :=
  { origin := (0, 0, 3), direction := (0, 0, -1) }

/-- A gaze ray that, in the image frame, starts at `(0, 1, 3)` and points along
`(0, 0, -1)`: it meets the image plane at `(0, 1)`, above its centre. -/
def upGaze (α : Type) [LinearOrderedField α] : Axis α :=
  { origin := (0, 1, 3), direction := (0, 0, -1) }

/-- A VR device that is connected and reports both eyes active, at time 5. -/
def trackingDevice (α : Type) [LinearOrderedField α] : VRDevice α :=
  { now := 5
    outputCount := 1
    isLeftEyeActive := some true
    isRightEyeActive := some true
    interCameraDistance := some (6 / 100)
    eyesZPosition := some (-1)
    leftImageControlPortName := some "/headset/leftEye/control:i"
    leftPortOpens := true
    leftPortConnects := true
    rightImageControlPortName := some "/headset/rightEye/control:i"
    rightPortOpens := true
    rightPortConnects := true }

/-- The device `trackingDevice` five seconds later, now reporting both eyes as
not active. -/
def lostDevice (α : Type) [LinearOrderedField α] : VRDevice α :=
  { trackingDevice α with
    now := 10
    isLeftEyeActive := some false
    isRightEyeActive := some false }

/-- A configured `GazeRetargeting` over `unitInterface`: eye joints in the order
tilt, version, vergence, all encoders at 0, maximum speed 20 deg/s, no gaze set
yet. -/
def homingData (α : Type) [LinearOrderedField α] : GazeRetargetingData α :=
  { m_configured := true
    m_gazeSet := false
    m_VRInterface := unitInterface α
    m_leftGazeOperator := straightGaze α
    m_rightGazeOperator := straightGaze α
    m_encodersInDeg := [0, 0, 0]
    m_eyeTiltIndex := 0
    m_eyeVersIndex := 1
    m_eyeVergIndex := 2
    m_eyeVersInRad := 0
    m_eyeVergInRad := 0
    m_eyeTiltInRad := 0
    m_maxEyeSpeedInDegS := 20
    m_maxVergInDeg := 30
    m_maxVersInDeg := 25
    m_maxTiltInDeg := 30
    m_tanhGain := 10
    hasEyesPos := true
    hasEyesVel := true
    hasEyesEnc := true }

/-- A tick on which the device is `lostDevice`, the encoders read 0 on the three
eye joints and `velocityMove` succeeds. -/
def lostTick (α : Type) [LinearOrderedField α] : TickEnv α :=
  { device := lostDevice α
    encoders := some [0, 0, 0]
    velocityMoveOk := true
    nowL := 10
    nowR := 10 }

/-- The object `homingData` after a call of `isActive` on `trackingDevice`. -/
def activatedData (α : Type) [LinearOrderedField α] [FloorRing α] : GazeRetargetingData α :=
  { homingData α with
    m_VRInterface := (isActive (trackingDevice α) (unitInterface α)).2 }

/-- A gaze ray that, in the image frame, lies in the image plane: direction
`(1, 0, 0)`. -/
def parallelGaze (α : Type) [LinearOrderedField α] : Axis α :=
  { origin := (0, 0, 0), direction := (1, 0, 0) }

/-- The object `activatedData` with the gaze set, the left gaze being
`parallelGaze`. -/
def parallelGazeData (α : Type) [LinearOrderedField α] [FloorRing α] :
    GazeRetargetingData α :=
  { activatedData α with
    m_gazeSet := true
    m_leftGazeOperator := parallelGaze α }

/-- A tick on which the device is `trackingDevice`, the encoders read 0 on the
three eye joints and `velocityMove` succeeds. -/
def trackingTick (α : Type) [LinearOrderedField α] : TickEnv α :=
  { device := trackingDevice α
    encoders := some [0, 0, 0]
    velocityMoveOk := true
    nowL := 5
    nowR := 5 }

end GazeRetargeting

/-! ## Theorems: library functions -/

namespace Cxx

variable {α : Type} [LinearOrderedField α]

theorem stdMax_eq_max (a b : α) : stdMax a b = max a b := by
  unfold stdMax
  split_ifs with h
  · exact (max_eq_right h.le).symm
  · exact (max_eq_left (not_lt.mp h)).symm

theorem stdMin_eq_min (a b : α) : stdMin a b = min a b := by
  unfold stdMin
  split_ifs with h
  · exact (min_eq_right h.le).symm
  · exact (min_eq_left (not_lt.mp h)).symm

theorem stdRound_intCast [FloorRing α] (z : ℤ) : stdRound (z : α) = z := by
  unfold stdRound
  split_ifs with h
  · rw [Int.floor_eq_iff]
    constructor <;> linarith
  · rw [Int.ceil_eq_iff]
    constructor <;> linarith

theorem round53_zero : round53 0 = 0 := by decide!

theorem Double.zero_eq : (0 : Double) = Double.fin 0 := rfl

theorem Double.one_eq : (1 : Double) = Double.fin 1 := rfl

theorem Double.hundred_eq : (100 : Double) = Double.fin 100 := rfl

theorem Double.mul_eq (a b : Double) : a * b = Double.mul a b := rfl

theorem Double.add_eq (a b : Double) : a + b = Double.add a b := rfl

theorem Double.sub_eq (a b : Double) : a - b = Double.add a (Double.neg b) := rfl

theorem Double.div_eq (a b : Double) : a / b = Double.div a b := rfl

theorem Double.lt_iff (a b : Double) : a < b ↔ Double.blt a b = true := Iff.rfl

theorem bitLengthAux_spec (fuel n : ℕ) (h : n ≤ fuel) (hn : n ≠ 0) :
    2 ^ bitLengthAux fuel n ≤ 2 * n ∧ n < 2 ^ bitLengthAux fuel n := by
  induction fuel generalizing n with
  | zero => exact absurd (Nat.le_zero.mp h) hn
  | succ k ih =>
    unfold bitLengthAux
    rw [if_neg hn]
    by_cases h2 : n / 2 = 0
    · have h1 : n = 1 := by omega
      subst h1
      cases k with
      | zero => simp [bitLengthAux]
      | succ j => simp [bitLengthAux]
    · have hle : n / 2 ≤ k := by omega
      obtain ⟨ha, hb⟩ := ih (n / 2) hle h2
      rw [pow_succ]
      constructor <;> omega

theorem bitLength_spec (n : ℕ) (hn : n ≠ 0) :
    2 ^ bitLength n ≤ 2 * n ∧ n < 2 ^ bitLength n :=
  bitLengthAux_spec n n (le_refl n) hn

theorem two_zpow_floorLog2_le (x : ℚ) (hx : 0 < x) : (2 : ℚ) ^ floorLog2 x ≤ x := by
  unfold floorLog2
  split_ifs with h
  · exact h
  · have hnum : 0 < x.num := Rat.num_pos.mpr hx
    have hnat : x.num.natAbs ≠ 0 := by
      intro h0; rw [Int.natAbs_eq_zero] at h0; omega
    obtain ⟨hn1, _⟩ := bitLength_spec x.num.natAbs hnat
    obtain ⟨_, hd2⟩ := bitLength_spec x.den x.den_nz
    have hx' : x = (x.num.natAbs : ℚ) / (x.den : ℚ) := by
      have h2 : ((x.num.natAbs : ℕ) : ℚ) = (x.num : ℚ) := by
        rw [Nat.cast_natAbs, abs_of_pos hnum]
      rw [h2]
      exact (Rat.num_div_den x).symm
    have hden : (0 : ℚ) < x.den := by exact_mod_cast x.den_pos
    have hn1q : (2 : ℚ) ^ (bitLength x.num.natAbs) ≤ 2 * (x.num.natAbs : ℚ) := by
      exact_mod_cast hn1
    have hd2q : (x.den : ℚ) ≤ 2 ^ (bitLength x.den) := by
      exact_mod_cast hd2.le
    have h2pos : (0 : ℚ) < 2 ^ (bitLength x.den) := by positivity
    have hkey : (2 : ℚ) ^ ((bitLength x.num.natAbs : ℤ) - (bitLength x.den : ℤ) - 1)
        = 2 ^ (bitLength x.num.natAbs) / (2 * 2 ^ (bitLength x.den)) := by
      rw [zpow_sub₀ (by norm_num : (2 : ℚ) ≠ 0), zpow_sub₀ (by norm_num : (2 : ℚ) ≠ 0)]
      simp only [zpow_natCast, zpow_one]
      field_simp
      ring
    rw [hkey]
    conv_rhs => rw [hx']
    rw [div_le_div_iff₀ (by positivity) hden]
    calc (2 : ℚ) ^ bitLength x.num.natAbs * x.den
        ≤ (2 * (x.num.natAbs : ℚ)) * 2 ^ (bitLength x.den) := by
          apply mul_le_mul hn1q hd2q hden.le (by positivity)
      _ = (x.num.natAbs : ℚ) * (2 * 2 ^ bitLength x.den) := by ring

theorem floor_le_roundHalfEven (n : ℚ) : ⌊n⌋ ≤ roundHalfEven n := by
  unfold roundHalfEven
  split_ifs <;> omega

theorem round53_pos (x : ℚ) (hx : 0 < x) : 0 < round53 x := by
  unfold round53
  rw [if_neg hx.ne.symm, abs_of_pos hx]
  have hp : (0 : ℚ) < 2 ^ (floorLog2 x - 52) := by positivity
  apply mul_pos _ hp
  have h1 : (2 : ℚ) ^ (52 : ℤ) ≤ x / 2 ^ (floorLog2 x - 52) := by
    rw [le_div_iff₀ hp, ← zpow_add₀ (by norm_num : (2 : ℚ) ≠ 0)]
    have : (52 : ℤ) + (floorLog2 x - 52) = floorLog2 x := by ring
    rw [this]
    exact two_zpow_floorLog2_le x hx
  have h2 : (1 : ℤ) ≤ ⌊x / 2 ^ (floorLog2 x - 52)⌋ := by
    rw [Int.le_floor]
    refine le_trans ?_ h1
    norm_num
  have h3 := floor_le_roundHalfEven (x / 2 ^ (floorLog2 x - 52))
  have h4 : (0 : ℤ) < roundHalfEven (x / 2 ^ (floorLog2 x - 52)) := by omega
  exact_mod_cast h4

theorem Double.natCast_eq (n : ℕ) : ((n : ℕ) : Double) = Double.fin (round53 n) := rfl

theorem Double.zero_div_natCast (n : ℕ) (hn : n ≠ 0) : (0 : Double) / (n : Double) = 0 := by
  have hpos : 0 < round53 (n : ℚ) := round53_pos _ (by exact_mod_cast Nat.pos_of_ne_zero hn)
  rw [Double.natCast_eq, Double.zero_eq, Double.div_eq]
  simp only [Double.div]
  rw [if_neg hpos.ne.symm, zero_div, round53_zero]

theorem Double.fin_sub_self (c : ℚ) : Double.fin c - Double.fin c = 0 := by
  rw [Double.sub_eq, Double.zero_eq]
  simp only [Double.neg, Double.add]
  rw [add_neg_cancel, round53_zero]

theorem round53_hundred : round53 100 = 100 := by decide!

theorem Double.saturation (y : Double) :
    (y = Double.nan → stdMax (stdMin y 100) 0 = Double.nan)
    ∧ (y ≠ Double.nan →
        ∃ z, stdMax (stdMin y 100) 0 = Double.fin z ∧ 0 ≤ z ∧ z ≤ 100
          ∧ ((∀ x, y = Double.fin x → round53 x = x) → round53 z = z)) := by
  constructor
  · rintro rfl; decide!
  · intro hy
    cases y with
    | nan => exact absurd rfl hy
    | ninf => exact ⟨0, by decide!, le_refl _, by norm_num, fun _ => round53_zero⟩
    | pinf => exact ⟨100, by decide!, by norm_num, le_refl _, fun _ => round53_hundred⟩
    | fin x =>
      by_cases h1 : 100 < x
      · refine ⟨100, ?_, by norm_num, le_refl _, fun _ => round53_hundred⟩
        simp [stdMax, stdMin, Double.lt_iff, Double.blt, Double.hundred_eq, Double.zero_eq, h1]
      · by_cases h2 : x < 0
        · refine ⟨0, ?_, le_refl _, by norm_num, fun _ => round53_zero⟩
          simp [stdMax, stdMin, Double.lt_iff, Double.blt, Double.hundred_eq, Double.zero_eq, h1,
            h2]
        · refine ⟨x, ?_, not_lt.mp h2, not_lt.mp h1, fun h => h x rfl⟩
          simp [stdMax, stdMin, Double.lt_iff, Double.blt, Double.hundred_eq, Double.zero_eq, h1,
            h2]

end Cxx

/-! ## Theorems: tactile pipeline -/

namespace HapticGlove

variable {α : Type} [LinearOrderedField α]

open Cxx

theorem getD_set_self {β : Type} (l : List β) (i : Nat) (v d : β) (h : i < l.length) :
    (l.set i v).getD i d = v := by
  simp [List.getD_eq_getElem?_getD, List.getElem?_set, h]

theorem getD_set_ne {β : Type} (l : List β) (i j : Nat) (v d : β) (h : i ≠ j) :
    (l.set i v).getD j d = l.getD j d := by
  simp [List.getD_eq_getElem?_getD, List.getElem?_set, h]

theorem updateSensor_eq (raw : List α) (dt thr : α) (f : FingertipTactileData α) (i : Nat)
    (hs : f.Sized) (hi : i < f.noTactileSensors) :
    updateSensor raw dt thr f i =
      { f with
        rawTactileData := f.rawTactileData.set i (raw.getD (i + f.indexStart) 0)
        tactileData := f.tactileData.set i (normalizedReading raw f i)
        calibratedTactileData := f.calibratedTactileData.set i
          (normalizedReading raw f i - f.biasTactileSensor.getD i 0)
        previousCalibratedTactileData := f.previousCalibratedTactileData.set i
          (normalizedReading raw f i - f.biasTactileSensor.getD i 0)
        tactileDataDerivative :=
          if f.firstTime = false ∧
              thr < (normalizedReading raw f i - f.biasTactileSensor.getD i 0
                - f.previousCalibratedTactileData.getD i 0) / dt then
            f.tactileDataDerivative.set i
              ((normalizedReading raw f i - f.biasTactileSensor.getD i 0
                - f.previousCalibratedTactileData.getD i 0) / dt
                - f.biasTactileSensorDerivative.getD i 0)
          else f.tactileDataDerivative
        firstTime := false } := by
  have h1 : i < f.rawTactileData.length := by rw [hs.raw]; exact hi
  have h2 : i < f.tactileData.length := by rw [hs.tactile]; exact hi
  have h3 : i < f.calibratedTactileData.length := by rw [hs.calibrated]; exact hi
  unfold updateSensor normalizedReading
  simp only [getD_set_self, h1, h2, h3, List.length_set, List.set_set]
  cases hf : f.firstTime <;> simp [hf, List.getElem?_set, h3]
  · split_ifs <;> simp_all

theorem updateInv_zero (raw : List α) (dt thr : α) (f0 : FingertipTactileData α)
    (hs : f0.Sized) : UpdateInv raw dt thr f0 f0 0 where
  sized := hs
  static := ⟨rfl, rfl, rfl, rfl, rfl, rfl, rfl, rfl, rfl, rfl, rfl, rfl, rfl⟩
  first_eq := by simp
  tactile_lt := fun i hi => absurd hi (Nat.not_lt_zero i)
  cal_lt := fun i hi => absurd hi (Nat.not_lt_zero i)
  prev_lt := fun i hi => absurd hi (Nat.not_lt_zero i)
  prev_ge := fun _ _ => rfl
  der_lt := fun i hi => absurd hi (Nat.not_lt_zero i)
  der_ge := fun _ _ => rfl

theorem updateInv_step (raw : List α) (dt thr : α) (f0 g : FingertipTactileData α) (k : Nat)
    (hk : k < f0.noTactileSensors) (h : UpdateInv raw dt thr f0 g k) :
    UpdateInv raw dt thr f0 (updateSensor raw dt thr g k) (k + 1) := by
  have hn : g.noTactileSensors = f0.noTactileSensors := h.static.noTactileSensors
  have hstart : g.indexStart = f0.indexStart := h.static.indexStart
  have hbias : g.biasTactileSensor = f0.biasTactileSensor := h.static.biasTactileSensor
  have hbiasD : g.biasTactileSensorDerivative = f0.biasTactileSensorDerivative :=
    h.static.biasTactileSensorDerivative
  have hkg : k < g.noTactileSensors := by rw [hn]; exact hk
  have hnorm : ∀ i, normalizedReading raw g i = normalizedReading raw f0 i := by
    intro i; unfold normalizedReading; rw [hstart]
  have hraw : rawDerivative raw dt g k = rawDerivative raw dt f0 k := by
    unfold rawDerivative; rw [hnorm, hbias, h.prev_ge k (le_refl k)]
  have hs := h.sized
  rw [updateSensor_eq raw dt thr g k h.sized hkg]
  refine ⟨?_, ?_, ?_, ?_, ?_, ?_, ?_, ?_, ?_⟩
  · constructor <;> simp [hs.raw, hs.tactile, hs.calibrated, hs.previous, hs.derivative,
      hs.bias, hs.std, hs.biasDerivative, hs.stdDerivative]
    split_ifs <;> simp [hs.derivative]
  · exact ⟨h.static.1, h.static.2, h.static.3, h.static.4, h.static.5, h.static.6,
      h.static.7, h.static.8, h.static.9, h.static.10, h.static.11, h.static.12, h.static.13⟩
  · simp
  · intro i hi
    rcases Nat.lt_succ_iff_lt_or_eq.mp hi with hlt | heq
    · simp only []
      rw [getD_set_ne _ _ _ _ _ (Nat.ne_of_gt hlt)]
      exact h.tactile_lt i hlt
    · subst heq
      simp only []
      rw [getD_set_self _ _ _ _ (by rw [hs.tactile]; exact hkg), hnorm]
  · intro i hi
    rcases Nat.lt_succ_iff_lt_or_eq.mp hi with hlt | heq
    · simp only []
      rw [getD_set_ne _ _ _ _ _ (Nat.ne_of_gt hlt)]
      exact h.cal_lt i hlt
    · subst heq
      simp only []
      rw [getD_set_self _ _ _ _ (by rw [hs.calibrated]; exact hkg), hnorm, hbias]
  · intro i hi
    rcases Nat.lt_succ_iff_lt_or_eq.mp hi with hlt | heq
    · simp only []
      rw [getD_set_ne _ _ _ _ _ (Nat.ne_of_gt hlt)]
      exact h.prev_lt i hlt
    · subst heq
      simp only []
      rw [getD_set_self _ _ _ _ (by rw [hs.previous]; exact hkg), hnorm, hbias]
  · intro i hi
    simp only []
    rw [getD_set_ne _ _ _ _ _ (by omega)]
    exact h.prev_ge i (by omega)
  · intro i hi
    have hfold : (if g.firstTime = false ∧
        thr < (normalizedReading raw g k - g.biasTactileSensor.getD k 0
          - g.previousCalibratedTactileData.getD k 0) / dt then
        g.tactileDataDerivative.set k
          ((normalizedReading raw g k - g.biasTactileSensor.getD k 0
            - g.previousCalibratedTactileData.getD k 0) / dt
            - g.biasTactileSensorDerivative.getD k 0)
      else g.tactileDataDerivative)
      = (if g.firstTime = false ∧ thr < rawDerivative raw dt f0 k then
          g.tactileDataDerivative.set k
            (rawDerivative raw dt f0 k - f0.biasTactileSensorDerivative.getD k 0)
        else g.tactileDataDerivative) := by
      rw [← hraw, hbiasD]; rfl
    simp only []
    rw [hfold]
    rcases Nat.lt_succ_iff_lt_or_eq.mp hi with hlt | heq
    · rw [← h.der_lt i hlt]
      split_ifs
      · rw [getD_set_ne _ _ _ _ _ (Nat.ne_of_gt hlt)]
      · rfl
    · subst heq
      unfold storedDerivative
      rw [h.first_eq]
      split_ifs with h1
      · rw [getD_set_self _ _ _ _ (by rw [hs.derivative]; exact hkg)]
      · exact h.der_ge i (le_refl i)
  · intro i hi
    simp only []
    rw [← h.der_ge i (by omega)]
    split_ifs
    · rw [getD_set_ne _ _ _ _ _ (by omega)]
    · rfl

theorem foldl_range_invariant {S : Type} (step : S → Nat → S) (P : Nat → S → Prop)
    (n : Nat) (s : S) (h0 : P 0 s)
    (hstep : ∀ k t, k < n → P k t → P (k + 1) (step t k)) :
    P n ((List.range n).foldl step s) := by
  induction n with
  | zero => simpa using h0
  | succ m ih =>
    rw [List.range_succ, List.foldl_append]
    simp only [List.foldl_cons, List.foldl_nil]
    exact hstep m _ (Nat.lt_succ_self m)
      (ih (fun k t hk hP => hstep k t (Nat.lt_succ_of_lt hk) hP))

theorem updateFinger_inv (raw : List α) (dt thr : α) (f : FingertipTactileData α)
    (hs : f.Sized) :
    UpdateInv raw dt thr f (updateFinger raw dt thr f) f.noTactileSensors :=
  foldl_range_invariant (updateSensor raw dt thr) (fun k g => UpdateInv raw dt thr f g k)
    f.noTactileSensors f (updateInv_zero raw dt thr f hs)
    (fun k g hk h => updateInv_step raw dt thr f g k hk h)

theorem normalizedReading_eq (raw : List α) (f : FingertipTactileData α) (i : Nat) (r : α)
    (hr : raw[f.indexStart + i]? = some r) :
    normalizedReading raw f i = 1 - max 0 (min r 255) / 255 := by
  unfold normalizedReading maxTactileValue minTactileValue
  rw [stdMax_eq_max, stdMin_eq_min, List.getD_eq_getElem?_getD, Nat.add_comm, hr, max_comm]
  rfl

/-- C1. After `updateCalibratedTactileData`, for every finger `f` (position `k`) and
every sensor `i` of it whose raw reading is `r = raw[indexStart + i]`: the
finger is still at position `k`, its bias is untouched,
`tactileData[i] = 1 - clamp(r, 0, 255) / 255`,
`calibratedTactileData[i] = tactileData[i] - biasTactileSensor[i]` and
`previousCalibratedTactileData[i] = calibratedTactileData[i]`. -/
theorem updateCalibratedTactileData_calibrates (s : RobotSkin α) (k : Nat)
    (f : FingertipTactileData α) (hf : s.m_fingersTactileData[k]? = some f) (hs : f.Sized)
    (i : Nat) (hi : i < f.noTactileSensors) (r : α)
    (hr : s.m_fingertipRawTactileFeedbacksStdVector[f.indexStart + i]? = some r) :
    ∃ g, (updateCalibratedTactileData s).m_fingersTactileData[k]? = some g
      ∧ g.biasTactileSensor = f.biasTactileSensor
      ∧ g.tactileData.getD i 0 = 1 - max 0 (min r 255) / 255
      ∧ g.calibratedTactileData.getD i 0
          = g.tactileData.getD i 0 - g.biasTactileSensor.getD i 0
      ∧ g.previousCalibratedTactileData.getD i 0 = g.calibratedTactileData.getD i 0 := by
  have inv := updateFinger_inv s.m_fingertipRawTactileFeedbacksStdVector s.m_samplingTime
    s.m_tactileUpdateThreshold f hs
  refine ⟨_, ?_, inv.static.biasTactileSensor, ?_, ?_, ?_⟩
  · simp [updateCalibratedTactileData, List.getElem?_map, hf]
  · rw [inv.tactile_lt i hi, normalizedReading_eq _ f i r hr]
  · rw [inv.cal_lt i hi, inv.tactile_lt i hi, inv.static.biasTactileSensor]
  · rw [inv.prev_lt i hi, inv.cal_lt i hi]

/-- C8. Derivative freeze: for every finger `f` and sensor `i`, with
`d = (calibrated - previousCalibrated) / samplingTime` (the new calibrated value
against the value stored by the previous call), if `|d|` does not exceed
`m_tactileUpdateThreshold` then `tactileDataDerivative[i]` after the call is its
value before the call. -/
theorem updateCalibratedTactileData_derivative_freeze (s : RobotSkin α) (k : Nat)
    (f : FingertipTactileData α) (hf : s.m_fingersTactileData[k]? = some f) (hs : f.Sized)
    (i : Nat) (hi : i < f.noTactileSensors) :
    ∃ g, (updateCalibratedTactileData s).m_fingersTactileData[k]? = some g
      ∧ (|(g.calibratedTactileData.getD i 0 - f.previousCalibratedTactileData.getD i 0)
            / s.m_samplingTime| ≤ s.m_tactileUpdateThreshold →
          g.tactileDataDerivative.getD i 0 = f.tactileDataDerivative.getD i 0) := by
  have inv := updateFinger_inv s.m_fingertipRawTactileFeedbacksStdVector s.m_samplingTime
    s.m_tactileUpdateThreshold f hs
  refine ⟨updateFinger s.m_fingertipRawTactileFeedbacksStdVector s.m_samplingTime
    s.m_tactileUpdateThreshold f, ?_, ?_⟩
  · simp [updateCalibratedTactileData, List.getElem?_map, hf]
  · intro hd
    rw [inv.cal_lt i hi] at hd
    rw [inv.der_lt i hi]
    unfold storedDerivative
    rw [if_neg]
    rintro ⟨-, hlt⟩
    unfold rawDerivative at hlt
    exact absurd (lt_of_lt_of_le hlt (le_trans (le_abs_self _) hd)) (lt_irrefl _)

theorem getD_append_left' (pre xs : List α) (m : Nat) (h : m < pre.length) :
    (pre ++ xs).getD m 0 = pre.getD m 0 := by
  simp [List.getD_eq_getElem?_getD, List.getElem?_append_left h]

theorem maxElementLoop_spec (xs : List α) : ∀ (pre : List α) (li : Nat) (lv : α),
    li < pre.length → pre.getD li 0 = lv →
    (∀ m, m < pre.length → pre.getD m 0 ≤ lv) → (∀ m, m < li → pre.getD m 0 < lv) →
    IsFirstMax (pre ++ xs) (maxElementLoop xs pre.length li lv) := by
  induction xs with
  | nil =>
    intro pre li lv hli hlv hle hlt
    simp only [maxElementLoop, List.append_nil]
    exact ⟨hli, fun m hm => hlv ▸ hle m hm, fun m hm => hlv ▸ hlt m hm⟩
  | cons x xs ih =>
    intro pre li lv hli hlv hle hlt
    have hlen : (pre ++ [x]).length = pre.length + 1 := by simp
    have hx : (pre ++ [x]).getD pre.length 0 = x := by
      simp [List.getD_eq_getElem?_getD]
    have hpre : ∀ m, m < pre.length → (pre ++ [x]).getD m 0 = pre.getD m 0 :=
      fun m hm => getD_append_left' pre [x] m hm
    have happ : pre ++ x :: xs = (pre ++ [x]) ++ xs := by simp
    unfold maxElementLoop
    split_ifs with hcmp
    · have := ih (pre ++ [x]) pre.length x (by rw [hlen]; exact Nat.lt_succ_self _) hx
        (fun m hm => by
          rw [hlen] at hm
          rcases Nat.lt_succ_iff_lt_or_eq.mp hm with h1 | h1
          · rw [hpre m h1]; exact le_trans (hle m h1) hcmp.le
          · rw [h1, hx])
        (fun m hm => by rw [hpre m hm]; exact lt_of_le_of_lt (hle m hm) hcmp)
      rw [hlen] at this
      rw [happ]; exact this
    · have := ih (pre ++ [x]) li lv (by rw [hlen]; exact Nat.lt_succ_of_lt hli)
        (by rw [hpre li hli]; exact hlv)
        (fun m hm => by
          rw [hlen] at hm
          rcases Nat.lt_succ_iff_lt_or_eq.mp hm with h1 | h1
          · rw [hpre m h1]; exact hle m h1
          · rw [h1, hx]; exact not_lt.mp hcmp)
        (fun m hm => by rw [hpre m (lt_trans hm hli)]; exact hlt m hm)
      rw [hlen] at this
      rw [happ]; exact this

theorem maxElementIndex_spec (l : List α) (hl : l ≠ []) : IsFirstMax l (maxElementIndex l) := by
  cases l with
  | nil => exact absurd rfl hl
  | cons x xs =>
    have := maxElementLoop_spec xs [x] 0 x (by simp) (by simp)
      (fun m hm => by
        have : m = 0 := by simpa using hm
        subst this; simp)
      (fun m hm => absurd hm (Nat.not_lt_zero m))
    simpa [maxElementIndex] using this

theorem isFirstMax_unique (l : List α) (i j : Nat) (hi : IsFirstMax l i) (hj : IsFirstMax l j) :
    i = j := by
  rcases Nat.lt_trichotomy i j with h | h | h
  · exact absurd (hj.2.2 i h) (not_lt.mpr (hi.2.1 j hj.1))
  · exact h
  · exact absurd (hi.2.2 j h) (not_lt.mpr (hj.2.1 i hi.1))

theorem contactInv_step (s t : RobotSkin α) (k : Nat)
    (hk1 : k < s.m_areFingersInContact.length) (hk2 : k < s.m_areFingersContactChanges.length)
    (h : ContactInv s t k) : ContactInv s (computeAreFingersInContactStep t k) (k + 1) := by
  unfold computeAreFingersInContactStep
  cases hf : t.m_fingersTactileData[k]? with
  | none =>
    dsimp only
    refine ⟨h.fingers, h.lenContact, h.lenChanges, ?_, ?_⟩
    · intro i f hi hfi
      rcases Nat.lt_succ_iff_lt_or_eq.mp hi with h1 | h1
      · exact h.contact i f h1 hfi
      · subst h1; rw [← h.fingers, hf] at hfi; exact absurd hfi (by simp)
    · intro i f hi hfi
      rcases Nat.lt_succ_iff_lt_or_eq.mp hi with h1 | h1
      · exact h.changes i f h1 hfi
      · subst h1; rw [← h.fingers, hf] at hfi; exact absurd hfi (by simp)
  | some g =>
    dsimp only
    refine ⟨h.fingers, ?_, ?_, ?_, ?_⟩
    · simp [h.lenContact]
    · simp [h.lenChanges]
    · intro i f hi hfi
      rcases Nat.lt_succ_iff_lt_or_eq.mp hi with h1 | h1
      · dsimp only
        rw [getD_set_ne _ _ _ _ _ (Nat.ne_of_gt h1)]
        exact h.contact i f h1 hfi
      · subst h1
        rw [← h.fingers, hf] at hfi
        cases hfi
        dsimp only
        rw [getD_set_self _ _ _ _ (by rw [h.lenContact]; exact hk1)]
    · intro i f hi hfi
      rcases Nat.lt_succ_iff_lt_or_eq.mp hi with h1 | h1
      · dsimp only
        rw [getD_set_ne _ _ _ _ _ (Nat.ne_of_gt h1)]
        exact h.changes i f h1 hfi
      · subst h1
        rw [← h.fingers, hf] at hfi
        cases hfi
        dsimp only
        rw [getD_set_self _ _ _ _ (by rw [h.lenChanges]; exact hk2)]

theorem computeAreFingersInContact_inv (s : RobotSkin α)
    (h1 : s.m_areFingersInContact.length = s.m_noFingers)
    (h2 : s.m_areFingersContactChanges.length = s.m_noFingers) :
    ContactInv s (computeAreFingersInContact s) s.m_noFingers :=
  foldl_range_invariant computeAreFingersInContactStep (fun k t => ContactInv s t k)
    s.m_noFingers s
    ⟨rfl, rfl, rfl, fun i _ hi _ => absurd hi (Nat.not_lt_zero i),
      fun i _ hi _ => absurd hi (Nat.not_lt_zero i)⟩
    (fun k t hk h => contactInv_step s t k (by rw [h1]; exact hk) (by rw [h2]; exact hk) h)

/-- C2. For a finger `f` (position `k < m_noFingers`) with at least one sensor,
`computeAreFingersInContact` sets `m_areFingersInContact[k]` to true exactly when
the greatest calibrated value of the finger is strictly greater than
`contactThresholdValue` times the std of the first sensor `j` that holds this
greatest value; such a sensor `j` exists. -/
theorem computeAreFingersInContact_iff (s : RobotSkin α) (k : Nat)
    (f : FingertipTactileData α) (hk : k < s.m_noFingers)
    (hf : s.m_fingersTactileData[k]? = some f)
    (h1 : s.m_areFingersInContact.length = s.m_noFingers)
    (h2 : s.m_areFingersContactChanges.length = s.m_noFingers)
    (hne : f.calibratedTactileData ≠ []) :
    (∃ j, IsFirstMax f.calibratedTactileData j)
    ∧ ∀ j, IsFirstMax f.calibratedTactileData j →
      ((computeAreFingersInContact s).m_areFingersInContact.getD k false = true
        ↔ f.calibratedTactileData.getD j 0
            > f.contactThresholdValue * f.stdTactileSensor.getD j 0) := by
  have hmax := maxElementIndex_spec f.calibratedTactileData hne
  refine ⟨⟨_, hmax⟩, ?_⟩
  intro j hj
  have hjeq := isFirstMax_unique _ _ _ hj hmax
  rw [(computeAreFingersInContact_inv s h1 h2).contact k f hk hf, decide_eq_true_iff, hjeq]
  rfl

theorem stdRound_natCast {α : Type} [LinearOrderedField α] [FloorRing α] (n : ℕ) :
    stdRound (n : α) = n := by
  unfold stdRound
  rw [if_pos (Nat.cast_nonneg n), Int.floor_eq_iff]
  constructor
  · push_cast; linarith
  · push_cast; linarith

theorem configureFinger_twoSensorFinger :
    configureFinger [(0 : ℚ), 1, 5, 1, 1, 5] = some twoSensorFinger := by
  have h0 : stdRound (0 : ℚ) = 0 := by simpa using @stdRound_natCast ℚ _ _ 0
  have h1 : stdRound (1 : ℚ) = 1 := by simpa using @stdRound_natCast ℚ _ _ 1
  simp [configureFinger, h0, h1, twoSensorFinger]

theorem twoSensorFinger_sized : twoSensorFinger.Sized :=
  ⟨rfl, rfl, rfl, rfl, rfl, rfl, rfl, rfl, rfl⟩

theorem fingerAfterFirstTick_sized : fingerAfterFirstTick.Sized :=
  ⟨rfl, rfl, rfl, rfl, rfl, rfl, rfl, rfl, rfl⟩

theorem range_two : List.range 2 = [0, 1] := rfl

theorem firstTick_fingers :
    (updateCalibratedTactileData firstTickSkin).m_fingersTactileData
      = [fingerAfterFirstTick] := by
  norm_num [updateCalibratedTactileData, updateFinger, updateSensor, firstTickSkin, skinOf,
    twoSensorFinger, fingerAfterFirstTick, range_two, stdMax, stdMin, maxTactileValue,
    minTactileValue]

theorem steadyTick_fingers :
    (updateCalibratedTactileData steadyTickSkin).m_fingersTactileData
      = [fingerAfterFirstTick] := by
  norm_num [steadyTickSkin, updateCalibratedTactileData, updateFinger, updateSensor,
    firstTickSkin, skinOf, twoSensorFinger, fingerAfterFirstTick, range_two, stdMax, stdMin,
    maxTactileValue, minTactileValue]

theorem contactScenario_fingers :
    (updateCalibratedTactileData contactScenarioSkin).m_fingersTactileData
      = [scenarioFingerLoaded] := by
  norm_num [updateCalibratedTactileData, updateFinger, updateSensor, contactScenarioSkin,
    skinOf, scenarioFinger, scenarioFingerLoaded, List.range_succ, stdMax, stdMin,
    maxTactileValue, minTactileValue]

/-- C1, witness: sensor 1 of `twoSensorFinger` on the first tick, raw reading 0. -/
theorem updateCalibratedTactileData_calibrates_witness :
    ∃ g, (updateCalibratedTactileData firstTickSkin).m_fingersTactileData[0]? = some g
      ∧ g.biasTactileSensor = twoSensorFinger.biasTactileSensor
      ∧ g.tactileData.getD 1 0 = 1 - max 0 (min 0 255) / 255
      ∧ g.calibratedTactileData.getD 1 0
          = g.tactileData.getD 1 0 - g.biasTactileSensor.getD 1 0
      ∧ g.previousCalibratedTactileData.getD 1 0 = g.calibratedTactileData.getD 1 0 :=
  updateCalibratedTactileData_calibrates firstTickSkin 0 twoSensorFinger rfl
    twoSensorFinger_sized 1 (by decide) 0 rfl

/-- C2, witness: the contact scenario of the spec.  One sensor at raw 0 with bias 0,
std 0.1 and multiplier 5: the calibrated value 1 exceeds the threshold 0.5, so
`updateCalibratedTactileData` followed by `computeAreFingersInContact` reports the
finger in contact. -/
theorem computeAreFingersInContact_iff_witness :
    (computeAreFingersInContact
        (updateCalibratedTactileData contactScenarioSkin)).m_areFingersInContact.getD 0 false
      = true
    ∧ scenarioFingerLoaded.contactThreshold = 1 / 2
    ∧ scenarioFingerLoaded.maxTactileFeedbackAbsoluteValue = 1 := by
  have hmax : IsFirstMax scenarioFingerLoaded.calibratedTactileData 0 :=
    ⟨by decide, fun m hm => by
        have : m = 0 := by simpa [scenarioFingerLoaded] using hm
        subst this; exact le_refl _,
      fun m hm => absurd hm (Nat.not_lt_zero m)⟩
  have h := (computeAreFingersInContact_iff (updateCalibratedTactileData contactScenarioSkin) 0
    scenarioFingerLoaded (by decide) (by rw [contactScenario_fingers]; rfl) rfl rfl
    (by simp [scenarioFingerLoaded])).2 0 hmax
  refine ⟨h.mpr ?_, ?_, ?_⟩
  · norm_num [scenarioFingerLoaded, scenarioFinger]
  · norm_num [FingertipTactileData.contactThreshold, scenarioFingerLoaded, scenarioFinger,
      maxElementIndex, maxElementLoop]
  · norm_num [FingertipTactileData.maxTactileFeedbackAbsoluteValue,
      FingertipTactileData.maxTactileFeedbackValue, scenarioFingerLoaded, maxElementIndex,
      maxElementLoop]

/-- C8, witness: on a tick that repeats the raw vector of the previous one the
derivative of sensor 1 is `d = 0`, and the stored value 100 stays. -/
theorem updateCalibratedTactileData_derivative_freeze_witness :
    ∃ g, (updateCalibratedTactileData steadyTickSkin).m_fingersTactileData[0]? = some g
      ∧ g.tactileDataDerivative.getD 1 0 = 100 := by
  obtain ⟨g, hg, himp⟩ := updateCalibratedTactileData_derivative_freeze steadyTickSkin 0
    fingerAfterFirstTick (by unfold steadyTickSkin; rw [firstTick_fingers]; rfl)
    fingerAfterFirstTick_sized 1 (by decide)
  refine ⟨g, hg, ?_⟩
  have hg2 : g = fingerAfterFirstTick := by
    rw [steadyTick_fingers] at hg
    exact (Option.some.inj hg).symm
  rw [himp]
  · norm_num [fingerAfterFirstTick]
  · rw [hg2]
    norm_num [fingerAfterFirstTick, twoSensorFinger, steadyTickSkin, updateCalibratedTactileData,
      firstTickSkin, skinOf]

/-- C9 (code bug). On the very first call after `configure`, with both sensors of
`twoSensorFinger` at raw 0, the derivative of sensor 1 is stored as 100: the
flag `firstTime` is cleared inside the sensor loop, after sensor 0, so only
sensor 0 is treated as a first sample. -/
theorem firstCall_stores_derivative_of_later_sensors :
    configureFinger [(0 : ℚ), 1, 5, 1, 1, 5] = some twoSensorFinger
    ∧ (updateCalibratedTactileData firstTickSkin).m_fingersTactileData.map
        (fun f => f.tactileDataDerivative) = [[0, 100]] := by
  refine ⟨configureFinger_twoSensorFinger, ?_⟩
  rw [firstTick_fingers]
  rfl

/-- C7 (code bug). On the second tick the signal of both sensors falls from 1 to 0:
`d = (0 - 1) / 0.01 = -100`, whose magnitude exceeds the update threshold
0.0001, yet the stored derivatives are unchanged (`[0, 100]`, not `-100`): the
test `tactileDerivative > m_tactileUpdateThreshold` is on the signed value. -/
theorem falling_signal_derivative_not_stored :
    secondTickSkin.m_fingersTactileData.map
        (fun f => (f.firstTime, f.previousCalibratedTactileData, f.tactileDataDerivative,
          f.biasTactileSensorDerivative))
      = [(false, [1, 1], [0, 100], [0, 0])]
    ∧ (updateCalibratedTactileData secondTickSkin).m_fingersTactileData.map
        (fun f => (f.calibratedTactileData, f.tactileDataDerivative))
      = [([0, 0], [0, 100])]
    ∧ |((0 : ℚ) - 1) / secondTickSkin.m_samplingTime| > secondTickSkin.m_tactileUpdateThreshold
    ∧ ((0 : ℚ) - 1) / secondTickSkin.m_samplingTime - 0 = -100 := by
  refine ⟨?_, ?_, ?_, ?_⟩
  · have h : secondTickSkin.m_fingersTactileData = [fingerAfterFirstTick] := by
      unfold secondTickSkin; exact firstTick_fingers
    rw [h]; rfl
  · norm_num [secondTickSkin, updateCalibratedTactileData, updateFinger, updateSensor,
      firstTickSkin, skinOf, twoSensorFinger, fingerAfterFirstTick, range_two, stdMax, stdMin,
      maxTactileValue, minTactileValue]
  · norm_num [secondTickSkin, updateCalibratedTactileData, firstTickSkin, skinOf, abs_of_neg]
  · norm_num [secondTickSkin, updateCalibratedTactileData, firstTickSkin, skinOf]

/-- The part of the derivative rule that the code implements: for a sensor that
is not handled as a first sample (`firstTime` cleared, or any sensor after
sensor 0), when the signed derivative `d` exceeds `m_tactileUpdateThreshold` the
stored derivative becomes `d - biasTactileSensorDerivative[i]`. -/
theorem updateCalibratedTactileData_derivative_rising (s : RobotSkin α) (k : Nat)
    (f : FingertipTactileData α) (hf : s.m_fingersTactileData[k]? = some f) (hs : f.Sized)
    (i : Nat) (hi : i < f.noTactileSensors) (hfirst : f.firstTime = false ∨ 0 < i) :
    ∃ g, (updateCalibratedTactileData s).m_fingersTactileData[k]? = some g
      ∧ (s.m_tactileUpdateThreshold
            < (g.calibratedTactileData.getD i 0 - f.previousCalibratedTactileData.getD i 0)
                / s.m_samplingTime →
          g.tactileDataDerivative.getD i 0
            = (g.calibratedTactileData.getD i 0 - f.previousCalibratedTactileData.getD i 0)
                / s.m_samplingTime - f.biasTactileSensorDerivative.getD i 0) := by
  have inv := updateFinger_inv s.m_fingertipRawTactileFeedbacksStdVector s.m_samplingTime
    s.m_tactileUpdateThreshold f hs
  refine ⟨updateFinger s.m_fingertipRawTactileFeedbacksStdVector s.m_samplingTime
    s.m_tactileUpdateThreshold f, ?_, ?_⟩
  · simp [updateCalibratedTactileData, List.getElem?_map, hf]
  · intro hd
    rw [inv.cal_lt i hi] at hd ⊢
    rw [inv.der_lt i hi]
    unfold storedDerivative
    rw [if_pos]
    · rfl
    · refine ⟨?_, hd⟩
      rcases hfirst with h | h
      · simp [h]
      · simp [Nat.ne_of_gt h]

theorem calibrationInv_step {β : Type} [Zero β] [Add β] [Sub β] [Mul β] [Div β] [NatCast β] [LT β]
    [DecidableRel (fun a b : β => a < b)] (sqrt : β → β) (thr : β)
    (f0 : FingertipTactileData β) (st : FingertipTactileData β × Bool) (k : Nat) (hs : f0.Sized)
    (hk : k < f0.noTactileSensors) (h : CalibrationInv sqrt thr f0 st k) :
    CalibrationInv sqrt thr f0 (calibrateSensor sqrt thr st k) (k + 1) := by
  have h1 : k < st.1.biasTactileSensor.length := by rw [h.lenBias, hs.bias]; exact hk
  have h2 : k < st.1.stdTactileSensor.length := by rw [h.lenStd, hs.std]; exact hk
  have h3 : k < st.1.biasTactileSensorDerivative.length := by
    rw [h.lenBiasD, hs.biasDerivative]; exact hk
  have h4 : k < st.1.stdTactileSensorDerivative.length := by
    rw [h.lenStdD, hs.stdDerivative]; exact hk
  unfold calibrateSensor
  dsimp only
  rw [getD_set_self _ _ _ _ h2, h.collected, h.collectedDerivative]
  refine ⟨h.noTactileSensors, rfl, rfl, ?_, ?_, ?_, ?_, ?_, ?_, ?_, ?_, ?_⟩
  · simp [h.lenBias]
  · simp [h.lenStd]
  · simp [h.lenBiasD]
  · simp [h.lenStdD]
  · intro i hi
    rcases Nat.lt_succ_iff_lt_or_eq.mp hi with hlt | heq
    · rw [getD_set_ne _ _ _ _ _ (Nat.ne_of_gt hlt)]; exact h.bias i hlt
    · subst heq; rw [getD_set_self _ _ _ _ h1]
  · intro i hi
    rcases Nat.lt_succ_iff_lt_or_eq.mp hi with hlt | heq
    · rw [getD_set_ne _ _ _ _ _ (Nat.ne_of_gt hlt)]; exact h.std i hlt
    · subst heq; rw [getD_set_self _ _ _ _ h2]
  · intro i hi
    rcases Nat.lt_succ_iff_lt_or_eq.mp hi with hlt | heq
    · rw [getD_set_ne _ _ _ _ _ (Nat.ne_of_gt hlt)]; exact h.biasD i hlt
    · subst heq; rw [getD_set_self _ _ _ _ h3]
  · intro i hi
    rcases Nat.lt_succ_iff_lt_or_eq.mp hi with hlt | heq
    · rw [getD_set_ne _ _ _ _ _ (Nat.ne_of_gt hlt)]; exact h.stdD i hlt
    · subst heq; rw [getD_set_self _ _ _ _ h4]
  · rw [Bool.or_eq_true, h.work, decide_eq_true_iff]
    constructor
    · rintro (⟨i, hi, hgt⟩ | hgt)
      · exact ⟨i, Nat.lt_succ_of_lt hi, hgt⟩
      · exact ⟨k, Nat.lt_succ_self k, hgt⟩
    · rintro ⟨i, hi, hgt⟩
      rcases Nat.lt_succ_iff_lt_or_eq.mp hi with hlt | heq
      · exact Or.inl ⟨i, hlt, hgt⟩
      · subst heq; exact Or.inr hgt

theorem calibrateFinger_inv {β : Type} [Zero β] [Add β] [Sub β] [Mul β] [Div β] [NatCast β] [LT β]
    [DecidableRel (fun a b : β => a < b)] (sqrt : β → β) (thr : β)
    (f : FingertipTactileData β) (hs : f.Sized) :
    CalibrationInv sqrt thr f (calibrateFinger sqrt thr f) f.noTactileSensors :=
  foldl_range_invariant (calibrateSensor sqrt thr)
    (fun k st => CalibrationInv sqrt thr f st k) f.noTactileSensors (f, false)
    ⟨rfl, rfl, rfl, rfl, rfl, rfl, rfl, fun i hi => absurd hi (Nat.not_lt_zero i),
      fun i hi => absurd hi (Nat.not_lt_zero i), fun i hi => absurd hi (Nat.not_lt_zero i),
      fun i hi => absurd hi (Nat.not_lt_zero i),
      ⟨fun hf => absurd hf (by simp), fun ⟨i, hi, _⟩ => absurd hi (Nat.not_lt_zero i)⟩⟩
    (fun k st hk h => calibrationInv_step sqrt thr f st k hs hk h)

theorem calibrationLoop_fingers {β : Type} [Zero β] [Add β] [Sub β] [Mul β] [Div β] [NatCast β] [LT β]
    [DecidableRel (fun a b : β => a < b)] (sqrt : β → β) (thr : β) (n : Nat) :
    ∀ (fingers : List (FingertipTactileData β)) (counter : Nat) (working : List Bool),
      counter + fingers.length ≤ n + 1 →
      (calibrationLoop sqrt thr n fingers counter working).1 = true
      ∧ (calibrationLoop sqrt thr n fingers counter working).2.1
          = fingers.map (fun d => (calibrateFinger sqrt thr d).1) := by
  intro fingers
  induction fingers with
  | nil => intro counter working _; exact ⟨rfl, rfl⟩
  | cons d rest ih =>
    intro counter working hlen
    have hc : ¬ counter > n := by
      simp only [List.length_cons] at hlen; omega
    have := ih (counter + 1) (working.set counter (calibrateFinger sqrt thr d).2)
      (by simp only [List.length_cons] at hlen; omega)
    unfold calibrationLoop
    simp only [hc, if_false, List.map_cons]
    exact ⟨this.1, by rw [this.2]⟩

theorem sum_map_eq_sum_range {β : Type} (g : β → α) (d : β) (l : List β) :
    (l.map g).sum = ∑ r in Finset.range l.length, g (l.getD r d) := by
  induction l with
  | nil => simp
  | cons x xs ih =>
    rw [List.map_cons, List.sum_cons, List.length_cons, Finset.sum_range_succ', ih, add_comm]
    simp

theorem eigenMean_eq (M : List (List α)) (i : Nat) :
    eigenMean (eigenCol M i) = columnMean M i := by
  unfold eigenMean eigenCol columnMean sampleEntry
  rw [sum_map_eq_sum_range _ [], List.length_map]

theorem eigenStd_eq (sqrt : α → α) (M : List (List α)) (i : Nat) :
    eigenStd sqrt (eigenCol M i) = columnPopulationStd sqrt M i := by
  unfold eigenStd columnPopulationStd
  rw [eigenMean_eq]
  unfold eigenCol
  rw [List.map_map, sum_map_eq_sum_range _ [], List.length_map]
  congr 2
  apply Finset.sum_congr rfl
  intro r _
  simp only [Function.comp, sampleEntry]
  ring

/-- C10. After `computeCalibrationParamters` (which returns true), for every finger
`f` (position `k`), every sensor `i` of it and non-empty matrices of collected
samples: `biasTactileSensor[i]` is the arithmetic mean of column `i`,
`stdTactileSensor[i]` is its population standard deviation
`sqrt(sum((v - mean)^2) / N)` with divisor `N`, and the same holds for
`biasTactileSensorDerivative[i]` and `stdTactileSensorDerivative[i]` over the
collected derivative samples. -/
theorem computeCalibrationParamters_mean_std (sqrt : α → α) (s : RobotSkin α) (k : Nat)
    (f : FingertipTactileData α) (hlen : s.m_fingersTactileData.length = s.m_noFingers)
    (hf : s.m_fingersTactileData[k]? = some f) (hs : f.Sized)
    (_hN : f.collectedTactileData ≠ []) (_hND : f.collectedTactileDataDerivative ≠ [])
    (i : Nat) (hi : i < f.noTactileSensors) :
    (computeCalibrationParamters sqrt s).1 = true
    ∧ ∃ g, (computeCalibrationParamters sqrt s).2.m_fingersTactileData[k]? = some g
      ∧ g.biasTactileSensor.getD i 0 = columnMean f.collectedTactileData i
      ∧ g.stdTactileSensor.getD i 0 = columnPopulationStd sqrt f.collectedTactileData i
      ∧ g.biasTactileSensorDerivative.getD i 0
          = columnMean f.collectedTactileDataDerivative i
      ∧ g.stdTactileSensorDerivative.getD i 0
          = columnPopulationStd sqrt f.collectedTactileDataDerivative i := by
  have hloop := calibrationLoop_fingers sqrt s.m_tactileWorkingThreshold s.m_noFingers
    s.m_fingersTactileData 0 s.m_areTactileSensorsWorking (by rw [hlen]; omega)
  have inv := calibrateFinger_inv sqrt s.m_tactileWorkingThreshold f hs
  refine ⟨hloop.1, (calibrateFinger sqrt s.m_tactileWorkingThreshold f).1, ?_, ?_, ?_, ?_, ?_⟩
  · show (calibrationLoop sqrt s.m_tactileWorkingThreshold s.m_noFingers
      s.m_fingersTactileData 0 s.m_areTactileSensorsWorking).2.1[k]? = _
    rw [hloop.2]
    simp [List.getElem?_map, hf]
  · rw [inv.bias i hi, eigenMean_eq]
  · rw [inv.std i hi, eigenStd_eq]
  · rw [inv.biasD i hi, eigenMean_eq]
  · rw [inv.stdD i hi, eigenStd_eq]

theorem calibrationFinger_sized (α : Type) [LinearOrderedField α] :
    (calibrationFinger α).Sized :=
  ⟨rfl, rfl, rfl, rfl, rfl, rfl, rfl, rfl, rfl⟩

/-- C10, witness: sensor 1 of `calibrationFinger`, samples 0 and 1 (mean `1/2`),
derivative samples 0 and 100 (mean 50), with the real square root. -/
theorem computeCalibrationParamters_mean_std_witness :
    (computeCalibrationParamters Real.sqrt (strongContactSkin ℝ)).1 = true
    ∧ ∃ g, (computeCalibrationParamters Real.sqrt
          (strongContactSkin ℝ)).2.m_fingersTactileData[0]? = some g
      ∧ g.biasTactileSensor.getD 1 0 = 1 / 2
      ∧ g.stdTactileSensor.getD 1 0
          = Real.sqrt (((0 - 1 / 2) ^ 2 + (1 - 1 / 2) ^ 2) / 2)
      ∧ g.biasTactileSensorDerivative.getD 1 0 = 50
      ∧ g.stdTactileSensorDerivative.getD 1 0
          = Real.sqrt (((0 - 50) ^ 2 + (100 - 50) ^ 2) / 2) := by
  obtain ⟨h1, g, hg, hb, hs, hbd, hsd⟩ := computeCalibrationParamters_mean_std Real.sqrt
    (strongContactSkin ℝ) 0 (calibrationFinger ℝ) rfl rfl (calibrationFinger_sized ℝ)
    (by simp [calibrationFinger]) (by simp [calibrationFinger]) 1 (by decide)
  refine ⟨h1, g, hg, ?_, ?_, ?_, ?_⟩
  · rw [hb]
    norm_num [columnMean, sampleEntry, calibrationFinger, Finset.sum_range_succ]
  · rw [hs]
    norm_num [columnPopulationStd, columnMean, sampleEntry, calibrationFinger,
      Finset.sum_range_succ]
  · rw [hbd]
    norm_num [columnMean, sampleEntry, calibrationFinger, Finset.sum_range_succ]
  · rw [hsd]
    norm_num [columnPopulationStd, columnMean, sampleEntry, calibrationFinger,
      Finset.sum_range_succ]

theorem calibrationLoop_working {β : Type} [Zero β] [Add β] [Sub β] [Mul β] [Div β] [NatCast β] [LT β]
    [DecidableRel (fun a b : β => a < b)] (sqrt : β → β) (thr : β) (n : Nat) :
    ∀ (fingers : List (FingertipTactileData β)) (counter : Nat) (working : List Bool),
      counter + fingers.length ≤ n + 1 → counter + fingers.length ≤ working.length →
      (calibrationLoop sqrt thr n fingers counter working).2.2.length = working.length
      ∧ (∀ j, j < counter →
          (calibrationLoop sqrt thr n fingers counter working).2.2.getD j false
            = working.getD j false)
      ∧ (∀ j f, fingers[j]? = some f →
          (calibrationLoop sqrt thr n fingers counter working).2.2.getD (counter + j) false
            = (calibrateFinger sqrt thr f).2) := by
  intro fingers
  induction fingers with
  | nil =>
    intro counter working _ _
    exact ⟨rfl, fun _ _ => rfl, fun j f hf => absurd hf (by simp)⟩
  | cons d rest ih =>
    intro counter working hlen hw
    simp only [List.length_cons] at hlen hw
    have hc : ¬ counter > n := by omega
    have hcw : counter < working.length := by omega
    obtain ⟨h1, h2, h3⟩ := ih (counter + 1) (working.set counter (calibrateFinger sqrt thr d).2)
      (by omega) (by rw [List.length_set]; omega)
    unfold calibrationLoop
    simp only [hc, if_false]
    refine ⟨by rw [h1, List.length_set], ?_, ?_⟩
    · intro j hj
      rw [h2 j (by omega), getD_set_ne _ _ _ _ _ (by omega)]
    · intro j f hf
      cases j with
      | zero =>
        simp only [List.getElem?_cons_zero, Option.some.injEq] at hf
        subst hf
        have e := h2 counter (by omega)
        rw [getD_set_self _ _ _ _ hcw] at e
        exact e
      | succ m =>
        simp only [List.getElem?_cons_succ] at hf
        have := h3 m f hf
        rw [show counter + (m + 1) = counter + 1 + m by omega]
        exact this

theorem configureFinger_eq_none_iff [FloorRing α] (info : List α) :
    configureFinger info = none ↔
      info.length ≠ 6 ∨ stdRound (info.getD 0 0) < 0 ∨ stdRound (info.getD 1 0) ≤ 0
        ∨ stdRound (info.getD 1 0) < stdRound (info.getD 0 0) ∨ info.getD 2 0 < 0 := by
  unfold configureFinger
  generalize stdRound (info.getD 0 0) = r0
  generalize stdRound (info.getD 1 0) = r1
  generalize info.getD 2 0 = t2
  by_cases h6 : info.length = 6
  · by_cases h0 : r0 ≥ 0
    · by_cases h1 : r1 > 0
      · by_cases h01 : r0 ≤ r1
        · by_cases h2 : t2 ≥ 0
          · simp only [h6, h0, h1, h01, h2]
            simp
            exact ⟨h0, h1, h01, h2⟩
          · simp only [h6, h0, h1, h01, h2]
            simp
            right; right; right; exact not_le.mp h2
        · simp only [h6, h0, h1, h01]
          simp
          right; right; left; exact not_le.mp h01
      · simp only [h6, h0, h1]
        simp
        right; left; exact not_lt.mp h1
    · simp only [h6, h0]
      simp
      left; exact not_le.mp h0
  · simp [h6]

theorem configureFingers_none_of_mem [FloorRing α] (tactile_info : String → Option (List α))
    (name : String) (info : List α) (hinfo : tactile_info name = some info)
    (hbad : configureFinger info = none) :
    ∀ names : List String, name ∈ names → configureFingers tactile_info names = none := by
  intro names
  induction names with
  | nil => intro h; exact absurd h (List.not_mem_nil _)
  | cons x rest ih =>
    intro hmem
    unfold configureFingers
    rcases List.mem_cons.mp hmem with h | h
    · subst h
      simp only [hinfo, hbad]
    · cases hx : tactile_info x with
      | none => rfl
      | some ix =>
        cases hfx : configureFinger ix with
        | none => simp only [hfx]
        | some fd => simp only [hfx, ih h]

theorem configure_none_of_fingers [FloorRing α] (config : SkinConfig α) (names : List String)
    (hlist : config.robot_finger_list = some names)
    (hnone : configureFingers config.tactile_info names = none) : configure config = none := by
  unfold configure
  simp only [hlist, hnone]
  repeat' (first | rfl | split)

/-- C12 (as amended). `RobotSkin::configure` returns false when the tactile-info
vector of one of the fingers has a length other than 6, or a negative start
index, or an end index smaller than the start index, or a negative contact
threshold (the indices are the first two entries rounded by `std::round`). -/
theorem configure_rejects_malformed_descriptor [FloorRing α] (config : SkinConfig α)
    (names : List String) (name : String) (info : List α)
    (hlist : config.robot_finger_list = some names) (hmem : name ∈ names)
    (hinfo : config.tactile_info name = some info)
    (hbad : info.length ≠ 6 ∨ stdRound (info.getD 0 0) < 0
      ∨ stdRound (info.getD 1 0) < stdRound (info.getD 0 0) ∨ info.getD 2 0 < 0) :
    configure config = none := by
  apply configure_none_of_fingers config names hlist
  apply configureFingers_none_of_mem config.tactile_info name info hinfo _ names hmem
  rw [configureFinger_eq_none_iff]
  rcases hbad with h | h | h | h
  · exact Or.inl h
  · exact Or.inr (Or.inl h)
  · exact Or.inr (Or.inr (Or.inr (Or.inl h)))
  · exact Or.inr (Or.inr (Or.inr (Or.inr h)))

theorem stdRound_two : stdRound (2 : ℚ) = 2 := by
  simpa using @stdRound_natCast ℚ _ _ 2

theorem stdRound_three : stdRound (3 : ℚ) = 3 := by
  simpa using @stdRound_natCast ℚ _ _ 3

theorem stdRound_one : stdRound (1 : ℚ) = 1 := by
  simpa using @stdRound_natCast ℚ _ _ 1

/-- C12, witness: the descriptor `(3 2 5 1 1 5)`, whose end index is smaller than
its start index, makes `configure` fail. -/
theorem configure_rejects_malformed_descriptor_witness :
    configure (configOf [3, 2, 5, 1, 1, 5]) = none :=
  configure_rejects_malformed_descriptor (configOf [3, 2, 5, 1, 1, 5]) ["thumb"] "thumb"
    [3, 2, 5, 1, 1, 5] rfl (List.mem_singleton.mpr rfl) rfl
    (Or.inr (Or.inr (Or.inl (by
      show stdRound (2 : ℚ) < stdRound (3 : ℚ)
      rw [stdRound_two, stdRound_three]; decide))))

/-- C12, counterexample: the descriptor `(1 1 5 1 1 5)` has length 6 and its end
index equals its start index (so end ≤ start), yet `configure` succeeds and
builds a finger with the single sensor 1. -/
theorem configure_accepts_end_equal_start :
    stdRound (([1, 1, 5, 1, 1, 5] : List ℚ).getD 1 0)
        ≤ stdRound (([1, 1, 5, 1, 1, 5] : List ℚ).getD 0 0)
    ∧ ∃ s, configure (configOf [1, 1, 5, 1, 1, 5]) = some s
      ∧ s.m_fingersTactileData.map (fun f => (f.indexStart, f.indexEnd, f.noTactileSensors))
          = [(1, 1, 1)] := by
  refine ⟨le_refl _, ?_⟩
  simp [configure, configureFingers, configureFinger, configOf, stdRound_one]

theorem strengthInv_step (s t : RobotSkin α) (k : Nat)
    (hk1 : k < s.m_fingersContactStrength.length)
    (hk2 : k < s.m_fingersContactStrengthDerivate.length)
    (hk3 : k < s.m_fingersContactStrengthDerivateSmoothed.length)
    (h : StrengthInv s t k) : StrengthInv s (computeMaxContactStrengthStep t k) (k + 1) := by
  unfold computeMaxContactStrengthStep
  cases hf : t.m_fingersTactileData[k]? with
  | none =>
    dsimp only
    refine ⟨h.fingers, h.contact, h.changes, h.gain, h.noFingers, h.lenStrength,
      h.lenDerivate, h.lenSmoothed, ?_, ?_, ?_, ?_⟩
    · intro i f hi hfi
      rcases Nat.lt_succ_iff_lt_or_eq.mp hi with h1 | h1
      · exact h.strength i f h1 hfi
      · subst h1; rw [← h.fingers, hf] at hfi; exact absurd hfi (by simp)
    · intro i f hi hfi
      rcases Nat.lt_succ_iff_lt_or_eq.mp hi with h1 | h1
      · exact h.derivate i f h1 hfi
      · subst h1; rw [← h.fingers, hf] at hfi; exact absurd hfi (by simp)
    · intro i f hi hfi
      rcases Nat.lt_succ_iff_lt_or_eq.mp hi with h1 | h1
      · exact h.smoothed i f h1 hfi
      · subst h1; rw [← h.fingers, hf] at hfi; exact absurd hfi (by simp)
    · intro i hi
      exact h.smoothedLater i (by omega)
  | some g =>
    have ha : k < t.m_fingersContactStrength.length := by rw [h.lenStrength]; exact hk1
    have hd : k < t.m_fingersContactStrengthDerivate.length := by
      rw [h.lenDerivate]; exact hk2
    have hs : k < t.m_fingersContactStrengthDerivateSmoothed.length := by
      rw [h.lenSmoothed]; exact hk3
    dsimp only
    simp only [getD_set_self, ha, hd, hs, List.length_set, List.set_set]
    refine ⟨h.fingers, h.contact, h.changes, h.gain, h.noFingers, ?_, ?_, ?_, ?_, ?_, ?_, ?_⟩
    · simp [h.lenStrength]
    · simp [h.lenDerivate]
    · simp [h.lenSmoothed]
    · intro i f hi hfi
      rcases Nat.lt_succ_iff_lt_or_eq.mp hi with h1 | h1
      · dsimp only
        rw [getD_set_ne _ _ _ _ _ (Nat.ne_of_gt h1)]
        exact h.strength i f h1 hfi
      · subst h1
        rw [← h.fingers, hf] at hfi
        cases hfi
        dsimp only
        rw [getD_set_self _ _ _ _ ha, h.contact]
    · intro i f hi hfi
      rcases Nat.lt_succ_iff_lt_or_eq.mp hi with h1 | h1
      · dsimp only
        rw [getD_set_ne _ _ _ _ _ (Nat.ne_of_gt h1)]
        exact h.derivate i f h1 hfi
      · subst h1
        rw [← h.fingers, hf] at hfi
        cases hfi
        dsimp only
        rw [getD_set_self _ _ _ _ hd, h.contact, h.changes]
    · intro i f hi hfi
      rcases Nat.lt_succ_iff_lt_or_eq.mp hi with h1 | h1
      · dsimp only
        rw [getD_set_ne _ _ _ _ _ (Nat.ne_of_gt h1), getD_set_ne _ _ _ _ _ (Nat.ne_of_gt h1)]
        exact h.smoothed i f h1 hfi
      · subst h1
        dsimp only
        rw [getD_set_self _ _ _ _ hs, getD_set_self _ _ _ _ hd, h.gain,
          h.smoothedLater i (le_refl i)]
    · intro i hi
      dsimp only
      rw [getD_set_ne _ _ _ _ _ (by omega)]
      exact h.smoothedLater i (by omega)

theorem computeMaxContactStrength_inv (s : RobotSkin α) (hs : s.StrengthSized) :
    StrengthInv s (computeMaxContactStrength s) s.m_noFingers :=
  foldl_range_invariant computeMaxContactStrengthStep (fun k t => StrengthInv s t k)
    s.m_noFingers s
    ⟨rfl, rfl, rfl, rfl, rfl, rfl, rfl, rfl, fun i _ hi _ => absurd hi (Nat.not_lt_zero i),
      fun i _ hi _ => absurd hi (Nat.not_lt_zero i),
      fun i _ hi _ => absurd hi (Nat.not_lt_zero i), fun _ _ => rfl⟩
    (fun k t hk h => strengthInv_step s t k (by rw [hs.strength]; exact hk)
      (by rw [hs.derivate]; exact hk) (by rw [hs.smoothed]; exact hk) h)

/-- C13. After `computeMaxContactStrength`, for every finger `f` (position
`k < m_noFingers`): when the finger is in contact its contact strength is the
greatest calibrated value of the finger (the value at the first sensor `j`
holding the maximum), and when it is not in contact its contact strength is 0;
the contact flag itself is not changed by the call. -/
theorem computeMaxContactStrength_strength (s : RobotSkin α) (hs : s.StrengthSized) (k : Nat)
    (f : FingertipTactileData α) (hk : k < s.m_noFingers)
    (hf : s.m_fingersTactileData[k]? = some f) :
    (computeMaxContactStrength s).m_areFingersInContact = s.m_areFingersInContact
    ∧ (s.m_areFingersInContact.getD k false = true →
        ∀ j, IsFirstMax f.calibratedTactileData j →
          (computeMaxContactStrength s).m_fingersContactStrength.getD k 0
            = f.calibratedTactileData.getD j 0)
    ∧ (s.m_areFingersInContact.getD k false = false →
        (computeMaxContactStrength s).m_fingersContactStrength.getD k 0 = 0) := by
  have inv := computeMaxContactStrength_inv s hs
  refine ⟨inv.contact, ?_, ?_⟩
  · intro hc j hj
    have hne : f.calibratedTactileData ≠ [] := by
      intro h0; rw [h0] at hj; exact absurd hj.1 (Nat.not_lt_zero j)
    rw [inv.strength k f hk hf, hc, if_pos rfl,
      isFirstMax_unique _ _ _ hj (maxElementIndex_spec f.calibratedTactileData hne)]
    rfl
  · intro hc
    rw [inv.strength k f hk hf, hc]
    rfl

/-- C13, witness: the finger of `pressedSkin` is in contact with calibrated values
`[1/4, 3/4]`, so its contact strength becomes `3/4`, the value at sensor 1. -/
theorem computeMaxContactStrength_strength_witness :
    (computeMaxContactStrength pressedSkin).m_fingersContactStrength.getD 0 0 = 3 / 4 :=
  (computeMaxContactStrength_strength pressedSkin ⟨rfl, rfl, rfl, rfl⟩ 0 pressedFinger
    (by decide) rfl).2.1 rfl 1
    ⟨by decide, fun m hm => by
        have hm2 : m < 2 := hm
        interval_cases m <;> norm_num [pressedFinger],
      fun m hm => by
        have hm0 : m = 0 := by omega
        subst hm0; norm_num [pressedFinger]⟩

theorem stdRound_190 : stdRound (190 : ℚ) = 190 := by
  simpa using @stdRound_natCast ℚ _ _ 190

theorem stdRound_200 : stdRound (200 : ℚ) = 200 := by
  simpa using @stdRound_natCast ℚ _ _ 200

theorem stdRound_zero : stdRound (0 : ℚ) = 0 := by
  simpa using @stdRound_natCast ℚ _ _ 0

/-- C27, failing input: with `skinDerivativeSmoothingGain` 2 (outside `[0, 1]`)
and every other value valid, `configure` succeeds and stores the gain 2. -/
theorem configure_accepts_smoothing_gain_two :
    ¬ (overGainConfig.skinDerivativeSmoothingGain ≤ 1)
    ∧ ∃ s, configure overGainConfig = some s ∧ s.m_smoothingGainDerivative = 2 := by
  refine ⟨by norm_num [overGainConfig], ?_⟩
  simp [configure, configureFingers, configureFinger, overGainConfig, configOf, stdRound_one,
    stdRound_zero]

/-- C29, failing input: with a raw vector of 192 entries, the descriptor
`(190 200 5 1 1 5)` is accepted by `configure`; the finger `overrunFinger` has
`200 - 190 + 1 = 11` sensors and its sensor 10 reads the raw vector at index
`190 + 10 = 200`, which is not smaller than the length 192 of that vector. -/
theorem configure_accepts_index_beyond_raw_vector :
    (configure (configOf [190, 200, 5, 1, 1, 5])).map
        (fun s => (s.m_fingersTactileData, s.m_fingertipRawTactileFeedbacksStdVector.length))
      = some ([overrunFinger], 192)
    ∧ 10 < overrunFinger.noTactileSensors
    ∧ 192 ≤ overrunFinger.indexStart + 10 := by
  have hf : configureFinger ([190, 200, 5, 1, 1, 5] : List ℚ) = some overrunFinger := by
    simp [configureFinger, stdRound_190, stdRound_200, overrunFinger]
  refine ⟨?_, by decide, by decide⟩
  simp only [configure, configureFingers, configOf, hf]
  norm_num

/-- C28, counterexample: the finger of `risingSkin` has greatest derivative 100,
above its derivative threshold 5, and greatest calibrated value `1/4`, below
its contact threshold `1/2`.  After `computeAreFingersInContact` its
`contactChanged` is true and its `inContact` is false, and
`computeMaxContactStrength` stores the raw strength derivative 0, not 100. -/
theorem computeMaxContactStrength_derivative_needs_contact :
    (computeAreFingersInContact risingSkin).m_areFingersContactChanges.getD 0 false = true
    ∧ (computeAreFingersInContact risingSkin).m_areFingersInContact.getD 0 false = false
    ∧ risingFinger.maxTactileFeedbackDerivativeValue = 100
    ∧ (computeMaxContactStrength
        (computeAreFingersInContact risingSkin)).m_fingersContactStrengthDerivate.getD 0 0
        = 0 := by
  norm_num [computeMaxContactStrength, computeMaxContactStrengthStep,
    computeAreFingersInContact, computeAreFingersInContactStep, risingSkin, skinOf,
    risingFinger, calibrationFinger, FingertipTactileData.maxTactileFeedbackDerivativeValue,
    FingertipTactileData.maxTactileFeedbackAbsoluteValue,
    FingertipTactileData.maxTactileFeedbackValue, FingertipTactileData.contactThreshold,
    FingertipTactileData.contactDerivativeThreshold, maxElementIndex, maxElementLoop,
    List.range_succ]

/-- C28. After `computeMaxContactStrength`, for every finger `f` (position
`k < m_noFingers`): the raw contact-strength derivative is the greatest stored
derivative of the finger (the value at the first sensor `j` holding the
maximum) when the finger is in contact and `contactChanged` is true, and it is
0 when `contactChanged` is false or the finger is not in contact. -/
theorem computeMaxContactStrength_derivative_gating (s : RobotSkin α) (hs : s.StrengthSized)
    (k : Nat) (f : FingertipTactileData α) (hk : k < s.m_noFingers)
    (hf : s.m_fingersTactileData[k]? = some f) :
    (s.m_areFingersContactChanges.getD k false = true →
      s.m_areFingersInContact.getD k false = true →
        ∀ j, IsFirstMax f.tactileDataDerivative j →
          (computeMaxContactStrength s).m_fingersContactStrengthDerivate.getD k 0
            = f.tactileDataDerivative.getD j 0)
    ∧ (s.m_areFingersContactChanges.getD k false = false →
        (computeMaxContactStrength s).m_fingersContactStrengthDerivate.getD k 0 = 0)
    ∧ (s.m_areFingersInContact.getD k false = false →
        (computeMaxContactStrength s).m_fingersContactStrengthDerivate.getD k 0 = 0) := by
  have inv := computeMaxContactStrength_inv s hs
  refine ⟨?_, ?_, ?_⟩
  · intro hc hi j hj
    have hne : f.tactileDataDerivative ≠ [] := by
      intro h0; rw [h0] at hj; exact absurd hj.1 (Nat.not_lt_zero j)
    rw [inv.derivate k f hk hf, hc, hi, if_pos rfl, if_pos rfl,
      isFirstMax_unique _ _ _ hj (maxElementIndex_spec f.tactileDataDerivative hne)]
    rfl
  · intro hc
    rw [inv.derivate k f hk hf, hc]
    rfl
  · intro hi
    rw [inv.derivate k f hk hf, hi]
    simp

/-- C28, witness: the finger of `strongContactSkin` is in contact with
`contactChanged` true and stored derivatives `[0, 0]`, so its raw strength
derivative becomes the value at sensor 0. -/
theorem computeMaxContactStrength_derivative_gating_witness :
    (computeMaxContactStrength
        (strongContactSkin ℚ)).m_fingersContactStrengthDerivate.getD 0 0
      = (calibrationFinger ℚ).tactileDataDerivative.getD 0 0 :=
  (computeMaxContactStrength_derivative_gating (strongContactSkin ℚ) ⟨rfl, rfl, rfl, rfl⟩ 0
    (calibrationFinger ℚ) (by decide) rfl).1 rfl rfl 0
    ⟨by decide, fun m hm => by
        have hm2 : m < 2 := hm
        interval_cases m <;> norm_num [calibrationFinger],
      fun m hm => absurd hm (Nat.not_lt_zero m)⟩

theorem isFirstMax_zero_of_const (l : List α) (c : α) (hl : 0 < l.length)
    (hc : ∀ i, i < l.length → l.getD i 0 = c) : IsFirstMax l 0 :=
  ⟨hl, fun m hm => by rw [hc m hm, hc 0 hl], fun m hm => absurd hm (Nat.not_lt_zero m)⟩

/-- C22, counterexample: the freshly configured `twoSensorFinger` (bias and std
all 0) with the raw reading 240 on both sensors.  After
`updateCalibratedTactileData` and `computeAreFingersInContact` both calibrated
values are `1/17` and the finger is reported in contact. -/
theorem noLoad_fresh_finger_in_contact :
    (updateCalibratedTactileData noLoadSkin).m_fingersTactileData.map
        (fun f => f.calibratedTactileData) = [[1 / 17, 1 / 17]]
    ∧ (computeAreFingersInContact
        (updateCalibratedTactileData noLoadSkin)).m_areFingersInContact = [true] := by
  norm_num [computeAreFingersInContact, computeAreFingersInContactStep,
    updateCalibratedTactileData, updateFinger, updateSensor, noLoadSkin, skinOf,
    twoSensorFinger, range_two, stdMax, stdMin, maxTactileValue, minTactileValue,
    FingertipTactileData.maxTactileFeedbackAbsoluteValue,
    FingertipTactileData.maxTactileFeedbackValue, FingertipTactileData.contactThreshold,
    FingertipTactileData.contactDerivativeThreshold,
    FingertipTactileData.maxTactileFeedbackDerivativeValue, maxElementIndex, maxElementLoop,
    List.range_succ]

/-- C22. No-load reading: for a finger `f` (position `k < m_noFingers`, at least one
sensor) whose bias is 0 on every sensor and whose raw readings are all 240,
`updateCalibratedTactileData` gives the calibrated value `1 - 240/255 = 1/17`
on every sensor, and the following `computeAreFingersInContact` reports the
finger in contact exactly when `contactThresholdValue * std[0] < 1/17`; so
`inContact` is false exactly when the threshold of sensor 0 is at least `1/17`. -/
theorem noLoad_reading_contact (s : RobotSkin α) (k : Nat) (f : FingertipTactileData α)
    (hk : k < s.m_noFingers) (hf : s.m_fingersTactileData[k]? = some f) (hs : f.Sized)
    (hn : 0 < f.noTactileSensors)
    (h1 : s.m_areFingersInContact.length = s.m_noFingers)
    (h2 : s.m_areFingersContactChanges.length = s.m_noFingers)
    (hbias : ∀ i, i < f.noTactileSensors → f.biasTactileSensor.getD i 0 = 0)
    (hraw : ∀ i, i < f.noTactileSensors →
      s.m_fingertipRawTactileFeedbacksStdVector[f.indexStart + i]? = some 240) :
    ∃ g, (updateCalibratedTactileData s).m_fingersTactileData[k]? = some g
      ∧ (∀ i, i < f.noTactileSensors → g.calibratedTactileData.getD i 0 = 1 / 17)
      ∧ ((computeAreFingersInContact
            (updateCalibratedTactileData s)).m_areFingersInContact.getD k false = true
          ↔ f.contactThresholdValue * f.stdTactileSensor.getD 0 0 < 1 / 17) := by
  have inv := updateFinger_inv s.m_fingertipRawTactileFeedbacksStdVector s.m_samplingTime
    s.m_tactileUpdateThreshold f hs
  have hg : (updateCalibratedTactileData s).m_fingersTactileData[k]?
      = some (updateFinger s.m_fingertipRawTactileFeedbacksStdVector s.m_samplingTime
          s.m_tactileUpdateThreshold f) := by
    simp [updateCalibratedTactileData, List.getElem?_map, hf]
  have hcal : ∀ i, i < f.noTactileSensors →
      (updateFinger s.m_fingertipRawTactileFeedbacksStdVector s.m_samplingTime
          s.m_tactileUpdateThreshold f).calibratedTactileData.getD i 0 = 1 / 17 := by
    intro i hi
    rw [inv.cal_lt i hi, normalizedReading_eq _ f i 240 (hraw i hi), hbias i hi,
      min_eq_left (by norm_num), max_eq_right (by norm_num)]
    norm_num
  have hlen : (updateFinger s.m_fingertipRawTactileFeedbacksStdVector s.m_samplingTime
      s.m_tactileUpdateThreshold f).calibratedTactileData.length = f.noTactileSensors := by
    rw [inv.sized.calibrated, inv.static.noTactileSensors]
  have hmax := isFirstMax_zero_of_const _ (1 / 17 : α) (by rw [hlen]; exact hn)
    (fun i hi => hcal i (by rw [hlen] at hi; exact hi))
  have hne : (updateFinger s.m_fingertipRawTactileFeedbacksStdVector s.m_samplingTime
      s.m_tactileUpdateThreshold f).calibratedTactileData ≠ [] := by
    intro h0; rw [h0] at hlen; exact absurd hlen.symm (Nat.pos_iff_ne_zero.mp hn)
  have hidx := isFirstMax_unique _ _ _ (maxElementIndex_spec _ hne) hmax
  refine ⟨_, hg, hcal, ?_⟩
  rw [(computeAreFingersInContact_inv (updateCalibratedTactileData s) h1 h2).contact k _ hk hg,
    decide_eq_true_iff]
  unfold FingertipTactileData.maxTactileFeedbackAbsoluteValue
    FingertipTactileData.maxTactileFeedbackValue FingertipTactileData.contactThreshold
  rw [hidx, hcal 0 hn, inv.static.contactThresholdValue, inv.static.stdTactileSensor]

/-- C22, witness: the sensor of `scenarioFinger` (bias 0, std 0.1, multiplier 5) at
the raw reading 240: the calibrated value is `1/17` and, the threshold `1/2`
being above it, the finger is not in contact. -/
theorem noLoad_reading_contact_witness :
    ∃ g, (updateCalibratedTactileData noLoadScenarioSkin).m_fingersTactileData[0]? = some g
      ∧ g.calibratedTactileData.getD 0 0 = 1 / 17
      ∧ (computeAreFingersInContact
          (updateCalibratedTactileData noLoadScenarioSkin)).m_areFingersInContact.getD 0 false
          = false := by
  obtain ⟨g, hg, hcal, hiff⟩ := noLoad_reading_contact noLoadScenarioSkin 0 scenarioFinger
    (by decide) rfl ⟨rfl, rfl, rfl, rfl, rfl, rfl, rfl, rfl, rfl⟩ (by decide) rfl rfl
    (fun i hi => by
      have hi0 : i = 0 := Nat.lt_one_iff.mp hi
      subst hi0; rfl)
    (fun i hi => by
      have hi0 : i = 0 := Nat.lt_one_iff.mp hi
      subst hi0; rfl)
  refine ⟨g, hg, hcal 0 (by decide), ?_⟩
  have hnot : ¬ (scenarioFinger.contactThresholdValue * scenarioFinger.stdTactileSensor.getD 0 0
      < 1 / 17) := by
    norm_num [scenarioFinger]
  cases hb : (computeAreFingersInContact
      (updateCalibratedTactileData noLoadScenarioSkin)).m_areFingersInContact.getD 0 false
  · rfl
  · exact absurd (hiff.mp hb) hnot

theorem normalizedReading_mem (raw : List α) (f : FingertipTactileData α) (i : Nat) :
    0 ≤ normalizedReading raw f i ∧ normalizedReading raw f i ≤ 1 := by
  unfold normalizedReading maxTactileValue minTactileValue
  rw [stdMax_eq_max, stdMin_eq_min]
  have h0 : (0 : α) ≤ max (min (raw.getD (i + f.indexStart) 0) 255) 0 := le_max_right _ _
  have h1 : max (min (raw.getD (i + f.indexStart) 0) 255) 0 ≤ (255 : α) :=
    max_le (min_le_right _ _) (by norm_num)
  have h255 : (0 : α) < 255 := by norm_num
  constructor
  · rw [sub_nonneg, div_le_one h255]; exact h1
  · have := div_nonneg h0 h255.le
    linarith

theorem sum_mem_of_unit (l : List α) (h : ∀ x, x ∈ l → 0 ≤ x ∧ x ≤ 1) :
    0 ≤ l.sum ∧ l.sum ≤ (l.length : α) := by
  induction l with
  | nil => simp
  | cons x xs ih =>
    have hx := h x (List.mem_cons_self x xs)
    have hxs := ih (fun y hy => h y (List.mem_cons_of_mem x hy))
    rw [List.sum_cons, List.length_cons]
    push_cast
    constructor
    · linarith [hx.1, hxs.1]
    · linarith [hx.2, hxs.2]

theorem eigenMean_mem (M : List (List α)) (n i : Nat) (hM : M ≠ [])
    (h : SamplesInUnitRange M n) (hi : i < n) :
    0 ≤ eigenMean (eigenCol M i) ∧ eigenMean (eigenCol M i) ≤ 1 := by
  have hs := sum_mem_of_unit (eigenCol M i) (by
    intro x hx
    unfold eigenCol at hx
    obtain ⟨row, hrow, rfl⟩ := List.mem_map.mp hx
    exact h row hrow i hi)
  have hlen : (0 : α) < ((eigenCol M i).length : α) := by
    unfold eigenCol
    rw [List.length_map]
    exact Nat.cast_pos.mpr (List.length_pos.mpr hM)
  unfold eigenMean
  exact ⟨div_nonneg hs.1 hlen.le, (div_le_one hlen).mpr hs.2⟩

theorem calibrationTickFinger_inv (dt thr : α) (f : FingertipTactileData α) (raw : List α)
    (hs : f.Sized) (h : SamplesInUnitRange f.collectedTactileData f.noTactileSensors) :
    (calibrationTickFinger dt thr f raw).Sized
    ∧ (calibrationTickFinger dt thr f raw).noTactileSensors = f.noTactileSensors
    ∧ SamplesInUnitRange (calibrationTickFinger dt thr f raw).collectedTactileData
        f.noTactileSensors
    ∧ (calibrationTickFinger dt thr f raw).collectedTactileData ≠ [] := by
  have inv := updateFinger_inv raw dt thr f hs
  refine ⟨⟨inv.sized.raw, inv.sized.tactile, inv.sized.calibrated, inv.sized.previous,
    inv.sized.derivative, inv.sized.bias, inv.sized.std, inv.sized.biasDerivative,
    inv.sized.stdDerivative⟩, inv.static.noTactileSensors, ?_, ?_⟩
  · intro row hrow i hi
    have hmem : row ∈ (updateFinger raw dt thr f).collectedTactileData
        ++ [(updateFinger raw dt thr f).tactileData] := hrow
    rcases List.mem_append.mp hmem with hold | hnew
    · rw [inv.static.collectedTactileData] at hold
      exact h row hold i hi
    · rw [List.mem_singleton] at hnew
      rw [hnew, inv.tactile_lt i hi]
      exact normalizedReading_mem raw f i
  · show (updateFinger raw dt thr f).collectedTactileData
        ++ [(updateFinger raw dt thr f).tactileData] ≠ []
    simp

theorem calibrationTicksFinger_inv (dt thr : α) (raws : List (List α)) :
    ∀ f : FingertipTactileData α, f.Sized →
      SamplesInUnitRange f.collectedTactileData f.noTactileSensors →
      (raws.foldl (calibrationTickFinger dt thr) f).Sized
      ∧ (raws.foldl (calibrationTickFinger dt thr) f).noTactileSensors = f.noTactileSensors
      ∧ SamplesInUnitRange (raws.foldl (calibrationTickFinger dt thr) f).collectedTactileData
          f.noTactileSensors
      ∧ (raws ≠ [] →
          (raws.foldl (calibrationTickFinger dt thr) f).collectedTactileData ≠ []) := by
  induction raws with
  | nil => intro f hs h; exact ⟨hs, rfl, h, fun hne => absurd rfl hne⟩
  | cons raw rest ih =>
    intro f hs h
    have h1 := calibrationTickFinger_inv dt thr f raw hs h
    have h2 := ih (calibrationTickFinger dt thr f raw) h1.1 (by rw [h1.2.1]; exact h1.2.2.1)
    rw [List.foldl_cons]
    refine ⟨h2.1, by rw [h2.2.1, h1.2.1], by rw [← h1.2.1]; exact h2.2.2.1, ?_⟩
    intro _
    by_cases hrest : rest = []
    · subst hrest; exact h1.2.2.2
    · exact h2.2.2.2 hrest

theorem calibrationTicks_fingers (raws : List (List α)) :
    ∀ s : RobotSkin α,
      (raws.foldl calibrationTick s).m_fingersTactileData
          = s.m_fingersTactileData.map (fun f =>
              raws.foldl (calibrationTickFinger s.m_samplingTime s.m_tactileUpdateThreshold) f)
      ∧ (raws.foldl calibrationTick s).m_noFingers = s.m_noFingers
      ∧ (raws.foldl calibrationTick s).m_samplingTime = s.m_samplingTime
      ∧ (raws.foldl calibrationTick s).m_tactileUpdateThreshold = s.m_tactileUpdateThreshold
      ∧ (raws.foldl calibrationTick s).m_tactileWorkingThreshold
          = s.m_tactileWorkingThreshold := by
  induction raws with
  | nil => intro s; exact ⟨by simp, rfl, rfl, rfl, rfl⟩
  | cons raw rest ih =>
    intro s
    have h := ih (calibrationTick s raw)
    rw [List.foldl_cons]
    refine ⟨?_, h.2.1, h.2.2.1, h.2.2.2.1, h.2.2.2.2⟩
    rw [h.1]
    simp [calibrationTick, collectSkinDataForCalibration, updateCalibratedTactileData,
      calibrationTickFinger, List.map_map, Function.comp]

theorem calibrateSensor_sized (sqrt : α → α) (thr : α) (st : FingertipTactileData α × Bool)
    (k : Nat) (hs : st.1.Sized) : (calibrateSensor sqrt thr st k).1.Sized := by
  unfold calibrateSensor
  exact ⟨hs.raw, hs.tactile, hs.calibrated, hs.previous, hs.derivative,
    by simp [hs.bias], by simp [hs.std], by simp [hs.biasDerivative],
    by simp [hs.stdDerivative]⟩

theorem calibrateFinger_sized (sqrt : α → α) (thr : α) (f : FingertipTactileData α)
    (hs : f.Sized) : (calibrateFinger sqrt thr f).1.Sized :=
  foldl_range_invariant (calibrateSensor sqrt thr) (fun _ st => st.1.Sized)
    f.noTactileSensors (f, false) hs
    (fun k st _ h => calibrateSensor_sized sqrt thr st k h)

/-- C23. For every finger `f` (position `k`), sensor `i` of it and raw vector
(whatever its entries): after `updateCalibratedTactileData` the normalised
value `tactileData[i]` lies in `[0, 1]`; the calibrated value lies in `[-1, 1]`
when the bias of the sensor is 0, and also when the bias was computed by a
calibration pass over a non-empty list of raw vectors, each sample being
collected after `updateCalibratedTactileData`, starting from empty matrices
of collected samples. -/
theorem calibrated_signal_range (sqrt : α → α) (s : RobotSkin α) (k : Nat)
    (f : FingertipTactileData α) (hf : s.m_fingersTactileData[k]? = some f) (hs : f.Sized)
    (i : Nat) (hi : i < f.noTactileSensors) :
    (∃ g, (updateCalibratedTactileData s).m_fingersTactileData[k]? = some g
      ∧ 0 ≤ g.tactileData.getD i 0 ∧ g.tactileData.getD i 0 ≤ 1
      ∧ (f.biasTactileSensor.getD i 0 = 0 →
          (-1 : α) ≤ g.calibratedTactileData.getD i 0 ∧ g.calibratedTactileData.getD i 0 ≤ 1))
    ∧ ∀ (raws : List (List α)) (raw : List α), raws ≠ [] → f.collectedTactileData = [] →
        s.m_fingersTactileData.length = s.m_noFingers →
        ∃ g, (updateCalibratedTactileData
            { calibrationPass sqrt s raws with
              m_fingertipRawTactileFeedbacksStdVector := raw }).m_fingersTactileData[k]?
            = some g
          ∧ (-1 : α) ≤ g.calibratedTactileData.getD i 0 ∧ g.calibratedTactileData.getD i 0 ≤ 1 := by
  constructor
  · have inv := updateFinger_inv s.m_fingertipRawTactileFeedbacksStdVector s.m_samplingTime
      s.m_tactileUpdateThreshold f hs
    have hn := normalizedReading_mem s.m_fingertipRawTactileFeedbacksStdVector f i
    refine ⟨updateFinger s.m_fingertipRawTactileFeedbacksStdVector s.m_samplingTime
      s.m_tactileUpdateThreshold f, ?_, ?_, ?_, ?_⟩
    · simp [updateCalibratedTactileData, List.getElem?_map, hf]
    · rw [inv.tactile_lt i hi]; exact hn.1
    · rw [inv.tactile_lt i hi]; exact hn.2
    · intro hb
      rw [inv.cal_lt i hi, hb, sub_zero]
      exact ⟨by linarith [hn.1], hn.2⟩
  · intro raws raw hraws hempty hlen
    have hticks := calibrationTicks_fingers raws s
    have hfin := calibrationTicksFinger_inv s.m_samplingTime s.m_tactileUpdateThreshold raws f
      hs (by rw [hempty]; intro row hrow; exact absurd hrow (List.not_mem_nil row))
    have hloop := calibrationLoop_fingers sqrt
      (raws.foldl calibrationTick s).m_tactileWorkingThreshold
      (raws.foldl calibrationTick s).m_noFingers
      (raws.foldl calibrationTick s).m_fingersTactileData 0
      (raws.foldl calibrationTick s).m_areTactileSensorsWorking
      (by rw [hticks.1, hticks.2.1, List.length_map, hlen]; omega)
    have hcal := calibrateFinger_inv sqrt
      (raws.foldl calibrationTick s).m_tactileWorkingThreshold _ hfin.1
    have hsized := calibrateFinger_sized sqrt
      (raws.foldl calibrationTick s).m_tactileWorkingThreshold _ hfin.1
    have hi2 : i < (raws.foldl
        (calibrationTickFinger s.m_samplingTime s.m_tactileUpdateThreshold) f).noTactileSensors := by
      rw [hfin.2.1]; exact hi
    have hbias := hcal.bias i hi2
    have hmean := eigenMean_mem _ f.noTactileSensors i (hfin.2.2.2 hraws) hfin.2.2.1 hi
    have inv := updateFinger_inv raw (calibrationPass sqrt s raws).m_samplingTime
      (calibrationPass sqrt s raws).m_tactileUpdateThreshold _ hsized
    have hn := normalizedReading_mem raw
      (calibrateFinger sqrt (raws.foldl calibrationTick s).m_tactileWorkingThreshold
        (raws.foldl (calibrationTickFinger s.m_samplingTime s.m_tactileUpdateThreshold) f)).1 i
    have hi3 : i < (calibrateFinger sqrt (raws.foldl calibrationTick s).m_tactileWorkingThreshold
        (raws.foldl (calibrationTickFinger s.m_samplingTime s.m_tactileUpdateThreshold)
          f)).1.noTactileSensors := by
      rw [hcal.noTactileSensors]; exact hi2
    refine ⟨updateFinger raw (calibrationPass sqrt s raws).m_samplingTime
      (calibrationPass sqrt s raws).m_tactileUpdateThreshold
      (calibrateFinger sqrt (raws.foldl calibrationTick s).m_tactileWorkingThreshold
        (raws.foldl (calibrationTickFinger s.m_samplingTime s.m_tactileUpdateThreshold) f)).1,
      ?_, ?_, ?_⟩
    · show ((calibrationLoop sqrt (raws.foldl calibrationTick s).m_tactileWorkingThreshold
          (raws.foldl calibrationTick s).m_noFingers
          (raws.foldl calibrationTick s).m_fingersTactileData 0
          (raws.foldl calibrationTick s).m_areTactileSensorsWorking).2.1.map
          (updateFinger raw (calibrationPass sqrt s raws).m_samplingTime
            (calibrationPass sqrt s raws).m_tactileUpdateThreshold))[k]? = _
      rw [hloop.2, hticks.1]
      simp only [List.getElem?_map, hf, Option.map_some']
    · rw [inv.cal_lt i hi3, hbias]
      linarith [hn.1, hmean.2]
    · rw [inv.cal_lt i hi3, hbias]
      linarith [hn.2, hmean.1]

/-- C23, witness: sensor 1 of `uncalibratedFinger` (bias 0), and the same sensor
after a calibration pass over the two raw vectors of `calibrationRaws`, read at
the raw vector `[255, 0]`, with the real square root. -/
theorem calibrated_signal_range_witness :
    (∃ g, (updateCalibratedTactileData (uncalibratedSkin ℝ)).m_fingersTactileData[0]? = some g
      ∧ 0 ≤ g.tactileData.getD 1 0 ∧ g.tactileData.getD 1 0 ≤ 1
      ∧ (-1 : ℝ) ≤ g.calibratedTactileData.getD 1 0 ∧ g.calibratedTactileData.getD 1 0 ≤ 1)
    ∧ ∃ g, (updateCalibratedTactileData
          { calibrationPass Real.sqrt (uncalibratedSkin ℝ) (calibrationRaws ℝ) with
            m_fingertipRawTactileFeedbacksStdVector := [255, 0] }).m_fingersTactileData[0]?
          = some g
        ∧ (-1 : ℝ) ≤ g.calibratedTactileData.getD 1 0 ∧ g.calibratedTactileData.getD 1 0 ≤ 1 := by
  have h := calibrated_signal_range Real.sqrt (uncalibratedSkin ℝ) 0 (uncalibratedFinger ℝ) rfl
    ⟨rfl, rfl, rfl, rfl, rfl, rfl, rfl, rfl, rfl⟩ 1 (by decide)
  obtain ⟨g, hg, h0, h1, hc⟩ := h.1
  exact ⟨⟨g, hg, h0, h1, hc (by simp [uncalibratedFinger, calibrationFinger])⟩,
    h.2 (calibrationRaws ℝ) [255, 0] (List.cons_ne_nil _ _) rfl rfl⟩

theorem sum_eq_zero_of_all_zero {β : Type} [Zero β] [Add β] (hadd : (0 : β) + 0 = 0)
    (l : List β) (h : ∀ x, x ∈ l → x = 0) : l.sum = 0 := by
  induction l with
  | nil => rfl
  | cons x xs ih =>
    rw [List.sum_cons, h x (List.mem_cons_self x xs),
      ih (fun y hy => h y (List.mem_cons_of_mem x hy)), hadd]

theorem eigenStd_const {β : Type} [Zero β] [Add β] [Sub β] [Mul β] [Div β] [NatCast β]
    (sqrt : β → β) (hsqrt : sqrt 0 = 0) (hmul : (0 : β) * 0 = 0) (hadd : (0 : β) + 0 = 0)
    (vec : List β) (c : β) (hdiv : (0 : β) / (vec.length : β) = 0)
    (hc : ∀ v, v ∈ vec → v = c) (hmean : eigenMean vec = c) (hsub : c - c = 0) :
    eigenStd sqrt vec = 0 := by
  unfold eigenStd
  rw [hmean, sum_eq_zero_of_all_zero hadd _ (by
    intro x hx
    obtain ⟨v, hv, rfl⟩ := List.mem_map.mp hx
    rw [hc v hv, hsub, hmul]), hdiv, hsqrt]

theorem computeCalibrationParamters_constant_of_arith {β : Type} [Zero β] [Add β] [Sub β]
    [Mul β] [Div β] [NatCast β] [LT β] [DecidableRel (fun a b : β => a < b)] (sqrt : β → β)
    (hsqrt : sqrt 0 = 0) (hmul : (0 : β) * 0 = 0) (hadd : (0 : β) + 0 = 0) (s : RobotSkin β)
    (k : Nat) (f : FingertipTactileData β)
    (hlen : s.m_fingersTactileData.length = s.m_noFingers)
    (hw : s.m_areTactileSensorsWorking.length = s.m_noFingers)
    (hf : s.m_fingersTactileData[k]? = some f) (hs : f.Sized)
    (_hN : f.collectedTactileData ≠ [])
    (hdiv : (0 : β) / (f.collectedTactileData.length : β) = 0) :
    ∃ g, (computeCalibrationParamters sqrt s).2.m_fingersTactileData[k]? = some g
      ∧ (∀ i, i < f.noTactileSensors →
          g.biasTactileSensor.getD i 0 = eigenMean (eigenCol f.collectedTactileData i)
          ∧ g.stdTactileSensor.getD i 0
            = eigenStd sqrt (eigenCol f.collectedTactileData i))
      ∧ (∀ i c, i < f.noTactileSensors →
          (∀ row, row ∈ f.collectedTactileData → row.getD i 0 = c) → c - c = 0 →
          g.biasTactileSensor.getD i 0 = c → g.stdTactileSensor.getD i 0 = 0)
      ∧ (¬ s.m_tactileWorkingThreshold < 0 →
          (∀ i, i < f.noTactileSensors →
            ∃ c, (∀ row, row ∈ f.collectedTactileData → row.getD i 0 = c) ∧ c - c = 0
              ∧ g.biasTactileSensor.getD i 0 = c) →
          (computeCalibrationParamters sqrt s).2.m_areTactileSensorsWorking.getD k false
            = false)
      ∧ ((computeCalibrationParamters sqrt s).2.m_areTactileSensorsWorking.getD k false = true
          ↔ ∃ i, i < f.noTactileSensors
              ∧ g.stdTactileSensor.getD i 0 > s.m_tactileWorkingThreshold) := by
  have hloop := calibrationLoop_fingers sqrt s.m_tactileWorkingThreshold s.m_noFingers
    s.m_fingersTactileData 0 s.m_areTactileSensorsWorking (by rw [hlen]; omega)
  have hwork := (calibrationLoop_working sqrt s.m_tactileWorkingThreshold s.m_noFingers
    s.m_fingersTactileData 0 s.m_areTactileSensorsWorking (by rw [hlen]; omega)
    (by rw [hlen, hw]; omega)).2.2 k f hf
  rw [Nat.zero_add] at hwork
  have inv := calibrateFinger_inv sqrt s.m_tactileWorkingThreshold f hs
  have hzero : ∀ i c, i < f.noTactileSensors →
      (∀ row, row ∈ f.collectedTactileData → row.getD i 0 = c) → c - c = 0 →
      (calibrateFinger sqrt s.m_tactileWorkingThreshold f).1.biasTactileSensor.getD i 0 = c →
      (calibrateFinger sqrt s.m_tactileWorkingThreshold f).1.stdTactileSensor.getD i 0
        = 0 := by
    intro i c hi hc hsub hb
    rw [inv.bias i hi] at hb
    rw [inv.std i hi]
    refine eigenStd_const sqrt hsqrt hmul hadd _ c ?_ ?_ hb hsub
    · unfold eigenCol; rw [List.length_map]; exact hdiv
    · intro v hv
      unfold eigenCol at hv
      obtain ⟨row, hrow, rfl⟩ := List.mem_map.mp hv
      exact hc row hrow
  have hiff : (computeCalibrationParamters sqrt s).2.m_areTactileSensorsWorking.getD k false
      = true ↔ ∃ i, i < f.noTactileSensors
        ∧ (calibrateFinger sqrt s.m_tactileWorkingThreshold f).1.stdTactileSensor.getD i 0
            > s.m_tactileWorkingThreshold := by
    show (calibrationLoop sqrt s.m_tactileWorkingThreshold s.m_noFingers
      s.m_fingersTactileData 0 s.m_areTactileSensorsWorking).2.2.getD k false = true ↔ _
    rw [hwork, inv.work]
    constructor
    · rintro ⟨i, hi, hgt⟩; exact ⟨i, hi, by rw [inv.std i hi]; exact hgt⟩
    · rintro ⟨i, hi, hgt⟩; exact ⟨i, hi, by rw [inv.std i hi] at hgt; exact hgt⟩
  refine ⟨(calibrateFinger sqrt s.m_tactileWorkingThreshold f).1, ?_,
    fun i hi => ⟨inv.bias i hi, inv.std i hi⟩, hzero, ?_, hiff⟩
  · show (calibrationLoop sqrt s.m_tactileWorkingThreshold s.m_noFingers
      s.m_fingersTactileData 0 s.m_areTactileSensorsWorking).2.1[k]? = _
    rw [hloop.2]
    simp [List.getElem?_map, hf]
  · intro hthr hall
    rw [← Bool.not_eq_true, hiff]
    rintro ⟨i, hi, hgt⟩
    obtain ⟨c, hc, hsub, hb⟩ := hall i hi
    rw [hzero i c hi hc hsub hb] at hgt
    exact hthr hgt

/-- C11 (as amended). After `computeCalibrationParamters` in `double` arithmetic
(correctly rounded `std::sqrt`), for every finger `f` (position `k`) with a
non-empty matrix of collected samples: the bias and the std of every sensor are
the mean and the population standard deviation of its column; a sensor whose
column is a constant finite value `c`, and whose computed bias is again `c`,
has std exactly 0; with a working threshold that is not negative, if every
column of the finger is such then `m_areTactileSensorsWorking[k]` is false;
and in general `m_areTactileSensorsWorking[k]` is true exactly when at least
one sensor of the finger has a std strictly greater than the working
threshold. -/
theorem computeCalibrationParamters_constant_columns (s : RobotSkin Double) (k : Nat)
    (f : FingertipTactileData Double)
    (hlen : s.m_fingersTactileData.length = s.m_noFingers)
    (hw : s.m_areTactileSensorsWorking.length = s.m_noFingers)
    (hf : s.m_fingersTactileData[k]? = some f) (hs : f.Sized)
    (hN : f.collectedTactileData ≠ []) :
    ∃ g, (computeCalibrationParamters Double.sqrt s).2.m_fingersTactileData[k]? = some g
      ∧ (∀ i, i < f.noTactileSensors →
          g.biasTactileSensor.getD i 0 = eigenMean (eigenCol f.collectedTactileData i)
          ∧ g.stdTactileSensor.getD i 0
            = eigenStd Double.sqrt (eigenCol f.collectedTactileData i))
      ∧ (∀ i c, i < f.noTactileSensors →
          (∀ row, row ∈ f.collectedTactileData → row.getD i 0 = Double.fin c) →
          g.biasTactileSensor.getD i 0 = Double.fin c → g.stdTactileSensor.getD i 0 = 0)
      ∧ (¬ s.m_tactileWorkingThreshold < 0 →
          (∀ i, i < f.noTactileSensors →
            ∃ c, (∀ row, row ∈ f.collectedTactileData → row.getD i 0 = Double.fin c)
              ∧ g.biasTactileSensor.getD i 0 = Double.fin c) →
          (computeCalibrationParamters Double.sqrt s).2.m_areTactileSensorsWorking.getD k false
            = false)
      ∧ ((computeCalibrationParamters Double.sqrt s).2.m_areTactileSensorsWorking.getD k false
            = true
          ↔ ∃ i, i < f.noTactileSensors
              ∧ g.stdTactileSensor.getD i 0 > s.m_tactileWorkingThreshold) := by
  obtain ⟨g, hg, hpin, hconst, hnon, hiff⟩ := computeCalibrationParamters_constant_of_arith
    Double.sqrt (by decide!) (by decide!) (by decide!) s k f hlen hw hf hs hN
    (Double.zero_div_natCast _ (fun h => hN (List.length_eq_zero.mp h)))
  refine ⟨g, hg, hpin, ?_, ?_, hiff⟩
  · intro i c hi hc hb
    exact hconst i (Double.fin c) hi hc (Double.fin_sub_self c) hb
  · intro hthr hall
    refine hnon hthr (fun i hi => ?_)
    obtain ⟨c, hc, hb⟩ := hall i hi
    exact ⟨Double.fin c, hc, Double.fin_sub_self c, hb⟩

/-- C11, witness: two samples of the `double` nearest to 0.1, working threshold 0.
The computed bias is the constant, the std is 0 and the finger is marked
non-working. -/
theorem computeCalibrationParamters_constant_columns_witness :
    ∃ g, (computeCalibrationParamters Double.sqrt
          (doubleSkin (doubleFinger (constantSamples 2)) 1 0)).2.m_fingersTactileData[0]?
        = some g
      ∧ g.biasTactileSensor.getD 0 0 = oneTenth
      ∧ g.stdTactileSensor.getD 0 0 = 0
      ∧ (computeCalibrationParamters Double.sqrt
          (doubleSkin (doubleFinger (constantSamples 2)) 1 0)).2.m_areTactileSensorsWorking.getD
            0 false = false := by
  obtain ⟨g, hg, _, hconst, hnon, _⟩ := computeCalibrationParamters_constant_columns
    (doubleSkin (doubleFinger (constantSamples 2)) 1 0) 0
    (doubleFinger (constantSamples 2)) rfl rfl rfl ⟨rfl, rfl, rfl, rfl, rfl, rfl, rfl, rfl, rfl⟩
    (by decide!)
  have hb : g.biasTactileSensor.getD 0 0 = oneTenth := by
    have h : ((computeCalibrationParamters Double.sqrt
        (doubleSkin (doubleFinger (constantSamples 2)) 1 0)).2.m_fingersTactileData[0]?).map
          (fun g => g.biasTactileSensor.getD 0 0) = some oneTenth := by decide!
    rw [hg] at h
    exact Option.some.inj h
  have hrows : ∀ row, row ∈ (doubleFinger (constantSamples 2)).collectedTactileData →
      row.getD 0 0 = oneTenth := by decide!
  refine ⟨g, hg, hb, hconst 0 _ (by decide) hrows hb, hnon (by decide!) ?_⟩
  intro i hi
  have hi0 : i = 0 := Nat.lt_one_iff.mp hi
  subst hi0
  exact ⟨_, hrows, hb⟩

/-- C11, counterexample: three samples of the `double` nearest to 0.1, in `double`
arithmetic with the correctly rounded `std::sqrt` and the working threshold 0.
The column is constant, yet the computed mean is `0.1 + 2^-56` (the sum of three
equal values, the same in whatever order it is taken, rounds up), the std is
`2^-56`, not 0, and the finger is marked working. -/
theorem computeCalibrationParamters_rounded_mean_of_constant_column :
    (∀ row, row ∈ (doubleFinger (constantSamples 3)).collectedTactileData →
      row.getD 0 0 = oneTenth)
    ∧ ¬ (doubleSkin (doubleFinger (constantSamples 3)) 1 0).m_tactileWorkingThreshold < 0
    ∧ (computeCalibrationParamters Double.sqrt
        (doubleSkin (doubleFinger (constantSamples 3)) 1 0)).2.m_fingersTactileData.map
          (fun g => (g.biasTactileSensor, g.stdTactileSensor))
        = [([Double.fin (3602879701896397 / 36028797018963968 + 1 / 2 ^ 56)],
            [Double.fin (1 / 2 ^ 56)])]
    ∧ (computeCalibrationParamters Double.sqrt
        (doubleSkin (doubleFinger (constantSamples 3)) 1 0)).2.m_areTactileSensorsWorking
        = [true] := by
  refine ⟨by decide!, by decide!, by decide!, by decide!⟩

/-- C3 (code bug). `configure` accepts the response coefficients `(0 1 1 0 100 1)`
and leaves the contact strength at 0.  On such a skin, whatever the rounding of
the finite values of `std::log` and `std::pow`, `computeVibrotactileFeedback`
computes `0 * log(1 * pow(0, 1) + 0) + 100 * pow(0, 1) = 0 * (-∞) + 0 = NaN`,
the saturation `std::max(std::min(NaN, 100.0), 0.0)` returns the NaN, and the
absolute and the total feedback are NaN, outside `[0, 100]`, while the
derivative feedback is 0; the saturation brings every value other than NaN
into `[0, 100]`. -/
theorem computeVibrotactileFeedback_nan_passes_saturation (logFin : ℚ → ℚ)
    (powFin : ℚ → ℚ → ℚ) :
    (configure zeroLogConfig).map (fun s => (s.m_fbParams, s.m_fingersContactStrength))
      = some ([0, 1, 1, 0, 100, 1], [0])
    ∧ (computeVibrotactileFeedback (Double.log logFin) (Double.pow powFin) Double.abs
        (doubleSkin (doubleFinger []) 1 0)).m_fingersVibrotactileAbsoluteFeedback
        = [Double.nan]
    ∧ (computeVibrotactileFeedback (Double.log logFin) (Double.pow powFin) Double.abs
        (doubleSkin (doubleFinger []) 1 0)).m_fingersVibrotactileDerivativeFeedback
        = [Double.fin 0]
    ∧ (computeVibrotactileFeedback (Double.log logFin) (Double.pow powFin) Double.abs
        (doubleSkin (doubleFinger []) 1 0)).m_fingersVibrotactileTotalFeedback
        = [Double.nan]
    ∧ ∀ y : Double, y ≠ Double.nan →
        ∃ z, stdMax (stdMin y 100) 0 = Double.fin z ∧ 0 ≤ z ∧ z ≤ 100 := by
  refine ⟨?_, ?_, ?_, ?_, fun y hy => ?_⟩
  · simp [configure, configureFingers, configureFinger, zeroLogConfig, configOf, stdRound_one,
      stdRound_zero]
  · norm_num [computeVibrotactileFeedback, computeVibrotactileFeedbackStep, doubleSkin,
      doubleFinger, stdMax, stdMin, Double.log, Double.pow, Double.abs, round53_zero,
      List.range_succ, Double.zero_eq, Double.one_eq, Double.hundred_eq, Double.mul_eq,
      Double.add_eq, Double.sub_eq, Double.lt_iff, Double.mul, Double.add, Double.neg,
      Double.blt, Double.signedInf]
  · norm_num [computeVibrotactileFeedback, computeVibrotactileFeedbackStep, doubleSkin,
      doubleFinger, stdMax, stdMin, Double.log, Double.pow, Double.abs, round53_zero,
      List.range_succ, Double.zero_eq, Double.one_eq, Double.hundred_eq, Double.mul_eq,
      Double.add_eq, Double.sub_eq, Double.lt_iff, Double.mul, Double.add, Double.neg,
      Double.blt, Double.signedInf]
  · norm_num [computeVibrotactileFeedback, computeVibrotactileFeedbackStep, doubleSkin,
      doubleFinger, stdMax, stdMin, Double.log, Double.pow, Double.abs, round53_zero,
      List.range_succ, Double.zero_eq, Double.one_eq, Double.hundred_eq, Double.mul_eq,
      Double.add_eq, Double.sub_eq, Double.lt_iff, Double.mul, Double.add, Double.neg,
      Double.blt, Double.signedInf]
  · obtain ⟨z, hz, h0, h100, _⟩ := (Double.saturation y).2 hy
    exact ⟨z, hz, h0, h100⟩

end HapticGlove

/-! ## Theorems: gaze retargeting -/

namespace GazeRetargeting

variable {α : Type} [LinearOrderedField α]

open Cxx

/-- C4. `applyDeadzone` is the step function of the spec: for every state, input,
time and square-root function, the returned vector and the state after the call
are those of `deadzoneStep`. -/
theorem applyDeadzone_eq_deadzoneStep (sqrt : α → α) (now : α) (st : DeadzoneState α)
    (input : α × α) : applyDeadzone sqrt now st input = deadzoneStep sqrt now st input := by
  unfold applyDeadzone deadzoneStep
  simp only [pow_two]
  cases hact : st.m_deadzoneActive
  · by_cases h1 : sqrt (input.1 * input.1 + input.2 * input.2) > st.m_errorDeadzone
    · simp [h1]
    · simp [h1]
  · by_cases h1 : sqrt (input.1 * input.1 + input.2 * input.2) > st.m_errorDeadzoneActivation
    · by_cases h2 : st.m_deadzoneMinActivationTimeInS ≤ 0
      · simp [h1, h2]
      · by_cases h3 : st.m_deadzoneActivationTime ≥ 0
        · by_cases h4 : now - st.m_deadzoneActivationTime ≥ st.m_deadzoneMinActivationTimeInS
          · simp [h1, h2, h3, h4]
          · simp [h1, h2, h3, h4]
        · simp [h1, h2, h3]
    · simp [h1]

theorem tanh_mono {a b : ℝ} (h : a ≤ b) : Real.tanh a ≤ Real.tanh b := by
  rw [Real.tanh_eq_sinh_div_cosh, Real.tanh_eq_sinh_div_cosh,
    div_le_div_iff₀ (Real.cosh_pos a) (Real.cosh_pos b)]
  have hs : Real.sinh (a - b) ≤ 0 := Real.sinh_nonpos_iff.mpr (by linarith)
  rw [Real.sinh_sub] at hs
  linarith

theorem tanh_le_one (a : ℝ) : Real.tanh a ≤ 1 := by
  rw [Real.tanh_eq_sinh_div_cosh, div_le_one (Real.cosh_pos a)]
  exact (Real.sinh_lt_cosh a).le

theorem tanh_nonneg {a : ℝ} (h : 0 ≤ a) : 0 ≤ Real.tanh a := by
  have := tanh_mono h
  rwa [Real.tanh_zero] at this

theorem saturate_eq (k v pos vmax lower upper : ℝ) :
    saturateRobotEyeVelocity Real.tanh k v pos vmax lower upper
      = max (Real.tanh (k * (pos - lower)) * (-vmax))
          (min v (Real.tanh (k * (upper - pos)) * vmax)) := by
  unfold saturateRobotEyeVelocity
  rw [stdMax_eq_max, stdMin_eq_min]

/-- C5. `saturateRobotEyeVelocity` clamps into the soft envelope: for every input
velocity `v` and position `pos`, with gain `k > 0`, `vmax ≥ 0` and
`lower ≤ upper`, the lower limit `tanh(k(pos - lower))·(-vmax)` is at most the
upper limit `tanh(k(upper - pos))·vmax`, the result lies between the two, the
result is `v` when `v` already lies between them, and `|result| ≤ vmax` when
`lower ≤ pos ≤ upper`. -/
theorem saturateRobotEyeVelocity_envelope (k v pos vmax lower upper : ℝ) (hk : 0 < k)
    (hvmax : 0 ≤ vmax) (hb : lower ≤ upper) :
    Real.tanh (k * (pos - lower)) * (-vmax) ≤ Real.tanh (k * (upper - pos)) * vmax
    ∧ Real.tanh (k * (pos - lower)) * (-vmax)
        ≤ saturateRobotEyeVelocity Real.tanh k v pos vmax lower upper
    ∧ saturateRobotEyeVelocity Real.tanh k v pos vmax lower upper
        ≤ Real.tanh (k * (upper - pos)) * vmax
    ∧ (Real.tanh (k * (pos - lower)) * (-vmax) ≤ v →
        v ≤ Real.tanh (k * (upper - pos)) * vmax →
        saturateRobotEyeVelocity Real.tanh k v pos vmax lower upper = v)
    ∧ (lower ≤ pos → pos ≤ upper →
        |saturateRobotEyeVelocity Real.tanh k v pos vmax lower upper| ≤ vmax) := by
  have hr := saturate_eq k v pos vmax lower upper
  have hlohi : Real.tanh (k * (pos - lower)) * (-vmax)
      ≤ Real.tanh (k * (upper - pos)) * vmax := by
    have h1 : Real.tanh (k * (pos - lower)) * (-vmax)
        = Real.tanh (k * (lower - pos)) * vmax := by
      rw [show k * (lower - pos) = -(k * (pos - lower)) by ring, Real.tanh_neg]
      ring
    rw [h1]
    exact mul_le_mul_of_nonneg_right
      (tanh_mono (mul_le_mul_of_nonneg_left (by linarith) hk.le)) hvmax
  have hlo : Real.tanh (k * (pos - lower)) * (-vmax)
      ≤ saturateRobotEyeVelocity Real.tanh k v pos vmax lower upper := by
    rw [hr]; exact le_max_left _ _
  have hhi : saturateRobotEyeVelocity Real.tanh k v pos vmax lower upper
      ≤ Real.tanh (k * (upper - pos)) * vmax := by
    rw [hr]; exact max_le hlohi (min_le_right _ _)
  refine ⟨hlohi, hlo, hhi, ?_, ?_⟩
  · intro h1 h2
    rw [hr, min_eq_left h2, max_eq_right h1]
  · intro _ _
    have hlo2 : -vmax ≤ Real.tanh (k * (pos - lower)) * (-vmax) := by
      have := mul_le_mul_of_nonneg_right (tanh_le_one (k * (pos - lower))) hvmax
      linarith
    have hhi2 : Real.tanh (k * (upper - pos)) * vmax ≤ vmax := by
      have := mul_le_mul_of_nonneg_right (tanh_le_one (k * (upper - pos))) hvmax
      linarith
    rw [abs_le]
    exact ⟨le_trans hlo2 hlo, le_trans hhi hhi2⟩

/-- C5, witness: gain 10, `vmax = 20`, limits `[-25, 25]`, position 0. -/
theorem saturateRobotEyeVelocity_envelope_witness :
    Real.tanh (10 * (0 - (-25))) * (-20) ≤ Real.tanh (10 * (25 - 0)) * 20
    ∧ Real.tanh (10 * (0 - (-25))) * (-20)
        ≤ saturateRobotEyeVelocity Real.tanh 10 30 0 20 (-25) 25
    ∧ saturateRobotEyeVelocity Real.tanh 10 30 0 20 (-25) 25
        ≤ Real.tanh (10 * (25 - 0)) * 20
    ∧ (Real.tanh (10 * (0 - (-25))) * (-20) ≤ 30 →
        30 ≤ Real.tanh (10 * (25 - 0)) * 20 →
        saturateRobotEyeVelocity Real.tanh 10 30 0 20 (-25) 25 = 30)
    ∧ ((-25 : ℝ) ≤ 0 → (0 : ℝ) ≤ 25 →
        |saturateRobotEyeVelocity Real.tanh 10 30 0 20 (-25) 25| ≤ 20) :=
  saturateRobotEyeVelocity_envelope 10 30 0 20 (-25) 25 (by norm_num) (by norm_num)
    (by norm_num)

/-- C6. At the joint bounds: when the position is `lower` the lower velocity limit
is exactly 0 and the returned velocity is `≥ 0` for every input velocity; when
the position is `upper`, with `k ≥ 0`, `vmax ≥ 0` and `lower ≤ upper`, the upper
limit is 0 and the returned velocity is `≤ 0` for every input velocity. -/
theorem saturateRobotEyeVelocity_at_bounds (k v vmax lower upper : ℝ) :
    (Real.tanh (k * (lower - lower)) * (-vmax) = 0
      ∧ 0 ≤ saturateRobotEyeVelocity Real.tanh k v lower vmax lower upper)
    ∧ (0 ≤ k → 0 ≤ vmax → lower ≤ upper →
        Real.tanh (k * (upper - upper)) * vmax = 0
        ∧ saturateRobotEyeVelocity Real.tanh k v upper vmax lower upper ≤ 0) := by
  have h0 : ∀ x : ℝ, Real.tanh (k * (x - x)) = 0 := by
    intro x; rw [sub_self, mul_zero, Real.tanh_zero]
  refine ⟨⟨by rw [h0, zero_mul], ?_⟩, ?_⟩
  · rw [saturate_eq, h0, zero_mul]
    exact le_max_left _ _
  · intro hk hvmax hb
    refine ⟨by rw [h0, zero_mul], ?_⟩
    rw [saturate_eq, h0, zero_mul]
    apply max_le
    · have := tanh_nonneg (mul_nonneg hk (sub_nonneg.mpr hb))
      nlinarith
    · exact min_le_right _ _

/-- C6, witness: gain 10, `vmax = 20`, limits `[0, 10]`, input velocity 7 at the
upper bound and at the lower bound. -/
theorem saturateRobotEyeVelocity_at_bounds_witness :
    0 ≤ saturateRobotEyeVelocity Real.tanh 10 (-7) 0 20 0 10
    ∧ saturateRobotEyeVelocity Real.tanh 10 7 10 20 0 10 ≤ 0 :=
  ⟨(saturateRobotEyeVelocity_at_bounds 10 (-7) 20 0 10).1.2,
    ((saturateRobotEyeVelocity_at_bounds 10 7 20 0 10).2 (by norm_num) (by norm_num)
      (by norm_num)).2⟩
/-- C16 (as amended). Inside the inner radius: for every prior state (active or not,
any latched time) and every input whose norm is below the inner radius, with
outer radius ≥ inner radius, `applyDeadzone` returns the zero vector and leaves
the filter with `m_deadzoneActive = true` (the deadzone is engaged) and the
activation time reset to `-1`. -/
theorem applyDeadzone_inside_inner_radius (sqrt : α → α) (now : α) (st : DeadzoneState α)
    (input : α × α) (hr : st.m_errorDeadzone ≤ st.m_errorDeadzoneActivation)
    (hn : norm2 sqrt input < st.m_errorDeadzone) :
    (applyDeadzone sqrt now st input).1 = (0, 0)
    ∧ (applyDeadzone sqrt now st input).2.m_deadzoneActive = true
    ∧ (applyDeadzone sqrt now st input).2.m_deadzoneActivationTime = -1 := by
  unfold norm2 at hn
  have h1 : ¬ sqrt (input.1 * input.1 + input.2 * input.2) > st.m_errorDeadzone :=
    not_lt.mpr hn.le
  have h2 : ¬ sqrt (input.1 * input.1 + input.2 * input.2) > st.m_errorDeadzoneActivation :=
    not_lt.mpr (le_trans hn.le hr)
  unfold applyDeadzone
  simp [h1, h2]

theorem norm2_zero_real : norm2 Real.sqrt ((0 : ℝ), (0 : ℝ)) = 0 := by
  simp [norm2]

/-- C16, witness: the zero input on `restingDeadzone` (inner radius 0.02), with the
real square root. -/
theorem applyDeadzone_inside_inner_radius_witness :
    (applyDeadzone Real.sqrt 0 (restingDeadzone ℝ) (0, 0)).1 = (0, 0)
    ∧ (applyDeadzone Real.sqrt 0 (restingDeadzone ℝ) (0, 0)).2.m_deadzoneActive = true
    ∧ (applyDeadzone Real.sqrt 0 (restingDeadzone ℝ) (0, 0)).2.m_deadzoneActivationTime
        = -1 :=
  applyDeadzone_inside_inner_radius Real.sqrt 0 (restingDeadzone ℝ) (0, 0)
    (by norm_num [restingDeadzone])
    (by rw [norm2_zero_real]; norm_num [restingDeadzone])

/-- C16, counterexample: the zero input has norm 0, below the inner radius 0.02 of
`restingDeadzone` (outer radius 0.12); the call returns the zero vector and
leaves `m_deadzoneActive = true`, not false. -/
theorem applyDeadzone_inner_radius_sets_active :
    norm2 Real.sqrt ((0 : ℝ), (0 : ℝ)) < (restingDeadzone ℝ).m_errorDeadzone
    ∧ (restingDeadzone ℝ).m_errorDeadzone ≤ (restingDeadzone ℝ).m_errorDeadzoneActivation
    ∧ (applyDeadzone Real.sqrt 0 (restingDeadzone ℝ) (0, 0)).2.m_deadzoneActive ≠ false := by
  refine ⟨by rw [norm2_zero_real]; norm_num [restingDeadzone],
    by norm_num [restingDeadzone], ?_⟩
  simp [applyDeadzone, restingDeadzone]
  norm_num

theorem applyDeadzone_latch (sqrt : α → α) (st : DeadzoneState α) (t0 : α) (v : α × α)
    (hdw : 0 < st.m_deadzoneMinActivationTimeInS) (hact : st.m_deadzoneActive = true)
    (hnol : st.m_deadzoneActivationTime < 0)
    (hv : norm2 sqrt v > st.m_errorDeadzoneActivation) :
    applyDeadzone sqrt t0 st v = ((0, 0), latchedAt st t0) := by
  unfold norm2 at hv
  have h1 : ¬ st.m_deadzoneMinActivationTimeInS ≤ 0 := not_le.mpr hdw
  have h2 : ¬ st.m_deadzoneActivationTime ≥ 0 := not_le.mpr hnol
  unfold applyDeadzone latchedAt
  simp [hact, hv, h1, h2]

theorem applyDeadzone_hold (sqrt : α → α) (st : DeadzoneState α) (t0 t : α) (v : α × α)
    (hdw : 0 < st.m_deadzoneMinActivationTimeInS) (ht0 : 0 ≤ t0)
    (ht : t < t0 + st.m_deadzoneMinActivationTimeInS)
    (hv : norm2 sqrt v > st.m_errorDeadzoneActivation) :
    applyDeadzone sqrt t (latchedAt st t0) v = ((0, 0), latchedAt st t0) := by
  unfold norm2 at hv
  have h1 : ¬ st.m_deadzoneMinActivationTimeInS ≤ 0 := not_le.mpr hdw
  have h3 : ¬ t - t0 ≥ st.m_deadzoneMinActivationTimeInS := by
    rw [ge_iff_le, not_le]; linarith
  unfold applyDeadzone latchedAt
  simp [hv, h1, ht0, h3]

theorem applyDeadzoneCalls_hold (sqrt : α → α) (st : DeadzoneState α) (t0 : α)
    (hdw : 0 < st.m_deadzoneMinActivationTimeInS) (ht0 : 0 ≤ t0) :
    ∀ mid : List (α × (α × α)),
      (∀ c, c ∈ mid → c.1 < t0 + st.m_deadzoneMinActivationTimeInS
        ∧ norm2 sqrt c.2 > st.m_errorDeadzoneActivation) →
      applyDeadzoneCalls sqrt (latchedAt st t0) mid
        = (mid.map (fun _ => ((0 : α), (0 : α))), latchedAt st t0) := by
  intro mid
  induction mid with
  | nil => intro _; rfl
  | cons c rest ih =>
    intro h
    have hc := h c (List.mem_cons_self c rest)
    unfold applyDeadzoneCalls
    simp only [applyDeadzone_hold sqrt st t0 c.1 c.2 hdw ht0 hc.1 hc.2,
      ih (fun d hd => h d (List.mem_cons_of_mem c hd)), List.map_cons]

theorem applyDeadzone_release (st : DeadzoneState ℝ) (t0 t : ℝ) (v : ℝ × ℝ)
    (hin : 0 ≤ st.m_errorDeadzone) (hio : st.m_errorDeadzone ≤ st.m_errorDeadzoneActivation)
    (ht0 : 0 ≤ t0) (ht : t0 + st.m_deadzoneMinActivationTimeInS ≤ t)
    (hv : norm2 Real.sqrt v > st.m_errorDeadzoneActivation) :
    (applyDeadzone Real.sqrt t (latchedAt st t0) v).1
        = ((1 - st.m_errorDeadzone / norm2 Real.sqrt v) * v.1,
            (1 - st.m_errorDeadzone / norm2 Real.sqrt v) * v.2)
    ∧ (applyDeadzone Real.sqrt t (latchedAt st t0) v).1 ≠ (0, 0)
    ∧ (applyDeadzone Real.sqrt t (latchedAt st t0) v).2.m_deadzoneActive = false := by
  have hpos : 0 < norm2 Real.sqrt v := lt_of_le_of_lt (le_trans hin hio) hv
  have hlt : st.m_errorDeadzone < norm2 Real.sqrt v := lt_of_le_of_lt hio hv
  have hfac : 0 < 1 - st.m_errorDeadzone / norm2 Real.sqrt v := by
    rw [sub_pos, div_lt_one hpos]; exact hlt
  have h3 : t - t0 ≥ st.m_deadzoneMinActivationTimeInS := by linarith
  have hout : applyDeadzone Real.sqrt t (latchedAt st t0) v
      = (((1 - st.m_errorDeadzone / norm2 Real.sqrt v) * v.1,
          (1 - st.m_errorDeadzone / norm2 Real.sqrt v) * v.2),
        { st with m_deadzoneActive := false, m_deadzoneActivationTime := -1 }) := by
    unfold norm2 at hv ⊢
    unfold applyDeadzone latchedAt
    simp [hv, ht0, h3]
  rw [hout]
  refine ⟨rfl, ?_, rfl⟩
  intro h0
  have hx : v.1 = 0 := by
    have := congrArg Prod.fst h0
    simpa [hfac.ne'] using this
  have hy : v.2 = 0 := by
    have := congrArg Prod.snd h0
    simpa [hfac.ne'] using this
  unfold norm2 at hpos
  rw [hx, hy] at hpos
  simp at hpos

/-- C17. Release after the dwell time, with `0 ≤ inner ≤ outer`, `minDwell > 0` and
clock readings `≥ 0`.  From an active state with no latched time, a call at time
`t0` with input norm above the outer radius returns zero and latches the
activation time `t0`; any further calls with norm above the outer radius at
times before `t0 + minDwell` all return zero and leave the latch at `t0`; and
the next call at a time `t ≥ t0 + minDwell` with norm `n` above the outer radius
returns the non-zero vector `(1 - inner / n) · input` and clears the active
flag. -/
theorem applyDeadzone_release_after_dwell (st : DeadzoneState ℝ) (t0 t : ℝ) (v0 v : ℝ × ℝ)
    (mid : List (ℝ × (ℝ × ℝ))) (hin : 0 ≤ st.m_errorDeadzone)
    (hio : st.m_errorDeadzone ≤ st.m_errorDeadzoneActivation)
    (hdw : 0 < st.m_deadzoneMinActivationTimeInS) (hact : st.m_deadzoneActive = true)
    (hnol : st.m_deadzoneActivationTime < 0) (ht0 : 0 ≤ t0)
    (hv0 : norm2 Real.sqrt v0 > st.m_errorDeadzoneActivation)
    (hmid : ∀ c, c ∈ mid → c.1 < t0 + st.m_deadzoneMinActivationTimeInS
      ∧ norm2 Real.sqrt c.2 > st.m_errorDeadzoneActivation)
    (ht : t0 + st.m_deadzoneMinActivationTimeInS ≤ t)
    (hv : norm2 Real.sqrt v > st.m_errorDeadzoneActivation) :
    applyDeadzone Real.sqrt t0 st v0 = ((0, 0), latchedAt st t0)
    ∧ applyDeadzoneCalls Real.sqrt (latchedAt st t0) mid
        = (mid.map (fun _ => ((0 : ℝ), (0 : ℝ))), latchedAt st t0)
    ∧ (applyDeadzone Real.sqrt t (latchedAt st t0) v).1
        = ((1 - st.m_errorDeadzone / norm2 Real.sqrt v) * v.1,
            (1 - st.m_errorDeadzone / norm2 Real.sqrt v) * v.2)
    ∧ (applyDeadzone Real.sqrt t (latchedAt st t0) v).1 ≠ (0, 0)
    ∧ (applyDeadzone Real.sqrt t (latchedAt st t0) v).2.m_deadzoneActive = false :=
  ⟨applyDeadzone_latch Real.sqrt st t0 v0 hdw hact hnol hv0,
    applyDeadzoneCalls_hold Real.sqrt st t0 hdw ht0 mid hmid,
    applyDeadzone_release st t0 t v hin hio ht0 ht hv⟩

theorem norm2_one_zero_real : norm2 Real.sqrt ((1 : ℝ), (0 : ℝ)) = 1 := by
  simp [norm2]

/-- C17, witness: on `engagedDeadzone` (radii 0.02 and 0.12, dwell 0.5 s) the input
`(1, 0)` of norm 1 at time 10 latches, the calls at times 10.1 and 10.4 hold,
and the call at time 10.5 releases with output `((1 - 0.02 / 1) · 1, 0)`. -/
theorem applyDeadzone_release_after_dwell_witness :
    applyDeadzone Real.sqrt 10 (engagedDeadzone ℝ) (1, 0)
        = ((0, 0), latchedAt (engagedDeadzone ℝ) 10)
    ∧ applyDeadzoneCalls Real.sqrt (latchedAt (engagedDeadzone ℝ) 10)
          [(101 / 10, (1, 0)), (104 / 10, (1, 0))]
        = ([(0, 0), (0, 0)], latchedAt (engagedDeadzone ℝ) 10)
    ∧ (applyDeadzone Real.sqrt (105 / 10) (latchedAt (engagedDeadzone ℝ) 10) (1, 0)).1
        = ((1 - (engagedDeadzone ℝ).m_errorDeadzone / norm2 Real.sqrt (1, 0)) * 1,
            (1 - (engagedDeadzone ℝ).m_errorDeadzone / norm2 Real.sqrt (1, 0)) * 0)
    ∧ (applyDeadzone Real.sqrt (105 / 10) (latchedAt (engagedDeadzone ℝ) 10) (1, 0)).1
        ≠ (0, 0)
    ∧ (applyDeadzone Real.sqrt (105 / 10)
        (latchedAt (engagedDeadzone ℝ) 10) (1, 0)).2.m_deadzoneActive = false := by
  have hbig : norm2 Real.sqrt ((1 : ℝ), (0 : ℝ))
      > (engagedDeadzone ℝ).m_errorDeadzoneActivation := by
    rw [norm2_one_zero_real]; norm_num [engagedDeadzone, restingDeadzone]
  exact applyDeadzone_release_after_dwell (engagedDeadzone ℝ) 10 (105 / 10) (1, 0) (1, 0)
    [(101 / 10, (1, 0)), (104 / 10, (1, 0))]
    (by norm_num [engagedDeadzone, restingDeadzone])
    (by norm_num [engagedDeadzone, restingDeadzone])
    (by norm_num [engagedDeadzone, restingDeadzone]) rfl
    (by norm_num [engagedDeadzone, restingDeadzone]) (by norm_num) hbig
    (by
      intro c hc
      simp only [List.mem_cons, List.mem_singleton, List.not_mem_nil, or_false] at hc
      rcases hc with h | h <;> subst h <;>
        exact ⟨by norm_num [engagedDeadzone, restingDeadzone], hbig⟩)
    (by norm_num [engagedDeadzone, restingDeadzone]) hbig
theorem intCast32_idem (z : ℤ) : intCast32 (intCast32 z) = intCast32 z := by
  unfold intCast32
  omega

theorem intCast32_of_range (z : ℤ) (h1 : -2 ^ 31 ≤ z) (h2 : z < 2 ^ 31) : intCast32 z = z := by
  unfold intCast32
  omega

/-- C18. `applyQuantization` is idempotent: for every input `x` and every step
`> 0`, quantizing `applyQuantization x step` again returns it unchanged, where
`applyQuantization x step = level * step` with `level` the value of
`round(x / step)` (half away from zero) held in a 32-bit `int`. -/
theorem applyQuantization_idempotent [FloorRing α] (x step : α) (hstep : 0 < step) :
    applyQuantization (applyQuantization x step) step = applyQuantization x step := by
  unfold applyQuantization
  simp only
  rw [mul_div_assoc, div_self hstep.ne', mul_one, stdRound_intCast, intCast32_idem]

theorem applyQuantization_example : applyQuantization (77 / 100 : ℚ) (1 / 10) = 8 / 10 := by
  have h : stdRound ((77 / 100 : ℚ) / (1 / 10)) = 8 := by
    unfold stdRound
    rw [if_pos (by norm_num), Int.floor_eq_iff]
    constructor <;> norm_num
  unfold applyQuantization
  simp only [h]
  norm_num [intCast32]

/-- C18, witness: step `1/10`, input `0.77`: the level is 8, the quantized value
`8/10`, and quantizing it again gives `8/10`. -/
theorem applyQuantization_idempotent_witness :
    applyQuantization (applyQuantization (77 / 100 : ℚ) (1 / 10)) (1 / 10) = 8 / 10 := by
  rw [applyQuantization_idempotent (77 / 100) (1 / 10) (by norm_num)]
  exact applyQuantization_example

/-- C20. `EyeControl::intersectionInImage`, with `o` and `d` the origin and the
direction of the gaze ray in the image frame: the call returns false exactly
when `|d.z| < 1e-15`, and then its output is zero; otherwise it returns true
with the output `(o.x + a·d.x, o.y + a·d.y)` for `a = -o.z / d.z`, where `a` is the
unique ray parameter at which the z coordinate `o.z + a·d.z` is 0. -/
theorem intersectionInImage_spec (imageFrame : EyeControl α → Axis α → Axis α)
    (eye : EyeControl α) (gaze : Axis α) :
    ((intersectionInImage imageFrame eye gaze).1 = false
      ↔ |(imageFrame eye gaze).direction.2.2| < 1 / 10 ^ 15)
    ∧ (|(imageFrame eye gaze).direction.2.2| < 1 / 10 ^ 15 →
        intersectionInImage imageFrame eye gaze = (false, (0, 0)))
    ∧ (¬ |(imageFrame eye gaze).direction.2.2| < 1 / 10 ^ 15 →
        intersectionInImage imageFrame eye gaze
          = (true,
              ((imageFrame eye gaze).origin.1
                + -(imageFrame eye gaze).origin.2.2 / (imageFrame eye gaze).direction.2.2
                  * (imageFrame eye gaze).direction.1,
              (imageFrame eye gaze).origin.2.1
                + -(imageFrame eye gaze).origin.2.2 / (imageFrame eye gaze).direction.2.2
                  * (imageFrame eye gaze).direction.2.1))
        ∧ (imageFrame eye gaze).origin.2.2
            + -(imageFrame eye gaze).origin.2.2 / (imageFrame eye gaze).direction.2.2
              * (imageFrame eye gaze).direction.2.2 = 0
        ∧ ∀ a, (imageFrame eye gaze).origin.2.2 + a * (imageFrame eye gaze).direction.2.2 = 0
            → a = -(imageFrame eye gaze).origin.2.2 / (imageFrame eye gaze).direction.2.2) := by
  refine ⟨?_, ?_, ?_⟩
  · unfold intersectionInImage
    by_cases h : |(imageFrame eye gaze).direction.2.2| < 1 / 10 ^ 15
    · simp only [h, if_true]
    · simp only [h, if_false]
      simp
  · intro h
    unfold intersectionInImage
    simp only [h, if_true]
  · intro h
    have hd : (imageFrame eye gaze).direction.2.2 ≠ 0 := by
      intro h0
      apply h
      rw [h0, abs_zero]
      positivity
    refine ⟨?_, ?_, ?_⟩
    · unfold intersectionInImage
      simp only [h, if_false]
    · field_simp
    · intro a ha
      field_simp
      linarith

/-- C20, witness: the ray from `(1, 2, 3)` along `(0, 0, -1)` meets the image plane
at `(1, 2)`. -/
theorem intersectionInImage_spec_witness :
    intersectionInImage (fun _ g => g) (unitEye ℚ) (straightGaze ℚ) = (true, (1, 2)) := by
  have h := (intersectionInImage_spec (fun _ g => g) (unitEye ℚ) (straightGaze ℚ)).2.2
    (by norm_num [straightGaze])
  rw [h.1]
  norm_num [straightGaze]

/-- C19. Version/vergence decoupling in `computeDesiredRobotEyeVelocities`: when
both intersections succeed, with `(xL, yL)` and `(xR, yR)` the left and right
image intersections after the deadzone, `dL` and `dR` the non-zero norms of the
image relative positions of the eyes and `g` the velocity gain, the call
returns true with vergence `g·xL/dL - g·xR/dR`, version
`(g·xL/dL + g·xR/dR) / 2` and tilt `(g·yL/dL + g·yR/dR) / 2`. -/
theorem computeDesiredRobotEyeVelocities_decoupling
    (imageFrame : EyeControl α → Axis α → Axis α) (sqrt : α → α) (nowL nowR : α)
    (vr : VRInterface α) (leftGaze rightGaze : Axis α)
    (hL : (intersectionInImage imageFrame vr.m_leftEye leftGaze).1 = true)
    (hR : (intersectionInImage imageFrame vr.m_rightEye rightGaze).1 = true)
    (_hdL : norm3 sqrt vr.m_leftEye.imageRelativePosition ≠ 0)
    (_hdR : norm3 sqrt vr.m_rightEye.imageRelativePosition ≠ 0) :
    (computeDesiredRobotEyeVelocities imageFrame sqrt nowL nowR vr leftGaze rightGaze).1
      = some
        (vr.m_velocityGain * (filteredLeft imageFrame sqrt nowL vr leftGaze).1
              / norm3 sqrt vr.m_leftEye.imageRelativePosition
            - vr.m_velocityGain
                * (filteredRight imageFrame sqrt nowL nowR vr leftGaze rightGaze).1
              / norm3 sqrt vr.m_rightEye.imageRelativePosition,
          (vr.m_velocityGain * (filteredLeft imageFrame sqrt nowL vr leftGaze).1
              / norm3 sqrt vr.m_leftEye.imageRelativePosition
            + vr.m_velocityGain
                * (filteredRight imageFrame sqrt nowL nowR vr leftGaze rightGaze).1
              / norm3 sqrt vr.m_rightEye.imageRelativePosition) / 2,
          (vr.m_velocityGain * (filteredLeft imageFrame sqrt nowL vr leftGaze).2
              / norm3 sqrt vr.m_leftEye.imageRelativePosition
            + vr.m_velocityGain
                * (filteredRight imageFrame sqrt nowL nowR vr leftGaze rightGaze).2
              / norm3 sqrt vr.m_rightEye.imageRelativePosition) / 2) := by
  unfold computeDesiredRobotEyeVelocities filteredLeft filteredRight
  simp only [hL, hR, Bool.not_true, Bool.or_self, Bool.false_eq_true, if_false]
  congr 1
  refine Prod.ext ?_ (Prod.ext ?_ ?_)
  · simp only; ring
  · simp only; ring
  · simp only; ring

theorem sideGaze_intersection :
    intersectionInImage (fun _ g => g) (unitEye ℝ) (sideGaze ℝ) = (true, (1, 0)) := by
  norm_num [intersectionInImage, sideGaze]

theorem unitEye_distance : norm3 Real.sqrt (unitEye ℝ).imageRelativePosition = 1 := by
  simp [norm3, unitEye]

/-- C19, witness: both eyes of `unitInterface` (image at distance 1, gain 2, inner
radius 0.02) look at the point `(1, 0)` of their image: both filtered
intersections are `(0.98, 0)`, so vergence is 0, version `1.96` and tilt 0. -/
theorem computeDesiredRobotEyeVelocities_decoupling_witness :
    (computeDesiredRobotEyeVelocities (fun _ g => g) Real.sqrt 0 0 (unitInterface ℝ)
        (sideGaze ℝ) (sideGaze ℝ)).1 = some (0, 196 / 100, 0) := by
  rw [computeDesiredRobotEyeVelocities_decoupling (fun _ g => g) Real.sqrt 0 0
    (unitInterface ℝ) (sideGaze ℝ) (sideGaze ℝ)
    (by rw [show (unitInterface ℝ).m_leftEye = unitEye ℝ from rfl, sideGaze_intersection])
    (by rw [show (unitInterface ℝ).m_rightEye = unitEye ℝ from rfl, sideGaze_intersection])
    (by rw [show (unitInterface ℝ).m_leftEye = unitEye ℝ from rfl, unitEye_distance]
        exact one_ne_zero)
    (by rw [show (unitInterface ℝ).m_rightEye = unitEye ℝ from rfl, unitEye_distance]
        exact one_ne_zero)]
  have hl : filteredLeft (fun _ g => g) Real.sqrt 0 (unitInterface ℝ) (sideGaze ℝ)
      = (98 / 100, 0) := by
    unfold filteredLeft
    rw [show (unitInterface ℝ).m_leftEye = unitEye ℝ from rfl, sideGaze_intersection]
    norm_num [applyDeadzone, unitInterface, restingDeadzone]
  have hr : filteredRight (fun _ g => g) Real.sqrt 0 0 (unitInterface ℝ) (sideGaze ℝ)
      (sideGaze ℝ) = (98 / 100, 0) := by
    unfold filteredRight
    rw [show (unitInterface ℝ).m_leftEye = unitEye ℝ from rfl,
      show (unitInterface ℝ).m_rightEye = unitEye ℝ from rfl, sideGaze_intersection]
    norm_num [applyDeadzone, unitInterface, restingDeadzone]
  rw [hl, hr, show (unitInterface ℝ).m_leftEye = unitEye ℝ from rfl,
    show (unitInterface ℝ).m_rightEye = unitEye ℝ from rfl, unitEye_distance]
  norm_num [unitInterface]
/-- C30. Deadzone state invariant: after every call of `applyDeadzone`, from any
prior state, for any input and any time `now ≥ 0`: the active flag is true
exactly when the call went through the suppressing branch, in which case the
returned vector is zero; an activation time `≥ 0` after the call implies that
the flag is true and that the norm of the input of this call exceeded the outer
radius; a false flag implies that the activation time is `-1`; and a call that
suppresses an input beyond the outer radius with the flag already true leaves
an activation time `≥ 0`. -/
theorem applyDeadzone_state_invariant (sqrt : α → α) (now : α) (st : DeadzoneState α)
    (input : α × α) (hnow : 0 ≤ now) :
    ((applyDeadzone sqrt now st input).2.m_deadzoneActive = true
        ↔ ¬ passesInput sqrt now st input)
    ∧ (¬ passesInput sqrt now st input → (applyDeadzone sqrt now st input).1 = (0, 0))
    ∧ (0 ≤ (applyDeadzone sqrt now st input).2.m_deadzoneActivationTime →
        (applyDeadzone sqrt now st input).2.m_deadzoneActive = true
        ∧ norm2 sqrt input > st.m_errorDeadzoneActivation)
    ∧ ((applyDeadzone sqrt now st input).2.m_deadzoneActive = false →
        (applyDeadzone sqrt now st input).2.m_deadzoneActivationTime = -1)
    ∧ (¬ passesInput sqrt now st input → st.m_deadzoneActive = true →
        norm2 sqrt input > st.m_errorDeadzoneActivation →
        0 ≤ (applyDeadzone sqrt now st input).2.m_deadzoneActivationTime) := by
  unfold applyDeadzone passesInput norm2
  cases hact : st.m_deadzoneActive
  · by_cases h1 : sqrt (input.1 * input.1 + input.2 * input.2) > st.m_errorDeadzone
    · simp [h1]
    · simp [h1]
  · by_cases h1 : sqrt (input.1 * input.1 + input.2 * input.2) > st.m_errorDeadzoneActivation
    · by_cases h2 : st.m_deadzoneMinActivationTimeInS ≤ 0
      · simp [h1, h2]
      · by_cases h3 : st.m_deadzoneActivationTime ≥ 0
        · by_cases h4 : now - st.m_deadzoneActivationTime ≥ st.m_deadzoneMinActivationTimeInS
          · simp [h1, h2, h3, h4]
          · simp [h1, h2, h3, h4]
        · simp [h1, h2, h3]
          exact hnow
    · simp [h1]

/-- C30, witness: the input `(1, 0)` at time 10 on `engagedDeadzone` (active, outer
radius 0.12, no time latched): the call suppresses, the flag stays true. -/
theorem applyDeadzone_state_invariant_witness :
    (applyDeadzone Real.sqrt 10 (engagedDeadzone ℝ) (1, 0)).2.m_deadzoneActive = true
      ↔ ¬ passesInput Real.sqrt 10 (engagedDeadzone ℝ) (1, 0) :=
  (applyDeadzone_state_invariant Real.sqrt 10 (engagedDeadzone ℝ) (1, 0) (by norm_num)).1

theorem applyDeadzone_state_congr (sqrt : α → α) (now : α) (st : DeadzoneState α)
    (u v : α × α)
    (h1 : norm2 sqrt u > st.m_errorDeadzone ↔ norm2 sqrt v > st.m_errorDeadzone)
    (h2 : norm2 sqrt u > st.m_errorDeadzoneActivation
      ↔ norm2 sqrt v > st.m_errorDeadzoneActivation) :
    (applyDeadzone sqrt now st u).2 = (applyDeadzone sqrt now st v).2 := by
  unfold norm2 at h1 h2
  have d1 : decide (sqrt (u.1 * u.1 + u.2 * u.2) > st.m_errorDeadzone)
      = decide (sqrt (v.1 * v.1 + v.2 * v.2) > st.m_errorDeadzone) := by
    rw [decide_eq_decide]; exact h1
  have d2 : decide (sqrt (u.1 * u.1 + u.2 * u.2) > st.m_errorDeadzoneActivation)
      = decide (sqrt (v.1 * v.1 + v.2 * v.2) > st.m_errorDeadzoneActivation) := by
    rw [decide_eq_decide]; exact h2
  unfold applyDeadzone
  simp only [d1, d2]
  split_ifs <;> rfl

theorem centreGaze_intersection :
    intersectionInImage (fun _ g => g) (unitEye ℝ) (centreGaze ℝ) = (true, (0, 0)) := by
  norm_num [intersectionInImage, centreGaze]

theorem upGaze_intersection :
    intersectionInImage (fun _ g => g) (unitEye ℝ) (upGaze ℝ) = (true, (0, 1)) := by
  norm_num [intersectionInImage, upGaze]

/-- C26, counterexample: two runs on `unitInterface` (deadzone not active, inner
radius 0.02, outer radius 0.12) with the same right gaze, meeting the image at
`(1, 0)`, and the same clock.  When the left gaze also meets its image at
`(1, 0)` the filtered right intersection is `(0.98, 0)`; when the left gaze
meets its image at the centre, the left call engages the shared deadzone and
the filtered right intersection is `(0, 0)`. -/
theorem filteredRight_depends_on_left_gaze :
    filteredRight (fun _ g => g) Real.sqrt 0 0 (unitInterface ℝ) (sideGaze ℝ) (sideGaze ℝ)
      = (98 / 100, 0)
    ∧ filteredRight (fun _ g => g) Real.sqrt 0 0 (unitInterface ℝ) (centreGaze ℝ) (sideGaze ℝ)
      = (0, 0) := by
  constructor
  · unfold filteredRight
    rw [show (unitInterface ℝ).m_leftEye = unitEye ℝ from rfl,
      show (unitInterface ℝ).m_rightEye = unitEye ℝ from rfl, sideGaze_intersection]
    norm_num [applyDeadzone, unitInterface, restingDeadzone]
  · unfold filteredRight
    rw [show (unitInterface ℝ).m_leftEye = unitEye ℝ from rfl,
      show (unitInterface ℝ).m_rightEye = unitEye ℝ from rfl, sideGaze_intersection,
      centreGaze_intersection]
    norm_num [applyDeadzone, unitInterface, restingDeadzone]

/-- C26 (as amended). The two image intersections share one deadzone state, the
right one being filtered in the state left by the call on the left one: two
runs that differ only in the left gaze give the same filtered right
intersection when the norms of the two left intersections are on the same side
of the inner radius and on the same side of the outer radius. -/
theorem filteredRight_shared_state (imageFrame : EyeControl α → Axis α → Axis α)
    (sqrt : α → α) (nowL nowR : α) (vr : VRInterface α) (leftGaze leftGaze2 rightGaze : Axis α)
    (h1 : norm2 sqrt (intersectionInImage imageFrame vr.m_leftEye leftGaze).2
        > vr.deadzone.m_errorDeadzone
      ↔ norm2 sqrt (intersectionInImage imageFrame vr.m_leftEye leftGaze2).2
        > vr.deadzone.m_errorDeadzone)
    (h2 : norm2 sqrt (intersectionInImage imageFrame vr.m_leftEye leftGaze).2
        > vr.deadzone.m_errorDeadzoneActivation
      ↔ norm2 sqrt (intersectionInImage imageFrame vr.m_leftEye leftGaze2).2
        > vr.deadzone.m_errorDeadzoneActivation) :
    filteredRight imageFrame sqrt nowL nowR vr leftGaze rightGaze
      = filteredRight imageFrame sqrt nowL nowR vr leftGaze2 rightGaze := by
  unfold filteredRight
  rw [applyDeadzone_state_congr sqrt nowL vr.deadzone _ _ h1 h2]

theorem norm2_zero_one_real : norm2 Real.sqrt ((0 : ℝ), (1 : ℝ)) = 1 := by
  simp [norm2]

/-- C26, witness: on `unitInterface` the left gazes `sideGaze` and `upGaze` meet
the image at `(1, 0)` and `(0, 1)`, both of norm 1, beyond both radii; the
filtered right intersection is the same in the two runs. -/
theorem filteredRight_shared_state_witness :
    filteredRight (fun _ g => g) Real.sqrt 0 0 (unitInterface ℝ) (sideGaze ℝ) (sideGaze ℝ)
      = filteredRight (fun _ g => g) Real.sqrt 0 0 (unitInterface ℝ) (upGaze ℝ) (sideGaze ℝ) :=
  filteredRight_shared_state (fun _ g => g) Real.sqrt 0 0 (unitInterface ℝ) (sideGaze ℝ)
    (upGaze ℝ) (sideGaze ℝ)
    (by
      rw [show (unitInterface ℝ).m_leftEye = unitEye ℝ from rfl, sideGaze_intersection,
        upGaze_intersection, norm2_one_zero_real, norm2_zero_one_real])
    (by
      rw [show (unitInterface ℝ).m_leftEye = unitEye ℝ from rfl, sideGaze_intersection,
        upGaze_intersection, norm2_one_zero_real, norm2_zero_one_real])

theorem isActive_spec [FloorRing α] (dev : VRDevice α) (vr : VRInterface α) :
    (isActive dev vr).2.m_isActive = (isActive dev vr).1
    ∧ (isActive dev vr).2.deadzone = vr.deadzone := by
  unfold isActive
  cases h0 : vr.m_isActive
  swap
  · rw [if_pos rfl]; exact ⟨h0, rfl⟩
  rw [if_neg Bool.false_ne_true]
  by_cases h1 : dev.now - vr.m_lastActiveCheck < 1
  · rw [if_pos h1]; exact ⟨h0, rfl⟩
  rw [if_neg h1]
  by_cases h2 : dev.outputCount = 0
  · rw [if_pos h2]; exact ⟨rfl, rfl⟩
  rw [if_neg h2]
  cases dev.isLeftEyeActive with
  | none => exact ⟨rfl, rfl⟩
  | some l =>
    cases l with
    | false => exact ⟨rfl, rfl⟩
    | true =>
      cases dev.isRightEyeActive with
      | none => exact ⟨rfl, rfl⟩
      | some r =>
        cases r with
        | false => exact ⟨rfl, rfl⟩
        | true =>
          cases dev.interCameraDistance with
          | none => exact ⟨rfl, rfl⟩
          | some d =>
            cases dev.eyesZPosition with
            | none => exact ⟨rfl, rfl⟩
            | some z =>
              cases dev.leftImageControlPortName with
              | none => exact ⟨rfl, rfl⟩
              | some nl =>
                cases dev.leftPortOpens with
                | false => exact ⟨rfl, rfl⟩
                | true =>
                  cases dev.leftPortConnects with
                  | false => exact ⟨rfl, rfl⟩
                  | true =>
                    cases dev.rightImageControlPortName with
                    | none => exact ⟨rfl, rfl⟩
                    | some nr =>
                      cases dev.rightPortOpens with
                      | false => exact ⟨rfl, rfl⟩
                      | true =>
                        cases dev.rightPortConnects with
                        | false => exact ⟨rfl, rfl⟩
                        | true => exact ⟨rfl, rfl⟩

theorem computeDesiredRobotEyeVelocities_degenerate
    (imageFrame : EyeControl α → Axis α → Axis α) (sqrt : α → α) (nowL nowR : α)
    (vr : VRInterface α) (leftGaze rightGaze : Axis α)
    (h : |(imageFrame vr.m_leftEye leftGaze).direction.2.2| < 1 / 10 ^ 15
      ∨ |(imageFrame vr.m_rightEye rightGaze).direction.2.2| < 1 / 10 ^ 15) :
    computeDesiredRobotEyeVelocities imageFrame sqrt nowL nowR vr leftGaze rightGaze
      = (none, vr) := by
  unfold computeDesiredRobotEyeVelocities
  rcases h with h | h
  · have hL : (intersectionInImage imageFrame vr.m_leftEye leftGaze).1 = false := by
      unfold intersectionInImage; simp only [h, if_true]
    simp only [hL, Bool.not_false, Bool.true_or, if_true]
  · have hR : (intersectionInImage imageFrame vr.m_rightEye rightGaze).1 = false := by
      unfold intersectionInImage; simp only [h, if_true]
    simp only [hR, Bool.not_false, Bool.or_true, if_true]

/-- C21. Degenerate gaze: in a configured `GazeRetargeting` whose `isActive`
returns true, whose gaze has been set and whose encoder read succeeds, if the
left or the right gaze ray, expressed in the frame of its image, has a
direction whose component normal to the image plane is below `1e-15` in
absolute value, then `update` returns false, issues no command to the eye
joints, and leaves the deadzone state as it was. -/
theorem update_degenerate_gaze [FloorRing α] (tanh : α → α)
    (imageFrame : EyeControl α → Axis α → Axis α) (sqrt : α → α) (pi : α) (env : TickEnv α)
    (g : GazeRetargetingData α) (enc : List α) (hc : g.m_configured = true)
    (ha : (isActive env.device g.m_VRInterface).1 = true) (hg : g.m_gazeSet = true)
    (hE : g.hasEyesEnc = true) (henc : env.encoders = some enc)
    (hdeg : |(imageFrame (isActive env.device g.m_VRInterface).2.m_leftEye
          g.m_leftGazeOperator).direction.2.2| < 1 / 10 ^ 15
      ∨ |(imageFrame (isActive env.device g.m_VRInterface).2.m_rightEye
          g.m_rightGazeOperator).direction.2.2| < 1 / 10 ^ 15) :
    (update tanh imageFrame sqrt pi env g).1 = false
    ∧ (update tanh imageFrame sqrt pi env g).2.2 = []
    ∧ (update tanh imageFrame sqrt pi env g).2.1.m_VRInterface.deadzone
        = g.m_VRInterface.deadzone := by
  have hcomp := computeDesiredRobotEyeVelocities_degenerate imageFrame sqrt env.nowL env.nowR
    (isActive env.device g.m_VRInterface).2 g.m_leftGazeOperator g.m_rightGazeOperator hdeg
  unfold update updateRobotEyeEncoders
  simp only [hc, ha, hE, henc, hg, hcomp, Bool.not_true, Bool.false_eq_true, if_false, if_true]
  exact ⟨trivial, trivial, (isActive_spec _ _).2⟩

theorem isActive_of_flag [FloorRing α] (dev : VRDevice α) (vr : VRInterface α)
    (h : vr.m_isActive = true) : isActive dev vr = (true, vr) := by
  unfold isActive
  rw [if_pos h]

theorem trackingDevice_activates :
    (isActive (trackingDevice ℝ) (unitInterface ℝ)).1 = true := by
  norm_num [isActive, trackingDevice, unitInterface]

/-- C21, witness: `parallelGazeData` is configured and active with its gaze set,
the encoders are read, and the left gaze ray lies in its image plane. -/
theorem update_degenerate_gaze_witness :
    (update Real.tanh (fun _ g => g) Real.sqrt Real.pi (trackingTick ℝ)
        (parallelGazeData ℝ)).1 = false
    ∧ (update Real.tanh (fun _ g => g) Real.sqrt Real.pi (trackingTick ℝ)
        (parallelGazeData ℝ)).2.2 = []
    ∧ (update Real.tanh (fun _ g => g) Real.sqrt Real.pi (trackingTick ℝ)
        (parallelGazeData ℝ)).2.1.m_VRInterface.deadzone
        = (parallelGazeData ℝ).m_VRInterface.deadzone :=
  update_degenerate_gaze Real.tanh (fun _ g => g) Real.sqrt Real.pi (trackingTick ℝ)
    (parallelGazeData ℝ) [0, 0, 0] rfl
    (by
      rw [isActive_of_flag _ _ (by
        show (isActive (trackingDevice ℝ) (unitInterface ℝ)).2.m_isActive = true
        rw [(isActive_spec _ _).1]; exact trackingDevice_activates)])
    rfl rfl rfl
    (Or.inl (by
      show |(0 : ℝ)| < 1 / 10 ^ 15
      norm_num))

theorem update_commands_when_active [FloorRing α] (tanh : α → α)
    (imageFrame : EyeControl α → Axis α → Axis α) (sqrt : α → α) (pi : α) (env : TickEnv α)
    (g : GazeRetargetingData α) (enc : List α) (hc : g.m_configured = true)
    (ha : g.m_VRInterface.m_isActive = true) (hg : g.m_gazeSet = false)
    (hE : g.hasEyesEnc = true) (hV : g.hasEyesVel = true) (henc : env.encoders = some enc)
    (hmove : env.velocityMoveOk = true) :
    (update tanh imageFrame sqrt pi env g).1 = true
    ∧ ∃ t v w, (update tanh imageFrame sqrt pi env g).2.2 = [EyeCommand.velocityMove t v w] := by
  unfold update updateRobotEyeEncoders
  simp only [hc, isActive_of_flag env.device g.m_VRInterface ha, hE, hV, henc, hg, hmove,
    Bool.not_true, Bool.false_eq_true, if_false, if_true]
  exact ⟨trivial, _, _, _, rfl⟩

/-- C24, counterexample: `isActive` returns true on `trackingDevice`; five seconds
later the device `lostDevice` reports both eyes as not active, yet `isActive`
still returns true and `update` returns true after sending a velocity command
to the eye joints. -/
theorem isActive_true_after_tracking_lost :
    (isActive (trackingDevice ℝ) (unitInterface ℝ)).1 = true
    ∧ (lostDevice ℝ).isLeftEyeActive = some false
    ∧ (lostDevice ℝ).isRightEyeActive = some false
    ∧ (isActive (lostDevice ℝ) (isActive (trackingDevice ℝ) (unitInterface ℝ)).2).1 = true
    ∧ (update Real.tanh (fun _ g => g) Real.sqrt Real.pi (lostTick ℝ) (activatedData ℝ)).1
        = true
    ∧ ∃ t v w,
        (update Real.tanh (fun _ g => g) Real.sqrt Real.pi (lostTick ℝ) (activatedData ℝ)).2.2
          = [EyeCommand.velocityMove t v w] := by
  have hflag : (isActive (trackingDevice ℝ) (unitInterface ℝ)).2.m_isActive = true := by
    rw [(isActive_spec _ _).1]; exact trackingDevice_activates
  refine ⟨trackingDevice_activates, rfl, rfl, ?_, ?_⟩
  · rw [isActive_of_flag _ _ hflag]
  · exact update_commands_when_active Real.tanh (fun _ g => g) Real.sqrt Real.pi (lostTick ℝ)
      (activatedData ℝ) [0, 0, 0] rfl hflag rfl rfl rfl rfl rfl

/-- C24 (as amended). The active flag latches: once `isActive` has returned true,
every later call returns true whatever the device reports (the device is not
queried again) and leaves the interface unchanged; and `update` of a
configured object holding this interface does not take its do-nothing branch:
with the gaze not set, the encoders read and `velocityMove` succeeding, it
returns true after sending one velocity command to the eye joints. -/
theorem isActive_latches [FloorRing α] (tanh : α → α)
    (imageFrame : EyeControl α → Axis α → Axis α) (sqrt : α → α) (pi : α)
    (dev dev2 : VRDevice α) (vr : VRInterface α) (h : (isActive dev vr).1 = true) :
    isActive dev2 (isActive dev vr).2 = (true, (isActive dev vr).2)
    ∧ ∀ (env : TickEnv α) (g : GazeRetargetingData α) (enc : List α),
        g.m_VRInterface = (isActive dev vr).2 → g.m_configured = true →
        g.m_gazeSet = false → g.hasEyesEnc = true → g.hasEyesVel = true →
        env.encoders = some enc → env.velocityMoveOk = true →
        (update tanh imageFrame sqrt pi env g).1 = true
        ∧ ∃ t v w,
            (update tanh imageFrame sqrt pi env g).2.2 = [EyeCommand.velocityMove t v w] := by
  have hflag : (isActive dev vr).2.m_isActive = true := by
    rw [(isActive_spec dev vr).1]; exact h
  refine ⟨isActive_of_flag dev2 _ hflag, ?_⟩
  intro env g enc hvr hc hg hE hV henc hmove
  exact update_commands_when_active tanh imageFrame sqrt pi env g enc hc
    (by rw [hvr]; exact hflag) hg hE hV henc hmove

/-- C24, witness: `unitInterface` activated on `trackingDevice`, then queried on
`lostDevice`. -/
theorem isActive_latches_witness :
    isActive (lostDevice ℝ) (isActive (trackingDevice ℝ) (unitInterface ℝ)).2
      = (true, (isActive (trackingDevice ℝ) (unitInterface ℝ)).2) :=
  (isActive_latches Real.tanh (fun _ g => g) Real.sqrt Real.pi (trackingDevice ℝ)
    (lostDevice ℝ) (unitInterface ℝ)
    (by norm_num [isActive, trackingDevice, unitInterface])).1

/-- C25, failing input: tilt encoder at -10 degrees, version and vergence at 0,
maximum speed 20 deg/s.  The greatest of the three signed angles is 0, so
`homeRobotEyes` waits `3 * 0 / deg2rad(20) = 0` seconds, while
`3 * max(|-10|, |0|, |0|) / 20` is 1.5 seconds. -/
theorem homeRobotEyes_negative_tilt_no_wait :
    (homeRobotEyes Real.pi (some [-10, 0, 0]) true (homingData ℝ)).1 = true
    ∧ (homeRobotEyes Real.pi (some [-10, 0, 0]) true (homingData ℝ)).2.2
      = [EyeCommand.setRefSpeeds 20 20 20, EyeCommand.positionMove 0 0 0, EyeCommand.delay 0]
    ∧ 3 * max |(-10 : ℝ)| (max |(0 : ℝ)| |(0 : ℝ)|) / 20 = 3 / 2 := by
  have hneg : deg2rad Real.pi (-10) < 0 := by
    unfold deg2rad
    have := Real.pi_pos
    linarith
  have h0 : deg2rad Real.pi 0 = 0 := by simp [deg2rad]
  refine ⟨?_, ?_, ?_⟩
  · simp [homeRobotEyes, updateRobotEyeEncoders, homingData]
  · simp [homeRobotEyes, updateRobotEyeEncoders, homingData, HapticGlove.maxElementIndex,
      HapticGlove.maxElementLoop, h0, hneg]
  · norm_num [abs_of_neg]

end GazeRetargeting
